import Mathlib

/-!
Verification of the identifier-prefixing / document-composition engine of the
fbfsvg-player repository (scripts/svg_id_prefixer.py and
scripts/svg_grid_compositor.py).

The Python code is a pure text transformation built from `re.sub` passes.  We
embed documents as `List Char` and implement each regular-expression pass as a
deterministic left-to-right scanner with the exact semantics of the Python
pattern (all the patterns used by the code are backtracking-free: every
character class in them excludes its own terminator, so greedy matching is
deterministic).  `re.sub` semantics: scan positions left to right; at a match,
emit the replacement produced by the callback and resume after the matched
span; otherwise emit the character and advance by one.  A callback that
returns `m.group(0)` is modelled by emitting the reconstructed matched text
(byte-identical).

Modelling conventions:
* Python `\w`, `\b`, alphanumeric classes are modelled over their ASCII
  fragment (all documents exercised by the claims are ASCII).
* Python `set` iteration order is abstracted by a first-occurrence
  deduplicated list; no claim below depends on the iteration order (only on
  membership, cardinality and emptiness of the derived data).
* Python floats are modelled as exact rationals (ℚ); numeric claims are
  settled in exact arithmetic.
* `raise` is modelled by `Except.error`; a function that cannot raise is
  total.
-/

deriving instance DecidableEq for Except

namespace FbfSvg

abbrev Chars := List Char

/-- Characters counted by the Python regex class `["\']` (either quote). -/
def isQuoteCh (c : Char) : Bool := c = '"' || c = '\''

/-- Model of the regex class `[^"\']` (any character except both quotes). -/
def nonQuote (c : Char) : Bool := !(c = '"' || c = '\'')

/-- ASCII fragment of Python's `\w` class: `[a-zA-Z0-9_]`. -/
def wordCh (c : Char) : Bool := c.isAlphanum || c = '_'

/-- Regex class `[a-zA-Z_]` (first character of a timing identifier). -/
def identStart (c : Char) : Bool := c.isAlpha || c = '_'

/-- Regex class `[a-zA-Z0-9_-]` (tail characters of a timing identifier). -/
def identCh (c : Char) : Bool := c.isAlphanum || c = '_' || c = '-'

/-- ASCII fragment of Python's `\s` class. -/
def spaceCh (c : Char) : Bool :=
  c = ' ' || c = '\t' || c = '\n' || c = '\r' || c = '\x0b' || c = '\x0c'

/-- Regex class `[^\s;"\'\)]` used inside `values="..."` reference lists. -/
def valRefCh (c : Char) : Bool :=
  !(spaceCh c || c = ';' || c = '"' || c = '\'' || c = ')')

/-- Regex class `[a-z-]` used for `data-*` attribute names. -/
def dataNameCh (c : Char) : Bool := ('a' ≤ c && c ≤ 'z') || c = '-'

/-- Regex class `[^)]`. -/
def nonParen (c : Char) : Bool := c ≠ ')'

/-- Regex class `[^>]`. -/
def nonGt (c : Char) : Bool := c ≠ '>'

/-- Strip a literal pattern from the front of the input (case-sensitive). -/
def litM : Chars → Chars → Option Chars
  | [], s => some s
  | _, [] => none
  | p :: ps, c :: cs => if c = p then litM ps cs else none

/-- Strip a literal pattern from the front of the input, case-insensitively
(models `re.IGNORECASE` literals). -/
def litMCI : Chars → Chars → Option Chars
  | [], s => some s
  | _, [] => none
  | p :: ps, c :: cs => if c.toLower = p.toLower then litMCI ps cs else none

/-- Take the head if it is a quote character; models the group `(["\'])`. -/
def quoteHead : Chars → Option (Char × Chars)
  | [] => none
  | c :: s => if isQuoteCh c then some (c, s) else none

/-- Maximal nonempty span of characters satisfying `p`; models a greedy
`[class]+` group whose class excludes its terminator. -/
def span1 (p : Char → Bool) (s : Chars) : Option (Chars × Chars) :=
  match s.takeWhile p with
  | [] => none
  | t => some (t, s.dropWhile p)

/-- Word-boundary test of `\b` placed before a word character: the previous
character (`none` at the start of the string) must not be a word character. -/
def boundB : Option Char → Bool
  | none => true
  | some c => !wordCh c

/-- Parse the declaration shape `id=<q>tok<q'>` at the head of the input
(underlying both the collection pattern `\bid=["\']([^"\']+)["\']` and the
rewrite pattern `\bid=(["\'])([^"\']+)\1`; it is the caller who constrains
the closing quote).  Returns (open quote, token, close quote, rest). -/
def declMatch (s : Chars) : Option (Char × Chars × Char × Chars) :=
  match litM "id=".data s with
  | none => none
  | some s1 =>
    match quoteHead s1 with
    | none => none
    | some (q, s2) =>
      match span1 nonQuote s2 with
      | none => none
      | some (tok, s3) =>
        match s3 with
        | [] => none
        | c2 :: s4 => if isQuoteCh c2 then some (q, tok, c2, s4) else none

/-- A match step for the generic `re.sub` scanner: replacement text, number of
successful renames performed inside the match, and the remaining input. -/
abbrev SubStep := Chars × Nat × Chars

/-- Generic left-to-right scanner over a string, the common engine of
`re.sub` and `re.findall`.  `mtch` attempts a match at the current position
(receiving the previous original character, for `\b` tests); on a match its
result is combined with the scan of the remaining input, otherwise the
single-character contribution `one c` is combined and scanning advances by
one.  Structural recursion on a fuel argument; the fuel and the length guard
are termination devices only: every matcher used below consumes at least one
character, and callers supply fuel exceeding the input length. -/
def scanBF (mtch : Option Char → Chars → Option (β × Option Char × Chars))
    (one : Char → β) (nilv : β) (comb : β → β → β) :
    Nat → Option Char → Chars → β
  | 0, _, _ => nilv
  | _ + 1, _, [] => nilv
  | f + 1, prev, c :: s =>
    match mtch prev (c :: s) with
    | some (b, prev2, rest) =>
      if rest.length < s.length + 1 then comb b (scanBF mtch one nilv comb f prev2 rest)
      else comb (one c) (scanBF mtch one nilv comb f (some c) s)
    | none => comb (one c) (scanBF mtch one nilv comb f (some c) s)

/-- Run the generic scanner with adequate fuel. -/
def scanB (mtch : Option Char → Chars → Option (β × Option Char × Chars))
    (one : Char → β) (nilv : β) (comb : β → β → β)
    (prev : Option Char) (s : Chars) : β :=
  scanBF mtch one nilv comb (s.length + 1) prev s

/-- Adapter for matchers that ignore the word-boundary state (patterns 2-10
carry no `\b`): the successor state is irrelevant to them as well. -/
def noPrev (tryf : Chars → Option SubStep) :
    Option Char → Chars → Option (Chars × Option Char × Chars) :=
  fun _ s => (tryf s).map (fun r => (r.1, none, r.2.2))

/-- Adapter extracting the rename count of a matcher. -/
def noPrevC (tryf : Chars → Option SubStep) :
    Option Char → Chars → Option (Nat × Option Char × Chars) :=
  fun _ s => (tryf s).map (fun r => (r.2.1, none, r.2.2))

/-- Generic `re.sub` scanner, text component: at a match the callback's
replacement is emitted and scanning resumes after the matched span, otherwise
one character is copied. -/
def subT (tryf : Chars → Option SubStep) (s : Chars) : Chars :=
  scanB (noPrev tryf) (fun c => [c]) [] (· ++ ·) none s

/-- Generic `re.sub` scanner, rename-count component (the `ref_count` that
the callbacks of `prefix_svg_ids` accumulate via `nonlocal`). -/
def subC (tryf : Chars → Option SubStep) (s : Chars) : Nat :=
  scanB (noPrevC tryf) (fun _ => 0) 0 (· + ·) none s

/-- Parse the alternation `(xlink:href|href)=` (leftmost alternative first, as
Python does); returns the matched attribute name and the rest. -/
def hrefAttr (s : Chars) : Option (Chars × Chars) :=
  match litM "xlink:href=".data s with
  | some r => some ("xlink:href".data, r)
  | none =>
    match litM "href=".data s with
    | some r => some ("href".data, r)
    | none => none

/-- Parse the alternation `(begin|end)=`. -/
def timingAttr (s : Chars) : Option (Chars × Chars) :=
  match litM "begin=".data s with
  | some r => some ("begin".data, r)
  | none =>
    match litM "end=".data s with
    | some r => some ("end".data, r)
    | none => none

/-- Parse the alternation `(from|to|by)=`. -/
def fromToByAttr (s : Chars) : Option (Chars × Chars) :=
  match litM "from=".data s with
  | some r => some ("from".data, r)
  | none =>
    match litM "to=".data s with
    | some r => some ("to".data, r)
    | none =>
      match litM "by=".data s with
      | some r => some ("by".data, r)
      | none => none

/-- Pattern 2 of `prefix_svg_ids`: `(xlink:href|href)=(["\'])#([^"\']+)\2`
with callback `replace_href`. -/
def tryHrefHash (idMap : Chars → Option Chars) (s : Chars) : Option SubStep :=
  match hrefAttr s with
  | none => none
  | some (attr, s1) =>
    match quoteHead s1 with
    | none => none
    | some (q, s2) =>
      match s2 with
      | '#' :: s3 =>
        match span1 nonQuote s3 with
        | none => none
        | some (tok, s4) =>
          match s4 with
          | [] => none
          | c2 :: s5 =>
            if c2 = q then
              match idMap tok with
              | some newTok => some (attr ++ '=' :: q :: '#' :: (newTok ++ [q]), 1, s5)
              | none => some (attr ++ '=' :: q :: '#' :: (tok ++ [q]), 0, s5)
            else none
      | _ => none

/-- Pattern 3 of `prefix_svg_ids`:
`(xlink:href|href)=(["\'])url\(#([^)]+)\)\2` with callback
`replace_href_url`. -/
def tryHrefUrl (idMap : Chars → Option Chars) (s : Chars) : Option SubStep :=
  match hrefAttr s with
  | none => none
  | some (attr, s1) =>
    match quoteHead s1 with
    | none => none
    | some (q, s2) =>
      match litM "url(#".data s2 with
      | none => none
      | some s3 =>
        match span1 nonParen s3 with
        | none => none
        | some (tok, s4) =>
          match s4 with
          | ')' :: c2 :: s5 =>
            if c2 = q then
              match idMap tok with
              | some newTok =>
                some (attr ++ '=' :: q :: ("url(#".data ++ newTok ++ [')', q]), 1, s5)
              | none =>
                some (attr ++ '=' :: q :: ("url(#".data ++ tok ++ [')', q]), 0, s5)
            else none
          | _ => none

/-- Pattern 4 of `prefix_svg_ids`: `url\(#([^)]+)\)` with callback
`replace_url_ref`. -/
def tryUrl (idMap : Chars → Option Chars) (s : Chars) : Option SubStep :=
  match litM "url(#".data s with
  | none => none
  | some s1 =>
    match span1 nonParen s1 with
    | none => none
    | some (tok, s2) =>
      match s2 with
      | ')' :: s3 =>
        match idMap tok with
        | some newTok => some ("url(#".data ++ newTok ++ [')'], 1, s3)
        | none => some ("url(#".data ++ tok ++ [')'], 0, s3)
      | _ => none

/-- Inner pattern of pass 5: `#([^\s;"\'\)]+)` with callback
`replace_single_ref`, applied inside a `values` attribute. -/
def tryValRef (idMap : Chars → Option Chars) (s : Chars) : Option SubStep :=
  match s with
  | '#' :: s1 =>
    match span1 valRefCh s1 with
    | none => none
    | some (tok, s2) =>
      match idMap tok with
      | some newTok => some ('#' :: newTok, 1, s2)
      | none => some ('#' :: tok, 0, s2)
  | _ => none

/-- Pattern 5 of `prefix_svg_ids`: `values=(["\'])([^"\']*)\1` with callback
`replace_values_refs`, which re-substitutes the inner `#id` references. -/
def tryValues (idMap : Chars → Option Chars) (s : Chars) : Option SubStep :=
  match litM "values=".data s with
  | none => none
  | some s1 =>
    match quoteHead s1 with
    | none => none
    | some (q, s2) =>
      let content := s2.takeWhile nonQuote
      match s2.dropWhile nonQuote with
      | c2 :: s3 =>
        if c2 = q then
          some ("values=".data ++ q :: (subT (tryValRef idMap) content ++ [q]),
                subC (tryValRef idMap) content, s3)
        else none
      | [] => none

/-- Inner pattern of pass 6: `([a-zA-Z_][a-zA-Z0-9_-]*)\.(\w+)` with callback
`replace_timing_id`, applied inside a `begin`/`end` attribute. -/
def tryTimingRef (idMap : Chars → Option Chars) (s : Chars) : Option SubStep :=
  match s with
  | c :: s1 =>
    if identStart c then
      let tl := s1.takeWhile identCh
      let ident := c :: tl
      match s1.dropWhile identCh with
      | '.' :: s2 =>
        match span1 wordCh s2 with
        | none => none
        | some (ev, s3) =>
          match idMap ident with
          | some newTok => some (newTok ++ '.' :: ev, 1, s3)
          | none => some (ident ++ '.' :: ev, 0, s3)
      | _ => none
    else none
  | [] => none

/-- Pattern 6 of `prefix_svg_ids`: `(begin|end)=(["\'])([^"\']+)\2` with
callback `replace_timing_ref`, which re-substitutes `id.event` tokens. -/
def tryTiming (idMap : Chars → Option Chars) (s : Chars) : Option SubStep :=
  match timingAttr s with
  | none => none
  | some (attr, s1) =>
    match quoteHead s1 with
    | none => none
    | some (q, s2) =>
      match span1 nonQuote s2 with
      | none => none
      | some (content, s3) =>
        match s3 with
        | c2 :: s4 =>
          if c2 = q then
            some (attr ++ '=' :: q :: (subT (tryTimingRef idMap) content ++ [q]),
                  subC (tryTimingRef idMap) content, s4)
          else none
        | [] => none

/-- Pattern 7 of `prefix_svg_ids`: `(from|to|by)=(["\'])#([^"\']+)\2` with
callback `replace_from_to`. -/
def tryFromToBy (idMap : Chars → Option Chars) (s : Chars) : Option SubStep :=
  match fromToByAttr s with
  | none => none
  | some (attr, s1) =>
    match quoteHead s1 with
    | none => none
    | some (q, s2) =>
      match s2 with
      | '#' :: s3 =>
        match span1 nonQuote s3 with
        | none => none
        | some (tok, s4) =>
          match s4 with
          | [] => none
          | c2 :: s5 =>
            if c2 = q then
              match idMap tok with
              | some newTok => some (attr ++ '=' :: q :: '#' :: (newTok ++ [q]), 1, s5)
              | none => some (attr ++ '=' :: q :: '#' :: (tok ++ [q]), 0, s5)
            else none
      | _ => none

/-- Pattern 8 of `prefix_svg_ids`: `getElementById\((["\'])([^"\']+)\1\)` with
callback `replace_js_getelementbyid`. -/
def tryGetById (idMap : Chars → Option Chars) (s : Chars) : Option SubStep :=
  match litM "getElementById(".data s with
  | none => none
  | some s1 =>
    match quoteHead s1 with
    | none => none
    | some (q, s2) =>
      match span1 nonQuote s2 with
      | none => none
      | some (tok, s3) =>
        match s3 with
        | c2 :: ')' :: s4 =>
          if c2 = q then
            match idMap tok with
            | some newTok =>
              some ("getElementById(".data ++ q :: (newTok ++ [q, ')']), 1, s4)
            | none =>
              some ("getElementById(".data ++ q :: (tok ++ [q, ')']), 0, s4)
          else none
        | _ => none

/-- Pattern 9 of `prefix_svg_ids`: `querySelector\((["\'])#([^"\']+)\1\)` with
callback `replace_js_queryselector`. -/
def tryQuerySel (idMap : Chars → Option Chars) (s : Chars) : Option SubStep :=
  match litM "querySelector(".data s with
  | none => none
  | some s1 =>
    match quoteHead s1 with
    | none => none
    | some (q, s2) =>
      match s2 with
      | '#' :: s3 =>
        match span1 nonQuote s3 with
        | none => none
        | some (tok, s4) =>
          match s4 with
          | c2 :: ')' :: s5 =>
            if c2 = q then
              match idMap tok with
              | some newTok =>
                some ("querySelector(".data ++ q :: '#' :: (newTok ++ [q, ')']), 1, s5)
              | none =>
                some ("querySelector(".data ++ q :: '#' :: (tok ++ [q, ')']), 0, s5)
            else none
          | _ => none
      | _ => none

/-- Pattern 10 of `prefix_svg_ids`: `(data-[a-z-]+)=(["\'])#([^"\']+)\2` with
callback `replace_data_attr`. -/
def tryDataAttr (idMap : Chars → Option Chars) (s : Chars) : Option SubStep :=
  match litM "data-".data s with
  | none => none
  | some s1 =>
    match span1 dataNameCh s1 with
    | none => none
    | some (nm, s2) =>
      match s2 with
      | '=' :: s3 =>
        match quoteHead s3 with
        | none => none
        | some (q, s4) =>
          match s4 with
          | '#' :: s5 =>
            match span1 nonQuote s5 with
            | none => none
            | some (tok, s6) =>
              match s6 with
              | [] => none
              | c2 :: s7 =>
                if c2 = q then
                  match idMap tok with
                  | some newTok =>
                    some ("data-".data ++ nm ++ '=' :: q :: '#' :: (newTok ++ [q]), 1, s7)
                  | none =>
                    some ("data-".data ++ nm ++ '=' :: q :: '#' :: (tok ++ [q]), 0, s7)
                else none
          | _ => none
      | _ => none

/-- Matcher for pattern 1 of `prefix_svg_ids`
(`\bid=(["\'])([^"\']+)\\1` with callback `replace_id_decl`): a declaration
parse whose closing quote must equal the opening one (backreference) and
whose start must sit on a word boundary.  The scan resumes after the closing
quote, which becomes the new previous character. -/
def declTry (idMap : Chars → Option Chars) (prev : Option Char) (s : Chars) :
    Option (SubStep × Option Char) :=
  match declMatch s with
  | none => none
  | some (q, tok, q2, rest) =>
    if boundB prev && (q2 = q) then
      match idMap tok with
      | some newTok => some (("id=".data ++ q :: (newTok ++ [q]), 1, rest), some q)
      | none => some (("id=".data ++ q :: (tok ++ [q]), 0, rest), some q)
    else none

/-- Pattern 1 of `prefix_svg_ids`, text component. -/
def pass1T (idMap : Chars → Option Chars) (prev : Option Char) (s : Chars) : Chars :=
  scanB (fun p t => (declTry idMap p t).map (fun r => (r.1.1, r.2, r.1.2.2)))
    (fun c => [c]) [] (· ++ ·) prev s

/-- Pattern 1 of `prefix_svg_ids`, rename-count component. -/
def pass1C (idMap : Chars → Option Chars) (prev : Option Char) (s : Chars) : Nat :=
  scanB (fun p t => (declTry idMap p t).map (fun r => (r.1.2.1, r.2, r.1.2.2)))
    (fun _ => 0) 0 (· + ·) prev s

/-- The id-collection scan `re.findall(r'\bid=["\']([^"\']+)["\']', text)`
(`id_pattern` of `prefix_svg_ids`): closing quote may be either quote, `\b`
before `id`, and the scan resumes after the closing quote. -/
def collectIds (prev : Option Char) (s : Chars) : List Chars :=
  scanB (fun p t =>
      match declMatch t with
      | none => none
      | some (_, tok, q2, rest) =>
        if boundB p then some ([tok], some q2, rest) else none)
    (fun _ => []) [] (· ++ ·) prev s

/-- First-occurrence deduplication; stands in for Python's `set(...)` (only
membership, cardinality and emptiness of the result are ever relied upon). -/
def dedup : List Chars → List Chars
  | [] => []
  | x :: xs => x :: ((dedup xs).filter (fun y => y ≠ x))

/-- Substring containment, Python's `needle in hay`. -/
def containsSub (hay needle : Chars) : Bool :=
  match hay with
  | [] => needle.isEmpty
  | _ :: t => needle.isPrefixOf hay || containsSub t needle

/-- The identifier table lookup: `id_map` of `prefix_svg_ids` maps every
identifier scheduled for prefixing to its prefixed form. -/
def idLookup (tbl : List Chars) (pfxL : Chars) (tok : Chars) : Option Chars :=
  if tok ∈ tbl then some (pfxL ++ tok) else none

/-- The `stats` dictionary returned by `prefix_svg_ids`. -/
structure PfxStats where
  ids_found : Nat
  references_updated : Nat
  errors : List String
deriving Repr, DecidableEq

/-- The result dictionary of `prefix_svg_ids` (`used_pfx` is the `'prefix'`
key of the Python dict). -/
structure PfxResult where
  content : String
  used_pfx : String
  stats : PfxStats
  errors : List String
deriving Repr, DecidableEq

/-- Embedding of `prefix_svg_ids(svg_content, prefix, verify)` for an
explicitly supplied prefix (the `prefix=None` branch, which derives a prefix
from an MD5 digest, is outside this model; every call exercised below passes
an explicit prefix, as `combine_svgs_with_prefixes` and
`create_grid_composite` do). -/
def prefix_svg_ids (svg_content pfx : String) (verify : Bool) : PfxResult :=
  let s := svg_content.data
  let pL := pfx.data
  let original_ids := dedup (collectIds none s)
  let ids_found := original_ids.length
  let ids_to_pfx := original_ids.filter (fun v => !(pL.isPrefixOf v))
  if ids_to_pfx.isEmpty then
    { content := svg_content, used_pfx := pfx,
      stats := { ids_found := ids_found, references_updated := 0, errors := [] },
      errors := [] }
  else
    let m := idLookup ids_to_pfx pL
    let r1 := pass1T m none s
    let k1 := pass1C m none s
    let r2 := subT (tryHrefHash m) r1
    let k2 := subC (tryHrefHash m) r1
    let r3 := subT (tryHrefUrl m) r2
    let k3 := subC (tryHrefUrl m) r2
    let r4 := subT (tryUrl m) r3
    let k4 := subC (tryUrl m) r3
    let r5 := subT (tryValues m) r4
    let k5 := subC (tryValues m) r4
    let r6 := subT (tryTiming m) r5
    let k6 := subC (tryTiming m) r5
    let r7 := subT (tryFromToBy m) r6
    let k7 := subC (tryFromToBy m) r6
    let r8 := subT (tryGetById m) r7
    let k8 := subC (tryGetById m) r7
    let r9 := subT (tryQuerySel m) r8
    let k9 := subC (tryQuerySel m) r8
    let r10 := subT (tryDataAttr m) r9
    let k10 := subC (tryDataAttr m) r9
    let refCount := k1 + k2 + k3 + k4 + k5 + k6 + k7 + k8 + k9 + k10
    let errs : List String :=
      if verify then
        let remaining := dedup (collectIds none r10)
        let declErrs := (remaining.filter (fun v => v ∈ ids_to_pfx)).map
          (fun v => "Unprefixed ID declaration remains: " ++ String.mk v)
        let sample := ids_to_pfx.take 100
        let refErrs := sample.filterMap (fun v =>
          if containsSub r10 ("href=\"#".data ++ v ++ ['"'])
              || containsSub r10 ("href='#".data ++ v ++ ['\''])
              || containsSub r10 ("url(#".data ++ v ++ [')']) then
            some ("Unprefixed reference remains for ID: " ++ String.mk v)
          else none)
        declErrs ++ refErrs
      else []
    { content := String.mk r10, used_pfx := pfx,
      stats := { ids_found := ids_found, references_updated := refCount,
                 errors := errs },
      errors := errs }

/-- Little-endian digit list of the bijective base-26 loop of
`_index_to_prefix` (append `chars[n % 26]`, then `n = n // 26 - 1`, stop when
negative), structurally recursive on a fuel argument; fuel `n` is always
adequate because the next value `n / 26 - 1` is at most `n - 1`. -/
def pfxDigitsF : Nat → Nat → List Nat
  | 0, n => [n % 26]
  | f + 1, n => n % 26 :: (if n < 26 then [] else pfxDigitsF f (n / 26 - 1))

/-- Digit list of `_index_to_prefix` with adequate fuel. -/
def pfxDigits (n : Nat) : List Nat := pfxDigitsF n n

/-- Embedding of `_index_to_prefix`: 0 maps to `a_`, 25 to `z_`, 26 to `aa_`
(spreadsheet-column style), reversing the digit list and appending `_`.
`string.ascii_lowercase[d]` is the character of code `97 + d`. -/
def index_to_pfx (i : Nat) : String :=
  String.mk (((pfxDigits i).reverse.map (fun d => Char.ofNat (97 + d))) ++ ['_'])

/-- One item of the `svg_contents` argument of `combine_svgs_with_prefixes`:
a Python tuple of length 2, of length 4, or of any other (invalid) arity. -/
inductive CombineItem where
  | pair (content name : String)
  | quad (content name : String) (x y : ℚ)
  | other (arity : Nat)
deriving Repr, DecidableEq

/-- The per-item data accumulated by the loop of
`combine_svgs_with_prefixes` (`prefixes_used`, `positions_used`,
`all_prefixed` and the running totals). -/
structure CombEntry where
  content : String
  name : String
  x : ℚ
  y : ℚ
  pfx : String
  ids : Nat
  refs : Nat
deriving Repr, DecidableEq

/-- Result dictionary of `combine_svgs_with_prefixes`.  Python's
`prefixes_used`/`positions_used` dicts are modelled as association lists in
loop order (one entry per input document). -/
structure CombineRes where
  content : String
  pfx_pairs : List (String × String)
  positions : List (String × ℚ × ℚ)
  total_ids : Nat
  total_refs : Nat
  svg_count : Nat
deriving Repr, DecidableEq

/-- Python `sep.join(list)`. -/
def joinSep (sep : String) : List String → String
  | [] => ""
  | [x] => x
  | x :: y :: xs => x ++ sep ++ joinSep sep (y :: xs)

/-- Left-to-right effectful map in the `Except` monad, mirroring a Python
`for` loop that may raise (the first failure aborts). -/
def mapME (f : α → Except String β) : List α → Except String (List β)
  | [] => .ok []
  | a :: l =>
    match f a with
    | .error e => .error e
    | .ok b =>
      match mapME f l with
      | .error e => .error e
      | .ok bs => .ok (b :: bs)

/-- Python `repr` of a list of strings, used in the
`Prefixing failed for {name}: {errors}` message (approximate: repr escaping
inside the member strings is not reproduced; no claim depends on this
text). -/
def pyListRepr (l : List String) : String :=
  "[" ++ joinSep ", " (l.map (fun e => "'" ++ e ++ "'")) ++ "]"

/-- Scan for the first match of `<svg[^>]*>` (case-insensitive), returning
the index just after the closing `>` (`match.end()`), as used by
`_extract_svg_inner` / `extract_svg_inner`. -/
def svgOpenAt (s : Chars) : Option Chars :=
  match litMCI "<svg".data s with
  | none => none
  | some s1 =>
    match s1.dropWhile nonGt with
    | '>' :: s2 => some s2
    | _ => none

/-- Position just after the first `<svg[^>]*>` match, scanning left to
right. -/
def findSvgOpenEnd : Chars → Nat → Option Nat
  | [], _ => none
  | c :: s, i =>
    match svgOpenAt (c :: s) with
    | some rem => some (i + ((c :: s).length - rem.length))
    | none => findSvgOpenEnd s (i + 1)

/-- Python `str.rfind(needle)`: start index of the last occurrence, `none`
for `-1`. -/
def rfindSubAux (needle : Chars) : Chars → Nat → Option Nat → Option Nat
  | [], _, acc => acc
  | c :: s, i, acc =>
    rfindSubAux needle s (i + 1) (if needle.isPrefixOf (c :: s) then some i else acc)

/-- Embedding of `_extract_svg_inner` (`svg_id_prefixer.py`) and of the
byte-identical copy `extract_svg_inner` (`svg_grid_compositor.py`): content
between the first `<svg ...>` open tag and the last `</svg>`.  When
`rfind` returns `-1` Python slices `[start:-1]`-style with `end = -1`
unrepresented: `svg_content[start:]` is returned only in the explicit
`end == -1` branch, which is modelled here. -/
def extract_svg_inner (svg_content : String) : String :=
  let L := svg_content.data
  match findSvgOpenEnd L 0 with
  | none => svg_content
  | some st =>
    match rfindSubAux "</svg>".data L 0 none with
    | none => String.mk (L.drop st)
    | some e => String.mk ((L.take e).drop st)

/-- The loop body of `combine_svgs_with_prefixes`: unpack the tuple (a tuple
of arity other than 2 or 4 raises), derive the sequence prefix
`_index_to_prefix(i)`, rewrite, and raise when the rewrite reports
verification errors.  A raise aborts the whole batch. -/
def combineLoop : Nat → List CombineItem → Except String (List CombEntry)
  | _, [] => .ok []
  | i, item :: rest =>
    match (match item with
           | .pair c nm => some (c, nm, (0 : ℚ), (0 : ℚ))
           | .quad c nm x y => some (c, nm, x, y)
           | .other _ => none) with
    | none =>
      .error ("Invalid tuple format: expected 2 or 4 elements, got "
        ++ toString (match item with
                     | .pair _ _ => 2
                     | .quad _ _ _ _ => 4
                     | .other n => n))
    | some (c, nm, x, y) =>
      let pfx := index_to_pfx i
      let r := prefix_svg_ids c pfx true
      if r.errors.isEmpty then
        match combineLoop (i + 1) rest with
        | .ok es =>
          .ok ({ content := r.content, name := nm, x := x, y := y, pfx := pfx,
                 ids := r.stats.ids_found, refs := r.stats.references_updated } :: es)
        | .error e => .error e
      else .error ("Prefixing failed for " ++ nm ++ ": " ++ pyListRepr r.errors)

/-- Python `str(float)` for the rational model: exact decimal rendering
(minimal number of fractional digits, at least one).  Values whose
denominator is not a divisor of a power of ten cannot arise from the decimal
inputs exercised here; they get an inert fallback rendering.  (Scientific
notation for huge magnitudes is not reproduced; no claim depends on it.) -/
def dkFrom (den : Nat) : Nat → Nat → Option Nat
  | _, 0 => none
  | j, fuel + 1 => if den ∣ 10 ^ j then some j else dkFrom den (j + 1) fuel

/-- Left-pad a numeral with zeros to `k` digits. -/
def padDigits (m k : Nat) : String :=
  let s := toString m
  String.mk (List.replicate (k - s.length) '0') ++ s

/-- Python `str(float)` on the rational model (see `dkFrom`). -/
def pyQStr (q : ℚ) : String :=
  match dkFrom q.den 0 18 with
  | some 0 => (if q.num < 0 then "-" else "") ++ toString q.num.natAbs ++ ".0"
  | some k =>
    let p := 10 ^ k
    let n := q.num.natAbs * p / q.den
    (if q.num < 0 then "-" else "") ++ toString (n / p) ++ "." ++ padDigits (n % p) k
  | none => toString q.num ++ "/" ++ toString q.den

/-- The transform attribute of a placed group in
`combine_svgs_with_prefixes`: emitted only for a non-zero offset. -/
def transformAttr (x y : ℚ) : String :=
  if x ≠ 0 ∨ y ≠ 0 then
    " transform=\"translate(" ++ pyQStr x ++ ", " ++ pyQStr y ++ ")\""
  else ""

/-- Embedding of `combine_svgs_with_prefixes(svg_contents, container_viewbox,
container_width, container_height)`. -/
def combine_svgs_with_prefixes (items : List CombineItem)
    (container_viewbox : String) (container_width container_height : Int) :
    Except String CombineRes :=
  match combineLoop 0 items with
  | .error e => .error e
  | .ok entries =>
    let parts := entries.map (fun e =>
      "<!-- BEGIN: " ++ e.name ++ " -->\n<g id=\"" ++ e.pfx ++ "root\""
        ++ transformAttr e.x e.y ++ ">\n" ++ extract_svg_inner e.content
        ++ "\n</g>\n<!-- END: " ++ e.name ++ " -->")
    let combined :=
      "<?xml version=\"1.0\" encoding=\"UTF-8\"?>\n<svg xmlns=\"http://www.w3.org/2000/svg\"\n     xmlns:xlink=\"http://www.w3.org/1999/xlink\"\n     width=\""
        ++ toString container_width ++ "\" height=\"" ++ toString container_height
        ++ "\"\n     viewBox=\"" ++ container_viewbox ++ "\">\n"
        ++ joinSep "\n" parts ++ "\n</svg>"
    .ok { content := combined,
          pfx_pairs := entries.map (fun e => (e.name, e.pfx)),
          positions := entries.map (fun e => (e.name, e.x, e.y)),
          total_ids := (entries.map (fun e => e.ids)).sum,
          total_refs := (entries.map (fun e => e.refs)).sum,
          svg_count := items.length }

/-- Embedding of `tile_svgs_grid`: grid positions for free placement. -/
def tile_svgs_grid (svg_contents : List (String × String)) (columns : Nat)
    (cell_width cell_height padding : ℚ) : List (String × String × ℚ × ℚ) :=
  svg_contents.enum.map (fun (i, cn) =>
    (cn.1, cn.2, (i % columns : Nat) * (cell_width + padding),
      (i / columns : Nat) * (cell_height + padding)))

/-- Python `int(float)`: truncation toward zero, on the rational model. -/
def pyIntOfQ (q : ℚ) : Int := q.num.tdiv (q.den : Int)

/-- Embedding of `calculate_grid_container_size`: `rows` is the ceiling
division `(count + columns - 1) // columns`; width and height are `int()`
truncations. -/
def calculate_grid_container_size (count columns : Nat)
    (cell_width cell_height padding : ℚ) : Int × Int × String :=
  let rows := (count + columns - 1) / columns
  let width := pyIntOfQ ((columns : ℚ) * cell_width + ((columns : ℚ) - 1) * padding)
  let height := pyIntOfQ ((rows : ℚ) * cell_height + ((rows : ℚ) - 1) * padding)
  (width, height, "0 0 " ++ toString width ++ " " ++ toString height)

/-- Numeric value of a run of ASCII digits. -/
def digitsVal (l : Chars) : Nat := l.foldl (fun a c => a * 10 + (c.toNat - 48)) 0

/-- Optional exponent suffix of a Python float literal (`e`/`E`, optional
sign, digits); the remainder must be empty for `float()` to accept. -/
def pyFloatExp (v : ℚ) (s : Chars) : Option ℚ :=
  match s with
  | [] => some v
  | e :: r =>
    if e = 'e' ∨ e = 'E' then
      match (match r with
             | '-' :: t => ((-1 : Int), t)
             | '+' :: t => (1, t)
             | _ => (1, r)) with
      | (sg, r1) =>
        match span1 Char.isDigit r1 with
        | some (ds, []) =>
          let k := digitsVal ds
          some (if sg < 0 then v / ((10 : ℚ) ^ k) else v * ((10 : ℚ) ^ k))
        | _ => none
    else none

/-- Python `float(str)` on the decimal/exponent forms (sign, digits with
optional fraction, or leading-dot fraction, optional exponent).  `inf`,
`nan` and underscore separators are not modelled; no input exercised here
uses them. -/
def pyFloatQ (s : Chars) : Option ℚ :=
  match (match s with
         | '-' :: t => ((-1 : ℚ), t)
         | '+' :: t => (1, t)
         | _ => (1, s)) with
  | (sg, s1) =>
    match span1 Char.isDigit s1 with
    | some (ip, r1) =>
      match r1 with
      | '.' :: r2 =>
        let fp := r2.takeWhile Char.isDigit
        let r3 := r2.dropWhile Char.isDigit
        (pyFloatExp ((digitsVal ip : ℚ) + (digitsVal fp : ℚ) / ((10 : ℚ) ^ fp.length)) r3).map
          (fun v => sg * v)
      | _ => (pyFloatExp (digitsVal ip : ℚ) r1).map (fun v => sg * v)
    | none =>
      match s1 with
      | '.' :: r2 =>
        match span1 Char.isDigit r2 with
        | some (fp, r3) =>
          (pyFloatExp ((digitsVal fp : ℚ) / ((10 : ℚ) ^ fp.length)) r3).map (fun v => sg * v)
        | none => none
      | _ => none

/-- Python `str.split()` (split on whitespace runs, dropping empties). -/
def splitWsAux : Chars → Chars → List Chars
  | acc, [] => if acc.isEmpty then [] else [acc.reverse]
  | acc, c :: r =>
    if spaceCh c then
      if acc.isEmpty then splitWsAux [] r else acc.reverse :: splitWsAux [] r
    else splitWsAux (c :: acc) r

/-- Python `str.split()`. -/
def splitWs (s : Chars) : List Chars := splitWsAux [] s

/-- Match, at the head of the input, the `parse_viewbox` pattern
`viewBox=["\']\s*([^"\']+)\s*["\']` (case-insensitive), returning the
captured group up to whitespace normalization: the regex group excludes the
leading whitespace, which the subsequent `.split()` discards anyway, so the
full quote-free span is returned. -/
def vbGroupAt (s : Chars) : Option Chars :=
  match litMCI "viewBox=".data s with
  | none => none
  | some s1 =>
    match quoteHead s1 with
    | none => none
    | some (_, s2) =>
      match span1 nonQuote s2 with
      | none => none
      | some (g, s3) =>
        match s3 with
        | c :: _ => if isQuoteCh c then some g else none
        | [] => none

/-- First match of the `viewBox` pattern anywhere in the document. -/
def findVbGroup : Chars → Option Chars
  | [] => none
  | c :: s =>
    match vbGroupAt (c :: s) with
    | some g => some g
    | none => findVbGroup s

/-- Match, at the head of the input, the fallback pattern
`\b<lbl>=["\']\s*(\d+(?:\.\d+)?)` of `parse_viewbox` (with `lbl` either
`width=` or `height=`) and return the parsed number. -/
def numAttrAt (lbl : Chars) (prev : Option Char) (s : Chars) : Option ℚ :=
  if boundB prev then
    match litM lbl s with
    | none => none
    | some s1 =>
      match quoteHead s1 with
      | none => none
      | some (_, s2) =>
        let s3 := s2.dropWhile spaceCh
        match span1 Char.isDigit s3 with
        | none => none
        | some (ip, r1) =>
          match r1 with
          | '.' :: r2 =>
            match span1 Char.isDigit r2 with
            | some (fp, _) =>
              some ((digitsVal ip : ℚ) + (digitsVal fp : ℚ) / ((10 : ℚ) ^ fp.length))
            | none => some (digitsVal ip : ℚ)
          | _ => some (digitsVal ip : ℚ)
  else none

/-- First match of the fallback `width=`/`height=` pattern. -/
def findNumAttr (lbl : Chars) : Option Char → Chars → Option ℚ
  | _, [] => none
  | prev, c :: s =>
    match numAttrAt lbl prev (c :: s) with
    | some v => some v
    | none => findNumAttr lbl (some c) s

/-- A Python number that is either an `int` or a `float`: the two render
differently in f-strings (`0` vs `0.0`), and `parse_viewbox` returns integer
zeros on its fallback path but floats on its viewBox path. -/
structure PyNum where
  isInt : Bool
  val : ℚ
deriving Repr, DecidableEq

/-- `int` constructor. -/
def pyInt (n : Int) : PyNum := { isInt := true, val := (n : ℚ) }

/-- `float` constructor. -/
def pyFloat (q : ℚ) : PyNum := { isInt := false, val := q }

/-- Python `str`/f-string rendering of a `PyNum`. -/
def pyNumStr (n : PyNum) : String :=
  if n.isInt then toString n.val.num else pyQStr n.val

/-- Embedding of `parse_viewbox`: extract the viewBox quadruple; a
non-numeric part raises `ValueError` out of `float()` (modelled as
`Except.error`); a missing or non-4-part viewBox falls back to the
`width`/`height` attributes with default 100. -/
def parse_viewbox (svg_content : String) : Except String (PyNum × PyNum × PyNum × PyNum) :=
  let L := svg_content.data
  let fb : Except String (PyNum × PyNum × PyNum × PyNum) :=
    .ok (pyInt 0, pyInt 0, pyFloat ((findNumAttr "width=".data none L).getD 100),
      pyFloat ((findNumAttr "height=".data none L).getD 100))
  match findVbGroup L with
  | none => fb
  | some g =>
    match splitWs g with
    | [a, b, c, d] =>
      match pyFloatQ a, pyFloatQ b, pyFloatQ c, pyFloatQ d with
      | some xa, some xb, some xc, some xd =>
        .ok (pyFloat xa, pyFloat xb, pyFloat xc, pyFloat xd)
      | none, _, _, _ => .error ("could not convert string to float: '" ++ String.mk a ++ "'")
      | _, none, _, _ => .error ("could not convert string to float: '" ++ String.mk b ++ "'")
      | _, _, none, _ => .error ("could not convert string to float: '" ++ String.mk c ++ "'")
      | _, _, _, none => .error ("could not convert string to float: '" ++ String.mk d ++ "'")
    | _ => fb

/-- `pathlib.Path(path).stem`: final component, without its last suffix. -/
def pathStem (p : String) : String :=
  let base := (p.data.reverse.takeWhile (fun c => c ≠ '/')).reverse
  let rev := base.reverse
  let pre := rev.takeWhile (fun c => c ≠ '.')
  if pre.length = rev.length then String.mk base
  else
    let cut := base.length - pre.length - 1
    if cut = 0 then String.mk base else String.mk (base.take cut)

/-- Round half to even (Python's `format(x, '.2f')` rounding, modelled on
the exact rational value). -/
def roundHE (q : ℚ) : ℤ :=
  let f := ⌊q⌋
  let r := q - (f : ℚ)
  if r < 1 / 2 then f else if (1 / 2 : ℚ) < r then f + 1 else if 2 ∣ f then f else f + 1

/-- Python `f"{x:.2f}"` on the rational model. -/
def fmt2 (q : ℚ) : String :=
  let n := roundHE (q * 100)
  let a := n.natAbs
  (if n < 0 then "-" else "") ++ toString (a / 100) ++ "." ++ padDigits (a % 100) 2

/-- Does a `<g ...>` tag segment (the run of non-`>` characters after `<g`)
contain `id=["\']STAGE_BACKGROUND["\']` (case-insensitive, quotes
independent)?  Equivalent to matchability of the backtracking pattern
`<g[^>]*id=["\']STAGE_BACKGROUND["\'][^>]*>` over that segment. -/
def containsStageId : Chars → Bool
  | [] => false
  | c :: s =>
    (match litMCI "id=".data (c :: s) with
     | none => false
     | some s1 =>
       match quoteHead s1 with
       | none => false
       | some (_, s2) =>
         match litMCI "STAGE_BACKGROUND".data s2 with
         | none => false
         | some s3 =>
           match quoteHead s3 with
           | none => false
           | some _ => true)
    || containsStageId s

/-- Match, at the head of the input, the anchor-group pattern
`(<g[^>]*id=["\']STAGE_BACKGROUND["\'][^>]*>)` of `create_grid_composite`,
returning the remainder after the closing `>` (the insertion point is
`match.end()`). -/
def stageBgAt (s : Chars) : Option Chars :=
  match litMCI "<g".data s with
  | none => none
  | some s1 =>
    match s1.dropWhile nonGt with
    | '>' :: s2 => if containsStageId (s1.takeWhile nonGt) then some s2 else none
    | _ => none

/-- Index just after the first STAGE_BACKGROUND anchor-group match. -/
def findStageBg : Chars → Nat → Option Nat
  | [], _ => none
  | c :: s, i =>
    match stageBgAt (c :: s) with
    | some rem => some (i + ((c :: s).length - rem.length))
    | none => findStageBg s (i + 1)

/-- The `rows` variable of `create_grid_composite` after the
`if rows is None: rows = (num_tiles + columns - 1) // columns` reassignment.
It is never `None` from this point on. -/
def gridRows (rows? : Option Nat) (num_tiles columns : Nat) : Option Nat :=
  match rows? with
  | none => some ((num_tiles + columns - 1) / columns)
  | some r => some r

/-- The cell-dimension selection of `create_grid_composite`, with the
condition exactly as written in the source:
`if cell_width is None or rows is not None:` — where `rows` is the
post-reassignment variable (`gridRows ...`), which is never `None`, so the
manual branch is unreachable.  The manual branch models Python's falsy test
`cell_height if cell_height else cell_width * 0.75` (both `None` and `0.0`
are falsy). -/
def gridCellDims (cellW? cellH? : Option ℚ) (rowsVar : Option Nat)
    (availW availH : ℚ) (columns rows : Nat) : ℚ × ℚ :=
  if cellW? = none ∨ rowsVar ≠ none then
    (availW / (columns : ℚ), availH / (rows : ℚ))
  else
    (cellW?.getD 0,
      match cellH? with
      | some h => if h = 0 then cellW?.getD 0 * (3 / 4 : ℚ) else h
      | none => cellW?.getD 0 * (3 / 4 : ℚ))

/-- Scale-to-fit of one tile inside its cell (`create_grid_composite`):
uniform scale by the smaller axis ratio and centering when aspect ratio is
preserved, else stretch to the cell. -/
structure FitRes where
  scale : ℚ
  scaled_w : ℚ
  scaled_h : ℚ
  offset_x : ℚ
  offset_y : ℚ
deriving Repr, DecidableEq

/-- The per-tile fit computation of `create_grid_composite`. -/
def tileFit (preserveAspect : Bool) (cw ch tw th : ℚ) : FitRes :=
  if preserveAspect then
    let sc := min (cw / tw) (ch / th)
    { scale := sc, scaled_w := tw * sc, scaled_h := th * sc,
      offset_x := (cw - tw * sc) / 2, offset_y := (ch - th * sc) / 2 }
  else
    { scale := 1, scaled_w := cw, scaled_h := ch, offset_x := 0, offset_y := 0 }

/-- The `clipPath` definition emitted for tile `i`
(`clip_def` in `create_grid_composite`): a rectangle with exactly the
tile's viewBox x, y, width, height. -/
def clipDefStr (i : Nat) (vb : PyNum × PyNum × PyNum × PyNum) : String :=
  "    <clipPath id=\"grid_clip_" ++ toString i ++ "\">\n      <rect x=\""
    ++ pyNumStr vb.1 ++ "\" y=\"" ++ pyNumStr vb.2.1 ++ "\" width=\"" ++ pyNumStr vb.2.2.1
    ++ "\" height=\"" ++ pyNumStr vb.2.2.2 ++ "\"/>\n    </clipPath>"

/-- The `viewBox` attribute of a placed tile's nested viewport, carrying
exactly the tile's own viewBox values. -/
def viewBoxAttrStr (vb : PyNum × PyNum × PyNum × PyNum) : String :=
  "viewBox=\"" ++ pyNumStr vb.1 ++ " " ++ pyNumStr vb.2.1 ++ " "
    ++ pyNumStr vb.2.2.1 ++ " " ++ pyNumStr vb.2.2.2 ++ "\""

/-- The group element applying tile `i`'s clip path to its content. -/
def clipApplyStr (i : Nat) : String :=
  "<g clip-path=\"url(#grid_clip_" ++ toString i ++ ")\">"

/-- The nested-viewport element emitted for tile `i`
(`tile_element` in `create_grid_composite`): a nested `<svg>` carrying the
tile's own viewBox, embedding the clipPath definition and applying it to the
tile's content group. -/
def tileElementStr (i : Nat) (name : String) (vb : PyNum × PyNum × PyNum × PyNum)
    (x y sw sh : ℚ) (inner : String) : String :=
  "  <!-- Tile: " ++ name ++ " -->\n  <svg x=\"" ++ fmt2 x ++ "\" y=\"" ++ fmt2 y
    ++ "\"\n       width=\"" ++ fmt2 sw ++ "\" height=\"" ++ fmt2 sh
    ++ "\"\n       " ++ viewBoxAttrStr vb
    ++ "\n       overflow=\"hidden\">\n    <defs>\n" ++ clipDefStr i vb
    ++ "\n    </defs>\n    " ++ clipApplyStr i ++ "\n"
    ++ inner ++ "\n    </g>\n  </svg>"

/-- The label element emitted below a cell (`label_element`).  `font_size`
is rendered raw, so its Python int/float identity shows in the output. -/
def labelElemStr (name : String) (lx ly : ℚ) (fs : PyNum) : String :=
  "  <text x=\"" ++ fmt2 lx ++ "\" y=\"" ++ fmt2 ly
    ++ "\"\n        text-anchor=\"middle\" font-family=\"sans-serif\"\n        font-size=\""
    ++ pyNumStr fs ++ "\" fill=\"#333333\">" ++ name ++ "</text>"

/-- One loaded tile of `create_grid_composite`. -/
structure GridTile where
  idx : Nat
  name : String
  content : String
  vb : PyNum × PyNum × PyNum × PyNum
deriving Repr, DecidableEq

/-- Load one tile of `create_grid_composite`: derive the `t{i}_` prefix,
rewrite (diagnostic warnings on verification errors are printed and ignored
by the source), and parse the tile's own viewBox from the original
content. -/
def gridTileLoad (ip : Nat × String × String) : Except String GridTile :=
  let r := prefix_svg_ids ip.2.2 ("t" ++ toString ip.1 ++ "_") true
  match parse_viewbox ip.2.2 with
  | .error e => .error e
  | .ok vb => .ok { idx := ip.1, name := pathStem ip.2.1, content := r.content, vb := vb }

/-- Background handling of `create_grid_composite`: a background document is
rewritten with the `bg_` prefix and its own viewBox becomes the container
dimensions; otherwise the explicit container dimensions are used. -/
def bgLoad (background? : Option (String × String))
    (container_width container_height : Int) :
    Except String (Option String × ℚ × ℚ) :=
  match background? with
  | some pb =>
    let bgr := prefix_svg_ids pb.2 "bg_" true
    match parse_viewbox bgr.content with
    | .error e => .error e
    | .ok vb => .ok (some bgr.content, (vb.2.2.1).val, (vb.2.2.2).val)
  | none => .ok (none, (container_width : ℚ), (container_height : ℚ))

/-- The per-tile element construction of `create_grid_composite`: the tiles
whose computed grid row fits the configured row count (`row >= rows` tiles
are skipped with a diagnostic), each mapped to its nested-viewport element
and its label element. -/
def gridElems (tl : List GridTile) (contW contH : ℚ)
    (rows? : Option Nat) (columns : Nat)
    (cellW? cellH? : Option ℚ) (margin : ℚ)
    (show_labels : Bool) (label_height : ℚ) (font_size : PyNum)
    (preserveAspect : Bool) : List (String × String) :=
  let num_tiles := tl.length
  let rowsVar := gridRows rows? num_tiles columns
  let rows := rowsVar.getD 0
  let total_label_space : ℚ := if show_labels then label_height * (rows : ℚ) else 0
  let available_width := contW - margin * ((columns : ℚ) + 1)
  let available_height := contH - margin * ((rows : ℚ) + 1) - total_label_space
  let dims := gridCellDims cellW? cellH? rowsVar available_width available_height columns rows
  let cw := dims.1
  let ch := dims.2
  let placed := tl.filter (fun t => t.idx / columns < rows)
  placed.map (fun t =>
    let col := t.idx % columns
    let row := t.idx / columns
    let cell_x := margin + (col : ℚ) * (cw + margin)
    let cell_y := margin + (row : ℚ) * (ch + margin + (if show_labels then label_height else 0))
    let fit := tileFit preserveAspect cw ch (t.vb.2.2.1).val (t.vb.2.2.2).val
    let inner := extract_svg_inner t.content
    (tileElementStr t.idx t.name t.vb (cell_x + fit.offset_x) (cell_y + fit.offset_y)
        fit.scaled_w fit.scaled_h inner,
      labelElemStr t.name (cell_x + cw / 2) (cell_y + ch + label_height * (7 / 10)) font_size))

/-- The pure assembly stage of `create_grid_composite`, applied once the
tiles and the background have been loaded successfully. -/
def gridAssemble (tl : List GridTile) (bgInfo : Option String × ℚ × ℚ)
    (rows? : Option Nat) (columns : Nat)
    (cellW? cellH? : Option ℚ)
    (container_width container_height : Int)
    (container_bg_color : String)
    (margin : ℚ)
    (show_labels : Bool) (label_height : ℚ) (font_size : PyNum)
    (preserveAspect : Bool) : String :=
  let elems := gridElems tl bgInfo.2.1 bgInfo.2.2 rows? columns cellW? cellH? margin
    show_labels label_height font_size preserveAspect
  let tile_elements := elems.map Prod.fst
  let label_elements := if show_labels then elems.map Prod.snd else []
  match bgInfo.1 with
  | some bgc =>
    let L := bgc.data
    match findStageBg L 0 with
    | some pos =>
      let tc := "\n" ++ joinSep "\n" tile_elements ++ "\n"
        ++ joinSep "\n" label_elements
      String.mk (L.take pos) ++ tc ++ String.mk (L.drop pos)
    | none =>
      let tc := "\n<!-- Grid Tiles -->\n" ++ joinSep "\n" tile_elements
        ++ "\n" ++ joinSep "\n" label_elements ++ "\n"
      match rfindSubAux "</svg>".data L 0 none with
      | some cp => String.mk (L.take cp) ++ tc ++ String.mk (L.drop cp)
      | none =>
        String.mk (L.take (L.length - 1)) ++ tc ++ String.mk (L.drop (L.length - 1))
  | none =>
    let tiles_content := joinSep "\n" tile_elements
    let labels_content := joinSep "\n" label_elements
    "<?xml version=\"1.0\" encoding=\"UTF-8\"?>\n<svg xmlns=\"http://www.w3.org/2000/svg\"\n     xmlns:xlink=\"http://www.w3.org/1999/xlink\"\n     width=\""
      ++ toString container_width ++ "\" height=\"" ++ toString container_height
      ++ "\"\n     viewBox=\"0 0 " ++ toString container_width ++ " "
      ++ toString container_height ++ "\">\n  <!-- Background -->\n  <rect x=\"0\" y=\"0\" width=\""
      ++ toString container_width ++ "\" height=\"" ++ toString container_height
      ++ "\" fill=\"" ++ container_bg_color
      ++ "\"/>\n\n  <!-- Grid Tiles -->\n" ++ tiles_content
      ++ "\n\n  <!-- Labels -->\n" ++ labels_content ++ "\n</svg>"

/-- Embedding of `create_grid_composite` (see `gridTileLoad`, `bgLoad`,
`gridAssemble`).  File access is a caller-side boundary: the `tile_paths`
argument is modelled as a list of (path, file content) pairs, and
`background_svg_path` as an optional (path, content) pair.  Diagnostics
printed to stderr (prefixing warnings, skipped-tile warnings) have no effect
on the returned document and are not modelled.  Divisions by a zero
`columns`/`rows`/tile dimension would raise `ZeroDivisionError` in Python;
the rational model returns 0 there, and every claim below constrains those
divisors to be positive. -/
def create_grid_composite
    (tiles : List (String × String))
    (rows? : Option Nat) (columns : Nat)
    (cellW? cellH? : Option ℚ)
    (background? : Option (String × String))
    (container_width container_height : Int)
    (container_bg_color : String)
    (margin : ℚ)
    (show_labels : Bool) (label_height : ℚ) (font_size : PyNum)
    (preserveAspect : Bool) : Except String String :=
  if tiles.isEmpty then .error "No tile SVG files provided"
  else
    match mapME gridTileLoad tiles.enum with
    | .error e => .error e
    | .ok tl =>
      match bgLoad background? container_width container_height with
      | .error e => .error e
      | .ok bgInfo =>
        .ok (gridAssemble tl bgInfo rows? columns cellW? cellH?
          container_width container_height container_bg_color margin
          show_labels label_height font_size preserveAspect)



/-- The composition of the ten rewrite passes of `prefix_svg_ids` (text
component), as applied in order to the document once the identifier table is
fixed. -/
def passesT (m : Chars → Option Chars) (s : Chars) : Chars :=
  subT (tryDataAttr m) (subT (tryQuerySel m) (subT (tryGetById m) (subT (tryFromToBy m) (subT (tryTiming m) (subT (tryValues m) (subT (tryUrl m) (subT (tryHrefUrl m) (subT (tryHrefHash m) (pass1T m none s)))))))))

/-- The total rename count accumulated by the ten rewrite passes of
`prefix_svg_ids` (`ref_count`). -/
def passesC (m : Chars → Option Chars) (s : Chars) : Nat :=
  pass1C m none s
  + subC (tryHrefHash m) (pass1T m none s)
  + subC (tryHrefUrl m) (subT (tryHrefHash m) (pass1T m none s))
  + subC (tryUrl m) (subT (tryHrefUrl m) (subT (tryHrefHash m) (pass1T m none s)))
  + subC (tryValues m) (subT (tryUrl m) (subT (tryHrefUrl m) (subT (tryHrefHash m) (pass1T m none s))))
  + subC (tryTiming m) (subT (tryValues m) (subT (tryUrl m) (subT (tryHrefUrl m) (subT (tryHrefHash m) (pass1T m none s)))))
  + subC (tryFromToBy m) (subT (tryTiming m) (subT (tryValues m) (subT (tryUrl m) (subT (tryHrefUrl m) (subT (tryHrefHash m) (pass1T m none s))))))
  + subC (tryGetById m) (subT (tryFromToBy m) (subT (tryTiming m) (subT (tryValues m) (subT (tryUrl m) (subT (tryHrefUrl m) (subT (tryHrefHash m) (pass1T m none s)))))))
  + subC (tryQuerySel m) (subT (tryGetById m) (subT (tryFromToBy m) (subT (tryTiming m) (subT (tryValues m) (subT (tryUrl m) (subT (tryHrefUrl m) (subT (tryHrefHash m) (pass1T m none s))))))))
  + subC (tryDataAttr m) (subT (tryQuerySel m) (subT (tryGetById m) (subT (tryFromToBy m) (subT (tryTiming m) (subT (tryValues m) (subT (tryUrl m) (subT (tryHrefUrl m) (subT (tryHrefHash m) (pass1T m none s)))))))))

/-- Executable identifier-shape test: the token matches
`[a-zA-Z_][a-zA-Z0-9_-]*` (the identifier shape of the timing pattern, which
is the only surface pattern that parses the token itself rather than a
delimiter-bounded span). -/
def wordShapeB (t : Chars) : Bool :=
  match t with
  | [] => false
  | c :: cs => identStart c && cs.all identCh

/-- The delimiter characters that terminate a spliced identifier in the
canonical reference documents below. -/
def stopCh (c : Char) : Bool := c = '"' || c = ')' || c = ';' || c = '.'

/-- The token a rewrite callback emits for a captured token `t`: its image
under the identifier table if present, otherwise `t` itself (the callback
returns `m.group(0)`, reconstructing the matched text byte-identically). -/
def mOr (m : Chars → Option Chars) (t : Chars) : Chars := (m t).getD t

/-- The rename-count contribution of a captured token. -/
def mCnt (m : Chars → Option Chars) (t : Chars) : Nat :=
  match m t with
  | some _ => 1
  | none => 0

/-- Canonical nine-surface reference document over an identifier `X`
(the document shape of the rewrite-completeness criterion): `X` is declared
once and referenced through each of the nine reference surfaces handled by
`prefix_svg_ids`. -/
def nineSurfaceDoc (X : String) : String :=
  "<svg>\n<rect id=\"" ++ X ++ "\"/>\n<use href=\"#" ++ X ++
  "\"/>\n<use xlink:href=\"url(#" ++ X ++ ")\"/>\n<rect fill=\"url(#" ++ X ++
  ")\"/>\n<animate values=\"#" ++ X ++ ";#" ++ X ++
  "\"/>\n<animate begin=\"" ++ X ++ ".click\"/>\n<animate from=\"#" ++ X ++
  "\" to=\"#" ++ X ++ "\" by=\"#" ++ X ++
  "\"/>\n<script>getElementById(\"" ++ X ++ "\");querySelector(\"#" ++ X ++
  "\")</script>\n<g data-ref=\"#" ++ X ++ "\"/>\n</svg>"

/-- The same document shape with `X` declared but every reference surface
pointing at a second identifier `Y` (the frame document of the
non-interference criterion). -/
def frameDoc (X Y : String) : String :=
  "<svg>\n<rect id=\"" ++ X ++ "\"/>\n<use href=\"#" ++ Y ++
  "\"/>\n<use xlink:href=\"url(#" ++ Y ++ ")\"/>\n<rect fill=\"url(#" ++ Y ++
  ")\"/>\n<animate values=\"#" ++ Y ++ ";#" ++ Y ++
  "\"/>\n<animate begin=\"" ++ Y ++ ".click\"/>\n<animate from=\"#" ++ Y ++
  "\" to=\"#" ++ Y ++ "\" by=\"#" ++ Y ++
  "\"/>\n<script>getElementById(\"" ++ Y ++ "\");querySelector(\"#" ++ Y ++
  "\")</script>\n<g data-ref=\"#" ++ Y ++ "\"/>\n</svg>"

/-- List-level form of the canonical document shape, with one parameter per
spliced token (slot 1 is the declaration; slots 2-13 are the reference
surfaces: href, xlink url, fill url, the two values entries, begin, from, to,
by, getElementById, querySelector, data attribute). -/
def nineL (t1 t2 t3 t4 t5 t6 t7 t8 t9 t10 t11 t12 t13 : Chars) : Chars :=
  "<svg>\n<rect id=\"".data ++ t1 ++ "\"/>\n<use href=\"#".data ++ t2 ++
  "\"/>\n<use xlink:href=\"url(#".data ++ t3 ++ ")\"/>\n<rect fill=\"url(#".data ++ t4 ++
  ")\"/>\n<animate values=\"#".data ++ t5 ++ ";#".data ++ t6 ++
  "\"/>\n<animate begin=\"".data ++ t7 ++ ".click\"/>\n<animate from=\"#".data ++ t8 ++
  "\" to=\"#".data ++ t9 ++ "\" by=\"#".data ++ t10 ++
  "\"/>\n<script>getElementById(\"".data ++ t11 ++ "\");querySelector(\"#".data ++ t12 ++
  "\")</script>\n<g data-ref=\"#".data ++ t13 ++ "\"/>\n</svg>".data

/-- Early-return characterization (`if not ids_to_prefix: ... return`): when
every collected identifier of the document already carries the prefix, the
call returns the input string itself, zero renames and empty error lists. -/
theorem prefix_svg_ids_noop (s pfx : String) (verify : Bool)
    (h : ∀ v ∈ dedup (collectIds none s.data), pfx.data.isPrefixOf v = true) :
    prefix_svg_ids s pfx verify =
      { content := s, used_pfx := pfx,
        stats := { ids_found := (dedup (collectIds none s.data)).length,
                   references_updated := 0, errors := [] },
        errors := [] } := by
  unfold prefix_svg_ids
  have hfil : (dedup (collectIds none s.data)).filter
      (fun v => !(pfx.data.isPrefixOf v)) = [] := by
    rw [List.filter_eq_nil]
    intro a ha
    simp [h a ha]
  simp [hfil]

/-- Claim C2, counterexample.  The claim quantifies over every document text
and every prefix; for the document `<g id="b"/>` and the prefix
`x" id="y` (a legal Python argument containing quote characters), the first
rewrite produces `<g id="x" id="yb"/>`, and re-rewriting that output with the
same prefix performs 2 renames (`references_updated = 2`, not 0) and changes
the text again.  So the rewrite operation is not idempotent as claimed. -/
theorem C2_counterexample :
    (prefix_svg_ids "<g id=\"b\"/>" "x\" id=\"y" true).content
        = "<g id=\"x\" id=\"yb\"/>"
    ∧ (prefix_svg_ids "<g id=\"x\" id=\"yb\"/>" "x\" id=\"y" true).stats.references_updated
        = 2
    ∧ (prefix_svg_ids "<g id=\"x\" id=\"yb\"/>" "x\" id=\"y" true).content
        ≠ "<g id=\"x\" id=\"yb\"/>" := by
  refine ⟨by decide, by decide, by decide⟩

/-- Claim C2, amended: re-rewriting an output of the rewrite with the same
prefix performs zero renames and returns that output itself (the same string,
not a re-serialized copy), provided every identifier declared in that output
carries the prefix — which the counterexample shows can fail for adversarial
prefixes, but holds in the intended regime.  This is exactly the code's
`if not ids_to_prefix` early return. -/
theorem C2_idempotence_amended (d p : String)
    (h : ∀ v ∈ dedup (collectIds none ((prefix_svg_ids d p true).content).data),
        p.data.isPrefixOf v = true) :
    prefix_svg_ids ((prefix_svg_ids d p true).content) p true =
      { content := (prefix_svg_ids d p true).content, used_pfx := p,
        stats := { ids_found := (dedup (collectIds none
                                  ((prefix_svg_ids d p true).content).data)).length,
                   references_updated := 0, errors := [] },
        errors := [] } :=
  prefix_svg_ids_noop _ _ _ h

/-- Witness for the amended claim C2 at the document
`<g id="b"/><use href="#b"/>` and prefix `p_`. -/
theorem C2_idempotence_witness :
    (∀ v ∈ dedup (collectIds none
        ((prefix_svg_ids "<g id=\"b\"/><use href=\"#b\"/>" "p_" true).content).data),
        "p_".data.isPrefixOf v = true)
    ∧ prefix_svg_ids
        ((prefix_svg_ids "<g id=\"b\"/><use href=\"#b\"/>" "p_" true).content) "p_" true =
      { content := (prefix_svg_ids "<g id=\"b\"/><use href=\"#b\"/>" "p_" true).content,
        used_pfx := "p_",
        stats := { ids_found := (dedup (collectIds none
                     ((prefix_svg_ids "<g id=\"b\"/><use href=\"#b\"/>" "p_"
                       true).content).data)).length,
                   references_updated := 0, errors := [] },
        errors := [] } :=
  ⟨by decide, C2_idempotence_amended "<g id=\"b\"/><use href=\"#b\"/>" "p_" (by decide)⟩

/-- Claim C5, counterexample.  The claim says an empty caller-supplied prefix
is rejected (fails with an error), and likewise a prefix that declared
identifiers already carry.  The code rejects neither: with prefix `""` on
`<g id="a"/><use href="#a"/>` the call succeeds with empty error lists and
returns the input unchanged (every identifier "already starts with" the empty
prefix), and with prefix `p_` on a document whose only identifier is `p_a`
the call equally succeeds with no error. -/
theorem C5_counterexample :
    (prefix_svg_ids "<g id=\"a\"/><use href=\"#a\"/>" "" true).errors = []
    ∧ (prefix_svg_ids "<g id=\"a\"/><use href=\"#a\"/>" "" true).stats.errors = []
    ∧ (prefix_svg_ids "<g id=\"a\"/><use href=\"#a\"/>" "" true).content
        = "<g id=\"a\"/><use href=\"#a\"/>"
    ∧ (prefix_svg_ids "<g id=\"p_a\"/><use href=\"#p_a\"/>" "p_" true).errors = []
    ∧ (prefix_svg_ids "<g id=\"p_a\"/><use href=\"#p_a\"/>" "p_" true).content
        = "<g id=\"p_a\"/><use href=\"#p_a\"/>" := by
  refine ⟨by decide, by decide, by decide, by decide, by decide⟩

/-- Claim C5, amended: an empty custom prefix is not rejected — for every
document text the call accepts it and degenerates to a no-op success (the
identifier table is empty because every identifier starts with the empty
prefix): the input is returned unchanged with zero renames and empty error
lists.  A prefix that every declared identifier already carries behaves the
same way (shown at a concrete document). -/
theorem C5_empty_pfx_amended :
    (∀ s : String, prefix_svg_ids s "" true =
      { content := s, used_pfx := "",
        stats := { ids_found := (dedup (collectIds none s.data)).length,
                   references_updated := 0, errors := [] },
        errors := [] })
    ∧ prefix_svg_ids "<g id=\"p_a\"/><use href=\"#p_a\"/>" "p_" true =
      { content := "<g id=\"p_a\"/><use href=\"#p_a\"/>", used_pfx := "p_",
        stats := { ids_found := 1, references_updated := 0, errors := [] },
        errors := [] } := by
  constructor
  · intro s
    refine prefix_svg_ids_noop s "" true (fun v _ => ?_)
    show List.isPrefixOf [] v = true
    cases v <;> rfl
  · have h := prefix_svg_ids_noop "<g id=\"p_a\"/><use href=\"#p_a\"/>" "p_" true (by decide)
    rw [h]
    decide

/-- Claim C10: the `references_updated` count includes declaration rewrites.
The document `<g id="a"/><g id="b"/>` contains no `#` character at all (so no
reference surface occurs, only the two `id="..."` declarations), yet the call
reports `references_updated = 2` — one increment per rewritten declaration —
rather than zero, and both declarations are rewritten in the output. -/
theorem C10_decl_rewrites_counted :
    containsSub "<g id=\"a\"/><g id=\"b\"/>".data ['#'] = false
    ∧ (prefix_svg_ids "<g id=\"a\"/><g id=\"b\"/>" "p_" true).stats.ids_found = 2
    ∧ (prefix_svg_ids "<g id=\"a\"/><g id=\"b\"/>" "p_" true).stats.references_updated = 2
    ∧ (prefix_svg_ids "<g id=\"a\"/><g id=\"b\"/>" "p_" true).content
        = "<g id=\"p_a\"/><g id=\"p_b\"/>" := by
  refine ⟨by decide, by decide, by decide, by decide⟩

/-- Fuel irrelevance for the digit loop of `_index_to_prefix`. -/
theorem pfxDigitsF_irrel : ∀ f₁ f₂ n, n ≤ f₁ → n ≤ f₂ →
    pfxDigitsF f₁ n = pfxDigitsF f₂ n := by
  intro f₁
  induction f₁ with
  | zero =>
    intro f₂ n h1 _
    have hn : n = 0 := by omega
    subst hn
    cases f₂ with
    | zero => rfl
    | succ g => simp [pfxDigitsF]
  | succ f ih =>
    intro f₂ n h1 h2
    cases f₂ with
    | zero =>
      have hn : n = 0 := by omega
      subst hn
      simp [pfxDigitsF]
    | succ g =>
      simp only [pfxDigitsF]
      by_cases hn : n < 26
      · simp [hn]
      · simp only [hn, if_neg, if_false]
        have hd := Nat.div_le_self n 26
        exact congrArg _ (ih g (n / 26 - 1) (by omega) (by omega))

/-- Unfolding equation of the digit list. -/
theorem pfxDigits_step (n : Nat) :
    pfxDigits n = n % 26 :: (if n < 26 then [] else pfxDigits (n / 26 - 1)) := by
  unfold pfxDigits
  cases n with
  | zero => simp [pfxDigitsF]
  | succ m =>
    simp only [pfxDigitsF]
    by_cases h : m + 1 < 26
    · simp [h]
    · simp only [h, if_neg, if_false]
      have hd := Nat.div_le_self (m + 1) 26
      exact congrArg _ (pfxDigitsF_irrel m ((m + 1) / 26 - 1) ((m + 1) / 26 - 1)
        (by omega) (by omega))

/-- The digit list is never empty. -/
theorem pfxDigits_ne_nil (n : Nat) : pfxDigits n ≠ [] := by
  rw [pfxDigits_step]
  simp

/-- All digits are base-26 digits. -/
theorem pfxDigits_lt (n : Nat) : ∀ d ∈ pfxDigits n, d < 26 := by
  induction n using Nat.strong_induction_on with
  | _ n ih =>
    rw [pfxDigits_step]
    intro d hd
    rcases List.mem_cons.mp hd with h | h
    · subst h
      exact Nat.mod_lt _ (by norm_num)
    · by_cases hn : n < 26
      · simp [hn] at h
      · simp only [hn, if_neg, if_false] at h
        have hlt : n / 26 - 1 < n := by
          have := Nat.div_le_self n 26
          omega
        exact ih _ hlt d h

/-- The digit list determines the index. -/
theorem pfxDigits_inj : ∀ m n, pfxDigits m = pfxDigits n → m = n := by
  intro m
  induction m using Nat.strong_induction_on with
  | _ m ih =>
    intro n h
    rw [pfxDigits_step m, pfxDigits_step n] at h
    injection h with h1 h2
    by_cases hm : m < 26 <;> by_cases hn : n < 26
    · rwa [Nat.mod_eq_of_lt hm, Nat.mod_eq_of_lt hn] at h1
    · simp only [hm, hn, if_pos, if_neg, if_true, if_false] at h2
      exact absurd h2.symm (pfxDigits_ne_nil _)
    · simp only [hm, hn, if_pos, if_neg, if_true, if_false] at h2
      exact absurd h2 (pfxDigits_ne_nil _)
    · simp only [hm, hn, if_neg, if_false] at h2
      have hlt : m / 26 - 1 < m := by
        have := Nat.div_le_self m 26
        omega
      have heq := ih _ hlt _ h2
      have hm26 : 1 ≤ m / 26 := (Nat.one_le_div_iff (by norm_num)).mpr (by omega)
      have hn26 : 1 ≤ n / 26 := (Nat.one_le_div_iff (by norm_num)).mpr (by omega)
      have hqm := Nat.div_add_mod m 26
      have hqn := Nat.div_add_mod n 26
      have hq : m / 26 = n / 26 := by omega
      omega

/-- The 26 lowercase letters are pairwise distinct. -/
theorem letter_inj : ∀ a b : Fin 26,
    Char.ofNat (97 + a.val) = Char.ofNat (97 + b.val) → a = b := by decide

/-- Letter encoding is injective on digit lists. -/
theorem map_letter_inj : ∀ l1 l2 : List Nat, (∀ d ∈ l1, d < 26) → (∀ d ∈ l2, d < 26) →
    l1.map (fun d => Char.ofNat (97 + d)) = l2.map (fun d => Char.ofNat (97 + d)) →
    l1 = l2 := by
  intro l1
  induction l1 with
  | nil =>
    intro l2 _ _ h
    cases l2 with
    | nil => rfl
    | cons b t2 => simp at h
  | cons a t ih =>
    intro l2 h1 h2 h
    cases l2 with
    | nil => simp at h
    | cons b t2 =>
      simp only [List.map_cons, List.cons.injEq] at h
      have ha : a < 26 := h1 a (by simp)
      have hb : b < 26 := h2 b (by simp)
      have hfin : (⟨a, ha⟩ : Fin 26) = ⟨b, hb⟩ := letter_inj _ _ h.1
      have hab : a = b := by simpa using congrArg Fin.val hfin
      subst hab
      rw [ih t2 (fun d hd => h1 d (by simp [hd])) (fun d hd => h2 d (by simp [hd])) h.2]

/-- Injectivity of the sequence-derived prefix encoding. -/
theorem index_to_pfx_inj : Function.Injective index_to_pfx := by
  intro i j h
  unfold index_to_pfx at h
  have hdata : ((pfxDigits i).reverse.map (fun d => Char.ofNat (97 + d))) ++ ['_'] =
      ((pfxDigits j).reverse.map (fun d => Char.ofNat (97 + d))) ++ ['_'] :=
    congrArg String.data h
  have h2 := List.append_cancel_right hdata
  have h3 : (pfxDigits i).reverse = (pfxDigits j).reverse :=
    map_letter_inj _ _ (fun d hd => pfxDigits_lt i d (List.mem_reverse.mp hd))
      (fun d hd => pfxDigits_lt j d (List.mem_reverse.mp hd)) h2
  exact pfxDigits_inj i j (List.reverse_injective h3)

/-- The loop of `combine_svgs_with_prefixes` assigns the document at loop
position `i` the prefix `_index_to_prefix(i)`. -/
theorem combineLoop_pfx : ∀ (items : List CombineItem) (i : Nat) (es : List CombEntry),
    combineLoop i items = .ok es →
    es.map (fun e => e.pfx) = (List.range' i items.length).map index_to_pfx := by
  intro items
  induction items with
  | nil =>
    intro i es h
    simp only [combineLoop, Except.ok.injEq] at h
    subst h
    simp [List.range']
  | cons it rest ih =>
    intro i es h
    rcases it with ⟨c, nm⟩ | ⟨c, nm, x, y⟩ | n <;>
      simp only [combineLoop] at h <;>
      [skip; skip; exact absurd h (by simp)] <;>
      · split at h
        · split at h
          · rename_i es' hrec
            injection h with h'
            subst h'
            simp only [List.map_cons, List.length_cons, List.range'_succ, List.map_cons,
              List.cons.injEq]
            exact ⟨trivial, ih (i + 1) es' hrec⟩
          · exact absurd h (by simp)
        · exact absurd h (by simp)

/-- Ceiling division: `(n + c - 1) / c` in natural arithmetic is the ceiling
of the exact quotient. -/
theorem ceil_div_eq (n c : Nat) (hc : 0 < c) :
    ⌈(n : ℚ) / (c : ℚ)⌉₊ = (n + c - 1) / c := by
  have hc' : (0 : ℚ) < (c : ℚ) := by exact_mod_cast hc
  rcases Nat.eq_zero_or_pos n with hn | hn
  · subst hn
    simp only [Nat.cast_zero, zero_div, Nat.ceil_zero, Nat.zero_add]
    exact (Nat.div_eq_of_lt (by omega)).symm
  · have hqm := Nat.div_add_mod (n + c - 1) c
    have hr : (n + c - 1) % c < c := Nat.mod_lt _ hc
    apply le_antisymm
    · rw [Nat.ceil_le, div_le_iff hc']
      have hle : n ≤ ((n + c - 1) / c) * c := by
        have := hqm
        have h2 : c * ((n + c - 1) / c) = n + c - 1 - (n + c - 1) % c := by omega
        calc n ≤ c * ((n + c - 1) / c) := by omega
          _ = ((n + c - 1) / c) * c := Nat.mul_comm _ _
      exact_mod_cast hle
    · rcases Nat.eq_zero_or_pos ((n + c - 1) / c) with hk0 | hk0
      · simp [hk0]
      · have hlt : ((n + c - 1) / c - 1) < ⌈(n : ℚ) / (c : ℚ)⌉₊ := by
          rw [Nat.lt_ceil, lt_div_iff hc']
          have hstep : ((n + c - 1) / c - 1) * c < n := by
            have h2 : ((n + c - 1) / c - 1) * c = ((n + c - 1) / c) * c - c :=
              Nat.sub_one_mul _ _
            have h3 : c * ((n + c - 1) / c) = n + c - 1 - (n + c - 1) % c := by omega
            have h4 : ((n + c - 1) / c) * c = c * ((n + c - 1) / c) := Nat.mul_comm _ _
            omega
          exact_mod_cast hstep
        omega

/-- `int()` of an integral rational is that integer. -/
theorem pyIntOfQ_intCast (n : Int) : pyIntOfQ ((n : Int) : ℚ) = n := by
  simp [pyIntOfQ, Rat.num_intCast, Rat.den_intCast]

/-- Claim C4, counterexample.  The claim says no exception crosses the
public boundary of the batch composition call; in fact an invalid tuple
arity makes `combine_svgs_with_prefixes` raise `ValueError` (modelled as
`Except.error`), aborting the whole call with no structured result. -/
theorem C4_counterexample :
    combine_svgs_with_prefixes [CombineItem.other 3] "0 0 1200 674" 1200 674
      = .error "Invalid tuple format: expected 2 or 4 elements, got 3" := by decide

/-- Claim C4, amended: only the rewrite call returns its error conditions as
structured data (it is a total function whose result carries the error list;
shown on a document whose verification fails).  The composition calls throw:
`combine_svgs_with_prefixes` raises on an invalid tuple arity and on a
member document's verification failure, and `create_grid_composite` raises
on zero tiles. -/
theorem C4_error_channels_amended :
    (prefix_svg_ids "<g id=\"a'/>" "p_" true).errors
        = ["Unprefixed ID declaration remains: a"]
    ∧ (prefix_svg_ids "<g id=\"a'/>" "p_" true).stats.errors
        = ["Unprefixed ID declaration remains: a"]
    ∧ combine_svgs_with_prefixes [CombineItem.other 3] "0 0 1200 674" 1200 674
        = .error "Invalid tuple format: expected 2 or 4 elements, got 3"
    ∧ combine_svgs_with_prefixes [CombineItem.pair "<g id=\"a'/>" "bad"] "0 0 1200 674" 1200 674
        = .error "Prefixing failed for bad: ['Unprefixed ID declaration remains: a']"
    ∧ create_grid_composite [] none 3 none none none 1920 1080 "#ffffff" 20 false 24
        (pyInt 14) true = .error "No tile SVG files provided" := by
  refine ⟨by decide, by decide, by decide, by decide, by decide⟩

/-- Claim C7: the index-to-prefix encoding of `_index_to_prefix` is
injective, so the `N` documents of a batch receive pairwise distinct
prefixes: the prefixes assigned by `combine_svgs_with_prefixes` are exactly
`_index_to_prefix 0, 1, ...` in order, and that list has no duplicate. -/
theorem C7_sequence_pfx_injective :
    Function.Injective index_to_pfx
    ∧ index_to_pfx 0 = "a_" ∧ index_to_pfx 25 = "z_" ∧ index_to_pfx 26 = "aa_"
    ∧ (∀ (items : List CombineItem) (vb : String) (w h : Int) (res : CombineRes),
        combine_svgs_with_prefixes items vb w h = .ok res →
        res.pfx_pairs.map Prod.snd = (List.range' 0 items.length).map index_to_pfx
          ∧ (res.pfx_pairs.map Prod.snd).Nodup) := by
  refine ⟨index_to_pfx_inj, by decide, by decide, by decide, ?_⟩
  intro items vb w h res hok
  unfold combine_svgs_with_prefixes at hok
  split at hok
  · exact absurd hok (by simp)
  · rename_i es hloop
    injection hok with hok
    subst hok
    have hmap : (es.map (fun e => e.pfx)) = (List.range' 0 items.length).map index_to_pfx :=
      combineLoop_pfx items 0 es hloop
    have hmap2 : (es.map (fun e => (e.name, e.pfx))).map Prod.snd
        = (List.range' 0 items.length).map index_to_pfx := by
      rw [List.map_map]
      exact hmap
    refine ⟨hmap2, ?_⟩
    rw [hmap2]
    exact (List.nodup_range' _ _).map index_to_pfx_inj

/-- Claim C6 (code bug): the manual cell-size mode is dead code.  `rows` is
reassigned before the mode test, so `gridRows` never returns `none`, the
condition `cell_width is None or rows is not None` is always true, and the
cell dimensions are always the even division of the available space — the
caller-supplied `cell_width`/`cell_height` are ignored, contradicting the
function's own docstring (`Manual: When cell_width and cell_height are set,
those dimensions are used`).  At the failing input (one 200x100 tile,
`columns=3`, `cell_width=300`, `cell_height=200`, container 1920x1080,
margin 20) the placed cell is 1840/3 wide, not 300, and the emitted tile is
613.33 units wide. -/
theorem C6_manual_cell_size_dead :
    (∀ (r? : Option Nat) (n c : Nat), gridRows r? n c ≠ none)
    ∧ (∀ (cw? ch? : Option ℚ) (r? : Option Nat) (n c rr : Nat) (aw ah : ℚ),
        gridCellDims cw? ch? (gridRows r? n c) aw ah c rr
          = (aw / (c : ℚ), ah / (rr : ℚ)))
    ∧ gridCellDims (some 300) (some 200) (gridRows none 1 3)
        (1920 - 20 * 4) (1080 - 20 * 2) 3 1 = (1840 / 3, 1040)
    ∧ ((1840 / 3 : ℚ) ≠ 300 ∧ (1040 : ℚ) ≠ 200) := by
  have hnn : ∀ (r? : Option Nat) (n c : Nat), gridRows r? n c ≠ none := by
    intro r? n c
    cases r? <;> simp [gridRows]
  have hauto : ∀ (cw? ch? : Option ℚ) (r? : Option Nat) (n c rr : Nat) (aw ah : ℚ),
      gridCellDims cw? ch? (gridRows r? n c) aw ah c rr
        = (aw / (c : ℚ), ah / (rr : ℚ)) := by
    intro cw? ch? r? n c rr aw ah
    unfold gridCellDims
    rw [if_pos (Or.inr (hnn r? n c))]
  refine ⟨hnn, hauto, ?_, by norm_num⟩
  rw [hauto]
  norm_num

/-- Claim C8: with no explicit row count the computed row count is the
ceiling of `tiles / columns` (5 tiles in 3 columns give 2 rows), and the
aspect-preserving fit scales a tile uniformly by the smaller of the two axis
ratios (so width and height are scaled by the same factor — never
stretched) and centers it with equal slack on the two opposing sides of each
axis. -/
theorem C8_grid_geometry :
    (gridRows none 5 3 = some 2
      ∧ calculate_grid_container_size 5 3 400 300 10 = (1220, 610, "0 0 1220 610"))
    ∧ (∀ n c : Nat, 0 < c → gridRows none n c = some ⌈(n : ℚ) / (c : ℚ)⌉₊)
    ∧ (∀ cw ch tw th : ℚ,
        (tileFit true cw ch tw th).scale = min (cw / tw) (ch / th)
        ∧ (tileFit true cw ch tw th).scaled_w = tw * (tileFit true cw ch tw th).scale
        ∧ (tileFit true cw ch tw th).scaled_h = th * (tileFit true cw ch tw th).scale
        ∧ (tileFit true cw ch tw th).scaled_w * th = (tileFit true cw ch tw th).scaled_h * tw
        ∧ 2 * (tileFit true cw ch tw th).offset_x + (tileFit true cw ch tw th).scaled_w = cw
        ∧ 2 * (tileFit true cw ch tw th).offset_y + (tileFit true cw ch tw th).scaled_h = ch) := by
  refine ⟨⟨by decide, ?_⟩, ?_, ?_⟩
  · have h1 : ((3 : ℕ) : ℚ) * 400 + (((3 : ℕ) : ℚ) - 1) * 10 = ((1220 : Int) : ℚ) := by
      norm_num
    have h2 : (((5 + 3 - 1) / 3 : ℕ) : ℚ) * 300 + ((((5 + 3 - 1) / 3 : ℕ) : ℚ) - 1) * 10
        = ((610 : Int) : ℚ) := by norm_num
    simp only [calculate_grid_container_size, h1, h2, pyIntOfQ_intCast]
    rfl
  · intro n c hc
    rw [gridRows, ceil_div_eq n c hc]
  · intro cw ch tw th
    simp only [tileFit, if_pos]
    exact ⟨trivial, trivial, trivial, by ring, by ring, by ring⟩


/-- Witness for claim C8 at 5 tiles, 3 columns, and a 2:1 tile (200x100) in
a square 100x100 cell: rows = 2 = ceiling(5/3), the scale is 1/2 (the
smaller axis ratio), the tile is not stretched (100x50), and the slack is
split equally (25 above and below). -/
theorem C8_grid_geometry_witness :
    (0 : Nat) < 3
    ∧ gridRows none 5 3 = some ⌈(5 : ℚ) / (3 : ℚ)⌉₊
    ∧ (tileFit true 100 100 200 100).scale = min ((100 : ℚ) / 200) ((100 : ℚ) / 100)
    ∧ tileFit true 100 100 200 100
        = { scale := 1 / 2, scaled_w := 100, scaled_h := 50,
            offset_x := 0, offset_y := 25 } :=
  ⟨by norm_num, C8_grid_geometry.2.1 5 3 (by norm_num),
    (C8_grid_geometry.2.2 100 100 200 100).1, by norm_num [tileFit]⟩

/-- Infix extension through the left factor of a string append. -/
theorem infix_appendStr_left (x : Chars) (s t : String) (h : x <:+: s.data) :
    x <:+: (s ++ t).data := by
  rw [String.data_append]
  exact h.trans (List.prefix_append s.data t.data).isInfix

/-- Infix extension through the right factor of a string append. -/
theorem infix_appendStr_right (x : Chars) (s t : String) (h : x <:+: t.data) :
    x <:+: (s ++ t).data := by
  rw [String.data_append]
  exact h.trans (List.suffix_append s.data t.data).isInfix

/-- A member of a list is an infix of the separator join. -/
theorem joinSep_infix (sep : String) : ∀ (l : List String) (x : String), x ∈ l →
    x.data <:+: (joinSep sep l).data := by
  intro l
  induction l with
  | nil =>
    intro x hx
    simp at hx
  | cons a t ih =>
    intro x hx
    cases t with
    | nil =>
      have hax : x = a := by simpa using hx
      subst hax
      exact List.infix_rfl
    | cons b t2 =>
      rcases List.mem_cons.mp hx with hax | hx2
      · subst hax
        show x.data <:+: ((x ++ sep) ++ joinSep sep (b :: t2)).data
        exact infix_appendStr_left _ _ _ (infix_appendStr_left _ _ _ List.infix_rfl)
      · show x.data <:+: ((a ++ sep) ++ joinSep sep (b :: t2)).data
        exact infix_appendStr_right _ _ _ (ih x hx2)

/-- A successful `mapME` preserves the length. -/
theorem mapME_ok_length {α β : Type} (f : α → Except String β) :
    ∀ (l : List α) (out : List β), mapME f l = .ok out → out.length = l.length := by
  intro l
  induction l with
  | nil =>
    intro out h
    simp only [mapME, Except.ok.injEq] at h
    subst h
    rfl
  | cons a t ih =>
    intro out h
    simp only [mapME] at h
    split at h
    · exact absurd h (by simp)
    · split at h
      · exact absurd h (by simp)
      · rename_i bs hbs
        injection h with h'
        subst h'
        simp [ih bs hbs]

/-- A successful `mapME` applies `f` pointwise. -/
theorem mapME_ok_get {α β : Type} (f : α → Except String β) :
    ∀ (l : List α) (out : List β), mapME f l = .ok out →
    ∀ i (h1 : i < l.length) (h2 : i < out.length),
      f (l.get ⟨i, h1⟩) = .ok (out.get ⟨i, h2⟩) := by
  intro l
  induction l with
  | nil =>
    intro out _ i h1
    exact absurd h1 (by simp)
  | cons a t ih =>
    intro out h i h1 h2
    simp only [mapME] at h
    split at h
    · exact absurd h (by simp)
    · rename_i b hb
      split at h
      · exact absurd h (by simp)
      · rename_i bs hbs
        injection h with h'
        subst h'
        cases i with
        | zero => exact hb
        | succ j => exact ih bs hbs j (by simpa using h1) (by simpa using h2)

/-- The clipPath definition is a factor of the tile element. -/
theorem clipDef_infix_tileElement (i : Nat) (name : String)
    (vb : PyNum × PyNum × PyNum × PyNum) (x y sw sh : ℚ) (inner : String) :
    (clipDefStr i vb).data <:+: (tileElementStr i name vb x y sw sh inner).data := by
  unfold tileElementStr
  apply infix_appendStr_left
  apply infix_appendStr_left
  apply infix_appendStr_left
  apply infix_appendStr_left
  apply infix_appendStr_left
  apply infix_appendStr_right
  exact List.infix_rfl

/-- The nested viewport's viewBox attribute is a factor of the tile
element. -/
theorem viewBoxAttr_infix_tileElement (i : Nat) (name : String)
    (vb : PyNum × PyNum × PyNum × PyNum) (x y sw sh : ℚ) (inner : String) :
    (viewBoxAttrStr vb).data <:+: (tileElementStr i name vb x y sw sh inner).data := by
  unfold tileElementStr
  apply infix_appendStr_left
  apply infix_appendStr_left
  apply infix_appendStr_left
  apply infix_appendStr_left
  apply infix_appendStr_left
  apply infix_appendStr_left
  apply infix_appendStr_left
  apply infix_appendStr_right
  exact List.infix_rfl

/-- The clip-applying group is a factor of the tile element. -/
theorem clipApply_infix_tileElement (i : Nat) (name : String)
    (vb : PyNum × PyNum × PyNum × PyNum) (x y sw sh : ℚ) (inner : String) :
    (clipApplyStr i).data <:+: (tileElementStr i name vb x y sw sh inner).data := by
  unfold tileElementStr
  apply infix_appendStr_left
  apply infix_appendStr_left
  apply infix_appendStr_left
  apply infix_appendStr_right
  exact List.infix_rfl

/-- Every placed tile (one whose computed grid row fits the configured row
count) contributes a tile element to `gridElems`. -/
theorem gridElems_mem (tl : List GridTile) (contW contH : ℚ) (rows? : Option Nat)
    (columns : Nat) (cellW? cellH? : Option ℚ) (margin : ℚ) (sl : Bool) (lh : ℚ)
    (fs : PyNum) (pa : Bool) (t : GridTile) (ht : t ∈ tl)
    (hrow : t.idx / columns < (gridRows rows? tl.length columns).getD 0) :
    ∃ x ∈ (gridElems tl contW contH rows? columns cellW? cellH? margin sl lh fs pa).map
        Prod.fst,
      ∃ X Y SW SH : ℚ, ∃ inner : String,
        x = tileElementStr t.idx t.name t.vb X Y SW SH inner := by
  simp only [gridElems]
  refine ⟨_, List.mem_map_of_mem _ (List.mem_map_of_mem _
    (List.mem_filter.mpr ⟨ht, decide_eq_true hrow⟩)), ?_⟩
  exact ⟨_, _, _, _, _, rfl⟩

/-- Every tile element of `gridElems` is an infix of the assembled output,
whatever the background mode. -/
theorem tileElem_infix_assemble (tl : List GridTile) (bgInfo : Option String × ℚ × ℚ)
    (rows? : Option Nat) (columns : Nat) (cellW? cellH? : Option ℚ)
    (wI hI : Int) (bgc : String) (margin : ℚ) (sl : Bool) (lh : ℚ) (fs : PyNum)
    (pa : Bool) (x : String)
    (hx : x ∈ (gridElems tl bgInfo.2.1 bgInfo.2.2 rows? columns cellW? cellH? margin
        sl lh fs pa).map Prod.fst) :
    x.data <:+: (gridAssemble tl bgInfo rows? columns cellW? cellH? wI hI bgc margin
        sl lh fs pa).data := by
  obtain ⟨bg?, cw2, ch2⟩ := bgInfo
  have hj : x.data <:+: (joinSep "\n" ((gridElems tl cw2 ch2 rows? columns cellW?
      cellH? margin sl lh fs pa).map Prod.fst)).data :=
    joinSep_infix _ _ _ hx
  simp only [gridAssemble]
  cases bg? with
  | some bgc2 =>
    simp only []
    cases findStageBg bgc2.data 0 with
    | some pos =>
      apply infix_appendStr_left
      apply infix_appendStr_right
      apply infix_appendStr_left
      apply infix_appendStr_left
      apply infix_appendStr_right
      exact hj
    | none =>
      cases rfindSubAux "</svg>".data bgc2.data 0 none with
      | some cp =>
        apply infix_appendStr_left
        apply infix_appendStr_right
        apply infix_appendStr_left
        apply infix_appendStr_left
        apply infix_appendStr_left
        apply infix_appendStr_right
        exact hj
      | none =>
        apply infix_appendStr_left
        apply infix_appendStr_right
        apply infix_appendStr_left
        apply infix_appendStr_left
        apply infix_appendStr_left
        apply infix_appendStr_right
        exact hj
  | none =>
    apply infix_appendStr_left
    apply infix_appendStr_left
    apply infix_appendStr_left
    apply infix_appendStr_right
    exact hj

/-- Claim C9: every tile placed by grid composition is wrapped in a nested
viewport carrying the tile's own viewBox together with an explicit clipPath
whose rectangle has exactly the viewBox's x, y, width and height, and the
tile's content group applies that clip — for every placed tile, in every
background mode.  (`clipDefStr` is the `<clipPath id="grid_clip_i">` with
`<rect x=.. y=.. width=.. height=..>` taken verbatim from the tile's
viewBox; `viewBoxAttrStr` is the nested `<svg>`'s viewBox attribute over the
same values; `clipApplyStr` is `<g clip-path="url(#grid_clip_i)">`.) -/
theorem C9_explicit_per_tile_clip
    (tiles : List (String × String)) (rows? : Option Nat) (columns : Nat)
    (cellW? cellH? : Option ℚ) (background? : Option (String × String))
    (wI hI : Int) (bgc : String) (margin : ℚ) (sl : Bool) (lh : ℚ) (fs : PyNum)
    (pa : Bool) (out : String)
    (hok : create_grid_composite tiles rows? columns cellW? cellH? background?
        wI hI bgc margin sl lh fs pa = .ok out)
    (i : Nat) (hi : i < tiles.length)
    (hrow : i / columns < (gridRows rows? tiles.length columns).getD 0)
    (vb : PyNum × PyNum × PyNum × PyNum)
    (hvb : parse_viewbox (tiles.get ⟨i, hi⟩).2 = .ok vb) :
    (clipDefStr i vb).data <:+: out.data
    ∧ (viewBoxAttrStr vb).data <:+: out.data
    ∧ (clipApplyStr i).data <:+: out.data := by
  unfold create_grid_composite at hok
  split at hok
  · exact absurd hok (by simp)
  · split at hok
    · exact absurd hok (by simp)
    · rename_i tl htl
      split at hok
      · exact absurd hok (by simp)
      · rename_i bgInfo hbg
        injection hok with hout
        have hlen1 : tiles.enum.length = tiles.length := List.enum_length
        have hlen : tl.length = tiles.length := by
          rw [mapME_ok_length gridTileLoad tiles.enum tl htl, hlen1]
        have hien : i < tiles.enum.length := by rwa [hlen1]
        have hi2 : i < tl.length := by rwa [hlen]
        have hgt := mapME_ok_get gridTileLoad tiles.enum tl htl i hien hi2
        have hen : tiles.enum.get ⟨i, hien⟩ = (i, tiles.get ⟨i, hi⟩) := by
          simp [List.get_eq_getElem, List.getElem_enum]
        rw [hen] at hgt
        unfold gridTileLoad at hgt
        rw [show ((i, tiles.get ⟨i, hi⟩).2.2 : String) = (tiles.get ⟨i, hi⟩).2 from rfl,
          hvb] at hgt
        simp only [] at hgt
        injection hgt with hrec
        have hidx : (tl.get ⟨i, hi2⟩).idx = i := by rw [← hrec]
        have hvb2 : (tl.get ⟨i, hi2⟩).vb = vb := by rw [← hrec]
        have hmem : tl.get ⟨i, hi2⟩ ∈ tl := List.get_mem tl i hi2
        have hrow2 : (tl.get ⟨i, hi2⟩).idx / columns
            < (gridRows rows? tl.length columns).getD 0 := by
          rw [hidx, hlen]
          exact hrow
        obtain ⟨x, hx, X, Y, SW, SH, inner, hxeq⟩ :=
          gridElems_mem tl bgInfo.2.1 bgInfo.2.2 rows? columns cellW? cellH? margin
            sl lh fs pa (tl.get ⟨i, hi2⟩) hmem hrow2
        have hxout : x.data <:+: out.data := by
          rw [← hout]
          exact tileElem_infix_assemble tl bgInfo rows? columns cellW? cellH? wI hI
            bgc margin sl lh fs pa x hx
        rw [hxeq, hidx, hvb2] at *
        refine ⟨?_, ?_, ?_⟩
        · exact (clipDef_infix_tileElement i _ vb X Y SW SH inner).trans
            (by rw [← hxeq]; exact hxout)
        · exact (viewBoxAttr_infix_tileElement i _ vb X Y SW SH inner).trans
            (by rw [← hxeq]; exact hxout)
        · exact (clipApply_infix_tileElement i _ vb X Y SW SH inner).trans
            (by rw [← hxeq]; exact hxout)

set_option maxRecDepth 40000 in
/-- Witness for claim C9: one 200x100 tile composed into a 1-column grid;
its clipPath definition, nested viewBox attribute and clip-applying group
all occur in the output. -/
theorem C9_explicit_per_tile_clip_witness :
    ∃ (out : String) (vb : PyNum × PyNum × PyNum × PyNum),
      create_grid_composite
          [("t1.svg", "<svg viewBox=\"0 0 200 100\"><rect id=\"r1\"/></svg>")]
          none 1 none none none 400 300 "#ffffff" 10 false 24 (pyInt 14) true = .ok out
      ∧ (0 : Nat) < 1
      ∧ 0 / 1 < (gridRows none 1 1).getD 0
      ∧ parse_viewbox "<svg viewBox=\"0 0 200 100\"><rect id=\"r1\"/></svg>" = .ok vb
      ∧ (clipDefStr 0 vb).data <:+: out.data
      ∧ (viewBoxAttrStr vb).data <:+: out.data
      ∧ (clipApplyStr 0).data <:+: out.data := by
  have h := C9_explicit_per_tile_clip
    [("t1.svg", "<svg viewBox=\"0 0 200 100\"><rect id=\"r1\"/></svg>")]
    none 1 none none none 400 300 "#ffffff" 10 false 24 (pyInt 14) true
    _ rfl 0 (by decide) (by decide) _ rfl
  exact ⟨_, _, rfl, by decide, by decide, rfl, h.1, h.2.1, h.2.2⟩

/-! ### Symbolic execution of the scanners

Step, fuel-irrelevance, word-crossing and match lemmas that let the ten
rewrite passes of `prefix_svg_ids` be executed symbolically over documents
containing arbitrary identifier-shaped tokens. -/

theorem scanBF_fuel_irrel {β : Type} (mtch : Option Char → Chars → Option (β × Option Char × Chars))
    (one : Char → β) (nilv : β) (comb : β → β → β) :
    ∀ f₁ f₂ prev (s : Chars), s.length < f₁ → s.length < f₂ →
      scanBF mtch one nilv comb f₁ prev s = scanBF mtch one nilv comb f₂ prev s := by
  intro f₁
  induction f₁ with
  | zero => intro f₂ prev s h1; omega
  | succ f ih =>
    intro f₂ prev s h1 h2
    cases f₂ with
    | zero => omega
    | succ g =>
      cases s with
      | nil => rfl
      | cons c t =>
        simp only [scanBF]
        cases hm : mtch prev (c :: t) with
        | none =>
          exact congrArg _ (ih g (some c) t (by simp at h1; omega) (by simp at h2; omega))
        | some r =>
          obtain ⟨b, prev2, rest⟩ := r
          by_cases hr : rest.length < t.length + 1
          · simp only [hr, if_true]
            exact congrArg _ (ih g prev2 rest (by simp at h1; omega) (by simp at h2; omega))
          · simp only [hr, if_false]
            exact congrArg _ (ih g (some c) t (by simp at h1; omega) (by simp at h2; omega))

theorem scanB_cons_noMatch {β : Type} (mtch : Option Char → Chars → Option (β × Option Char × Chars))
    (one : Char → β) (nilv : β) (comb : β → β → β) (prev : Option Char) (c : Char) (s : Chars)
    (h : mtch prev (c :: s) = none) :
    scanB mtch one nilv comb prev (c :: s) = comb (one c) (scanB mtch one nilv comb (some c) s) := by
  show scanBF mtch one nilv comb (s.length + 1 + 1) prev (c :: s) = _
  simp only [scanBF, h]
  rfl

theorem scanB_cons_isMatch {β : Type} (mtch : Option Char → Chars → Option (β × Option Char × Chars))
    (one : Char → β) (nilv : β) (comb : β → β → β) (prev : Option Char) (c : Char) (s : Chars)
    (b : β) (prev2 : Option Char) (rest : Chars)
    (h : mtch prev (c :: s) = some (b, prev2, rest)) (hl : rest.length ≤ s.length) :
    scanB mtch one nilv comb prev (c :: s) = comb b (scanB mtch one nilv comb prev2 rest) := by
  show scanBF mtch one nilv comb (s.length + 1 + 1) prev (c :: s) = _
  simp only [scanBF, h]
  rw [if_pos (by omega)]
  exact congrArg _ (scanBF_fuel_irrel mtch one nilv comb _ _ prev2 rest (by omega) (by omega))

theorem scanBF_prev_irrel {β : Type} (mtch : Option Char → Chars → Option (β × Option Char × Chars))
    (one : Char → β) (nilv : β) (comb : β → β → β)
    (hm : ∀ p q s, mtch p s = mtch q s) :
    ∀ f prev prevB (s : Chars),
      scanBF mtch one nilv comb f prev s = scanBF mtch one nilv comb f prevB s := by
  intro f
  induction f with
  | zero => intro _ _ _; rfl
  | succ g ih =>
    intro prev prevB s
    cases s with
    | nil => rfl
    | cons c t =>
      simp only [scanBF]
      rw [hm prev prevB (c :: t)]

theorem subT_cons_none (tryf : Chars → Option SubStep) (c : Char) (s : Chars)
    (h : tryf (c :: s) = none) :
    subT tryf (c :: s) = c :: subT tryf s := by
  unfold subT
  rw [scanB_cons_noMatch _ _ _ _ _ _ _ (by simp [noPrev, h])]
  unfold scanB
  rw [scanBF_prev_irrel (noPrev tryf) _ _ _ (fun _ _ _ => rfl) _ (some c) none]
  rfl

theorem subT_isMatch (tryf : Chars → Option SubStep) (c : Char) (s : Chars)
    (r : Chars) (k : Nat) (rest : Chars)
    (h : tryf (c :: s) = some (r, k, rest)) (hl : rest.length ≤ s.length) :
    subT tryf (c :: s) = r ++ subT tryf rest := by
  unfold subT
  rw [scanB_cons_isMatch (noPrev tryf) _ _ _ none c s r none rest (by simp [noPrev, h]) hl]

theorem subT_nil (tryf : Chars → Option SubStep) : subT tryf [] = [] := rfl

theorem subC_cons_none (tryf : Chars → Option SubStep) (c : Char) (s : Chars)
    (h : tryf (c :: s) = none) :
    subC tryf (c :: s) = subC tryf s := by
  unfold subC
  rw [scanB_cons_noMatch _ _ _ _ _ _ _ (by simp [noPrevC, h])]
  unfold scanB
  rw [scanBF_prev_irrel (noPrevC tryf) _ _ _ (fun _ _ _ => rfl) _ (some c) none]
  simp

theorem subC_isMatch (tryf : Chars → Option SubStep) (c : Char) (s : Chars)
    (r : Chars) (k : Nat) (rest : Chars)
    (h : tryf (c :: s) = some (r, k, rest)) (hl : rest.length ≤ s.length) :
    subC tryf (c :: s) = k + subC tryf rest := by
  unfold subC
  rw [scanB_cons_isMatch (noPrevC tryf) _ _ _ none c s k none rest (by simp [noPrevC, h]) hl]

theorem subC_nil (tryf : Chars → Option SubStep) : subC tryf [] = 0 := rfl

theorem pass1T_cons_none (m : Chars → Option Chars) (prev : Option Char) (c : Char) (s : Chars)
    (h : declTry m prev (c :: s) = none) :
    pass1T m prev (c :: s) = c :: pass1T m (some c) s := by
  unfold pass1T
  rw [scanB_cons_noMatch _ _ _ _ _ _ _ (by simp [h])]
  rfl

theorem pass1T_isMatch (m : Chars → Option Chars) (prev : Option Char) (c : Char) (s : Chars)
    (r : Chars) (k : Nat) (rest : Chars) (p2 : Option Char)
    (h : declTry m prev (c :: s) = some ((r, k, rest), p2)) (hl : rest.length ≤ s.length) :
    pass1T m prev (c :: s) = r ++ pass1T m p2 rest := by
  unfold pass1T
  rw [scanB_cons_isMatch _ _ _ _ prev c s r p2 rest (by simp [h]) hl]

theorem pass1T_nil (m : Chars → Option Chars) (prev : Option Char) : pass1T m prev [] = [] := rfl

theorem pass1C_cons_none (m : Chars → Option Chars) (prev : Option Char) (c : Char) (s : Chars)
    (h : declTry m prev (c :: s) = none) :
    pass1C m prev (c :: s) = pass1C m (some c) s := by
  unfold pass1C
  rw [scanB_cons_noMatch _ _ _ _ _ _ _ (by simp [h])]
  simp

theorem pass1C_isMatch (m : Chars → Option Chars) (prev : Option Char) (c : Char) (s : Chars)
    (r : Chars) (k : Nat) (rest : Chars) (p2 : Option Char)
    (h : declTry m prev (c :: s) = some ((r, k, rest), p2)) (hl : rest.length ≤ s.length) :
    pass1C m prev (c :: s) = k + pass1C m p2 rest := by
  unfold pass1C
  rw [scanB_cons_isMatch _ _ _ _ prev c s k p2 rest (by simp [h]) hl]

theorem pass1C_nil (m : Chars → Option Chars) (prev : Option Char) : pass1C m prev [] = 0 := rfl

theorem collectIds_cons_none (prev : Option Char) (c : Char) (s : Chars)
    (h : declMatch (c :: s) = none) :
    collectIds prev (c :: s) = collectIds (some c) s := by
  unfold collectIds
  rw [scanB_cons_noMatch _ _ _ _ _ _ _ (by simp [h])]
  simp

theorem collectIds_isMatch (prev : Option Char) (c : Char) (s : Chars)
    (q : Char) (tok : Chars) (q2 : Char) (rest : Chars)
    (h : declMatch (c :: s) = some (q, tok, q2, rest)) (hb : boundB prev = true)
    (hl : rest.length ≤ s.length) :
    collectIds prev (c :: s) = tok :: collectIds (some q2) rest := by
  unfold collectIds
  rw [scanB_cons_isMatch _ _ _ _ prev c s [tok] (some q2) rest (by simp [h, hb]) hl]
  rfl

theorem collectIds_nil (prev : Option Char) : collectIds prev [] = [] := rfl

theorem takeWhile_word (p : Char → Bool) : ∀ (w τ : Chars), (∀ c ∈ w, p c = true) →
    (w ++ τ).takeWhile p = w ++ τ.takeWhile p := by
  intro w
  induction w with
  | nil => intro τ _; rfl
  | cons a t ih =>
    intro τ hw
    rw [List.cons_append, List.takeWhile_cons_of_pos (hw a (by simp)),
      ih τ (fun c hc => hw c (by simp [hc])), List.cons_append]

theorem dropWhile_word (p : Char → Bool) : ∀ (w τ : Chars), (∀ c ∈ w, p c = true) →
    (w ++ τ).dropWhile p = τ.dropWhile p := by
  intro w
  induction w with
  | nil => intro τ _; rfl
  | cons a t ih =>
    intro τ hw
    rw [List.cons_append, List.dropWhile_cons_of_pos (hw a (by simp)),
      ih τ (fun c hc => hw c (by simp [hc]))]

theorem takeWhile_all (p : Char → Bool) (w : Chars) (hw : ∀ c ∈ w, p c = true) :
    w.takeWhile p = w := by
  have h := takeWhile_word p w [] hw
  simpa using h

theorem dropWhile_all (p : Char → Bool) (w : Chars) (hw : ∀ c ∈ w, p c = true) :
    w.dropWhile p = [] := by
  have h := dropWhile_word p w [] hw
  simpa using h

theorem dropWhile_append_stop (p : Char → Bool) (c0 : Char) (hc0 : p c0 = false) :
    ∀ (w rest : Chars), (w ++ c0 :: rest).dropWhile p = w.dropWhile p ++ c0 :: rest := by
  intro w
  induction w with
  | nil =>
    intro rest
    simp [List.dropWhile_cons, hc0]
  | cons a t ih =>
    intro rest
    by_cases ha : p a = true
    · rw [List.cons_append, List.dropWhile_cons_of_pos ha, ih rest,
        List.dropWhile_cons_of_pos ha]
    · rw [List.cons_append, List.dropWhile_cons_of_neg (by simp [ha]),
        List.dropWhile_cons_of_neg (by simp [ha]), List.cons_append]

theorem identCh_ne (c : Char) (h : identCh c = true) (d : Char) (hd : identCh d = false) :
    c ≠ d := by
  intro he
  subst he
  rw [h] at hd
  cases hd

theorem identStart_identCh (c : Char) (h : identStart c = true) : identCh c = true := by
  have h2 : c.isAlpha = true ∨ c = '_' := by simpa [identStart] using h
  rcases h2 with ha | hu
  · simp [identCh, Char.isAlphanum, ha]
  · subst hu; decide

theorem identCh_nonQuote (c : Char) (h : identCh c = true) : nonQuote c = true := by
  have h1 : c ≠ '"' := identCh_ne c h '"' (by decide)
  have h2 : c ≠ '\'' := identCh_ne c h '\'' (by decide)
  simp [nonQuote, h1, h2]

theorem identCh_valRef (c : Char) (h : identCh c = true) : valRefCh c = true := by
  have h1 : c ≠ '"' := identCh_ne c h '"' (by decide)
  have h2 : c ≠ '\'' := identCh_ne c h '\'' (by decide)
  have h3 : c ≠ ';' := identCh_ne c h ';' (by decide)
  have h4 : c ≠ ')' := identCh_ne c h ')' (by decide)
  have h5 : c ≠ ' ' := identCh_ne c h ' ' (by decide)
  have h6 : c ≠ '\t' := identCh_ne c h '\t' (by decide)
  have h7 : c ≠ '\n' := identCh_ne c h '\n' (by decide)
  have h8 : c ≠ '\r' := identCh_ne c h '\r' (by decide)
  have h9 : c ≠ '\x0b' := identCh_ne c h '\x0b' (by decide)
  have h10 : c ≠ '\x0c' := identCh_ne c h '\x0c' (by decide)
  simp [valRefCh, spaceCh, h1, h2, h3, h4, h5, h6, h7, h8, h9, h10]

theorem identCh_nonParen (c : Char) (h : identCh c = true) : nonParen c = true := by
  have h1 : c ≠ ')' := identCh_ne c h ')' (by decide)
  simp [nonParen, h1]

theorem stopCh_cases (c : Char) (h : stopCh c = true) :
    c = '"' ∨ c = ')' ∨ c = ';' ∨ c = '.' := by
  have h2 : ((c = '"' ∨ c = ')') ∨ c = ';') ∨ c = '.' := by simpa [stopCh] using h
  tauto

theorem wordShapeB_all (t : Chars) (h : wordShapeB t = true) : ∀ c ∈ t, identCh c = true := by
  cases t with
  | nil => cases h
  | cons c cs =>
    have h2 : identStart c = true ∧ ∀ a ∈ cs, identCh a = true := by
      simpa [wordShapeB, List.all_eq_true] using h
    intro d hd
    rcases List.mem_cons.mp hd with h3 | h3
    · rw [h3]; exact identStart_identCh c h2.1
    · exact h2.2 d h3

theorem wordShapeB_ne_nil (t : Chars) (h : wordShapeB t = true) : t ≠ [] := by
  cases t with
  | nil => cases h
  | cons c cs => simp

theorem litM_none_word : ∀ (pat w : Chars) (c0 : Char) (rest : Chars),
    (∀ c ∈ w, identCh c = true) →
    (∃ ch ∈ pat, identCh ch = false) →
    (∀ ch ∈ pat, ch ≠ c0) →
    litM pat (w ++ c0 :: rest) = none := by
  intro pat
  induction pat with
  | nil =>
    intro w c0 rest _ h2 _
    simp at h2
  | cons p ps ih =>
    intro w c0 rest h1 h2 h3
    cases w with
    | nil =>
      simp only [List.nil_append, litM]
      rw [if_neg]
      intro hc
      exact h3 p (by simp) hc.symm
    | cons a t =>
      simp only [List.cons_append, litM]
      by_cases hap : a = p
      · rw [if_pos hap]
        apply ih t c0 rest (fun c hc => h1 c (by simp [hc]))
        · obtain ⟨ch, hch, hbad⟩ := h2
          rcases List.mem_cons.mp hch with hc1 | hc2
          · subst hc1
            have hident := h1 a (by simp)
            rw [hap] at hident
            rw [hident] at hbad
            cases hbad
          · exact ⟨ch, hc2, hbad⟩
        · exact fun ch hch => h3 ch (by simp [hch])
      · rw [if_neg hap]

theorem litM_word_consume : ∀ (pat w : Chars) (c0 : Char) (rest s1 : Chars),
    (∀ c ∈ w, identCh c = true) →
    (∀ ch ∈ pat, identCh ch = true) →
    identCh c0 = false →
    litM pat (w ++ c0 :: rest) = some s1 →
    ∃ w2, w2 <:+ w ∧ s1 = w2 ++ c0 :: rest := by
  intro pat
  induction pat with
  | nil =>
    intro w c0 rest s1 _ _ _ hlit
    refine ⟨w, List.suffix_refl w, ?_⟩
    simpa [litM] using hlit.symm
  | cons p ps ih =>
    intro w c0 rest s1 h1 hpat hc0 hlit
    cases w with
    | nil =>
      simp only [List.nil_append, litM] at hlit
      split at hlit
      · next he =>
        exfalso
        rw [he] at hc0
        rw [hpat p (by simp)] at hc0
        cases hc0
      · cases hlit
    | cons a t =>
      simp only [List.cons_append, litM] at hlit
      split at hlit
      · obtain ⟨w2, hsfx, hs1⟩ := ih t c0 rest s1 (fun c hc => h1 c (by simp [hc]))
          (fun ch hch => hpat ch (by simp [hch])) hc0 hlit
        exact ⟨w2, hsfx.trans (List.suffix_cons a t), hs1⟩
      · cases hlit

theorem pat_ne_stop (pat : Chars) (c0 : Char) (hc : stopCh c0 = true)
    (hpat : pat.all (fun ch => !stopCh ch) = true) : ∀ ch ∈ pat, ch ≠ c0 := by
  intro ch hch he
  subst he
  have h2 := List.all_eq_true.mp hpat ch hch
  rw [hc] at h2
  cases h2

theorem stopCh_not_identCh (c0 : Char) (hc0 : stopCh c0 = true) : identCh c0 = false := by
  rcases stopCh_cases c0 hc0 with h | h | h | h <;> subst h <;> decide

theorem declMatch_none_word (w : Chars) (c0 : Char) (rest : Chars)
    (hw : ∀ c ∈ w, identCh c = true) (hc0 : stopCh c0 = true) :
    declMatch (w ++ c0 :: rest) = none := by
  have h1 : litM "id=".data (w ++ c0 :: rest) = none :=
    litM_none_word _ _ _ _ hw ⟨'=', by decide, by decide⟩ (pat_ne_stop _ _ hc0 (by decide))
  unfold declMatch
  rw [h1]

theorem declTry_none_word (m : Chars → Option Chars) (prev : Option Char)
    (w : Chars) (c0 : Char) (rest : Chars)
    (hw : ∀ c ∈ w, identCh c = true) (hc0 : stopCh c0 = true) :
    declTry m prev (w ++ c0 :: rest) = none := by
  unfold declTry
  rw [declMatch_none_word w c0 rest hw hc0]

theorem hrefAttr_none_word (w : Chars) (c0 : Char) (rest : Chars)
    (hw : ∀ c ∈ w, identCh c = true) (hc0 : stopCh c0 = true) :
    hrefAttr (w ++ c0 :: rest) = none := by
  have h1 : litM "xlink:href=".data (w ++ c0 :: rest) = none :=
    litM_none_word _ _ _ _ hw ⟨':', by decide, by decide⟩ (pat_ne_stop _ _ hc0 (by decide))
  have h2 : litM "href=".data (w ++ c0 :: rest) = none :=
    litM_none_word _ _ _ _ hw ⟨'=', by decide, by decide⟩ (pat_ne_stop _ _ hc0 (by decide))
  unfold hrefAttr
  rw [h1, h2]

theorem tryHrefHash_none_word (m : Chars → Option Chars) (w : Chars) (c0 : Char) (rest : Chars)
    (hw : ∀ c ∈ w, identCh c = true) (hc0 : stopCh c0 = true) :
    tryHrefHash m (w ++ c0 :: rest) = none := by
  unfold tryHrefHash
  rw [hrefAttr_none_word w c0 rest hw hc0]

theorem tryHrefUrl_none_word (m : Chars → Option Chars) (w : Chars) (c0 : Char) (rest : Chars)
    (hw : ∀ c ∈ w, identCh c = true) (hc0 : stopCh c0 = true) :
    tryHrefUrl m (w ++ c0 :: rest) = none := by
  unfold tryHrefUrl
  rw [hrefAttr_none_word w c0 rest hw hc0]

theorem tryUrl_none_word (m : Chars → Option Chars) (w : Chars) (c0 : Char) (rest : Chars)
    (hw : ∀ c ∈ w, identCh c = true) (hc0 : stopCh c0 = true) :
    tryUrl m (w ++ c0 :: rest) = none := by
  have h1 : litM "url(#".data (w ++ c0 :: rest) = none :=
    litM_none_word _ _ _ _ hw ⟨'(', by decide, by decide⟩ (pat_ne_stop _ _ hc0 (by decide))
  unfold tryUrl
  rw [h1]

theorem tryValues_none_word (m : Chars → Option Chars) (w : Chars) (c0 : Char) (rest : Chars)
    (hw : ∀ c ∈ w, identCh c = true) (hc0 : stopCh c0 = true) :
    tryValues m (w ++ c0 :: rest) = none := by
  have h1 : litM "values=".data (w ++ c0 :: rest) = none :=
    litM_none_word _ _ _ _ hw ⟨'=', by decide, by decide⟩ (pat_ne_stop _ _ hc0 (by decide))
  unfold tryValues
  rw [h1]

theorem tryTiming_none_word (m : Chars → Option Chars) (w : Chars) (c0 : Char) (rest : Chars)
    (hw : ∀ c ∈ w, identCh c = true) (hc0 : stopCh c0 = true) :
    tryTiming m (w ++ c0 :: rest) = none := by
  have h1 : litM "begin=".data (w ++ c0 :: rest) = none :=
    litM_none_word _ _ _ _ hw ⟨'=', by decide, by decide⟩ (pat_ne_stop _ _ hc0 (by decide))
  have h2 : litM "end=".data (w ++ c0 :: rest) = none :=
    litM_none_word _ _ _ _ hw ⟨'=', by decide, by decide⟩ (pat_ne_stop _ _ hc0 (by decide))
  unfold tryTiming timingAttr
  rw [h1, h2]

theorem tryFromToBy_none_word (m : Chars → Option Chars) (w : Chars) (c0 : Char) (rest : Chars)
    (hw : ∀ c ∈ w, identCh c = true) (hc0 : stopCh c0 = true) :
    tryFromToBy m (w ++ c0 :: rest) = none := by
  have h1 : litM "from=".data (w ++ c0 :: rest) = none :=
    litM_none_word _ _ _ _ hw ⟨'=', by decide, by decide⟩ (pat_ne_stop _ _ hc0 (by decide))
  have h2 : litM "to=".data (w ++ c0 :: rest) = none :=
    litM_none_word _ _ _ _ hw ⟨'=', by decide, by decide⟩ (pat_ne_stop _ _ hc0 (by decide))
  have h3 : litM "by=".data (w ++ c0 :: rest) = none :=
    litM_none_word _ _ _ _ hw ⟨'=', by decide, by decide⟩ (pat_ne_stop _ _ hc0 (by decide))
  unfold tryFromToBy fromToByAttr
  rw [h1, h2, h3]

theorem tryGetById_none_word (m : Chars → Option Chars) (w : Chars) (c0 : Char) (rest : Chars)
    (hw : ∀ c ∈ w, identCh c = true) (hc0 : stopCh c0 = true) :
    tryGetById m (w ++ c0 :: rest) = none := by
  have h1 : litM "getElementById(".data (w ++ c0 :: rest) = none :=
    litM_none_word _ _ _ _ hw ⟨'(', by decide, by decide⟩ (pat_ne_stop _ _ hc0 (by decide))
  unfold tryGetById
  rw [h1]

theorem tryQuerySel_none_word (m : Chars → Option Chars) (w : Chars) (c0 : Char) (rest : Chars)
    (hw : ∀ c ∈ w, identCh c = true) (hc0 : stopCh c0 = true) :
    tryQuerySel m (w ++ c0 :: rest) = none := by
  have h1 : litM "querySelector(".data (w ++ c0 :: rest) = none :=
    litM_none_word _ _ _ _ hw ⟨'(', by decide, by decide⟩ (pat_ne_stop _ _ hc0 (by decide))
  unfold tryQuerySel
  rw [h1]

theorem tryDataAttr_none_word (m : Chars → Option Chars) (w : Chars) (c0 : Char) (rest : Chars)
    (hw : ∀ c ∈ w, identCh c = true) (hc0 : stopCh c0 = true) :
    tryDataAttr m (w ++ c0 :: rest) = none := by
  have hid : identCh c0 = false := stopCh_not_identCh c0 hc0
  have hnd : dataNameCh c0 = false := by
    rcases stopCh_cases c0 hc0 with h | h | h | h <;> subst h <;> decide
  cases hlit : litM "data-".data (w ++ c0 :: rest) with
  | none =>
    unfold tryDataAttr
    rw [hlit]
  | some s1 =>
    obtain ⟨w2, hsfx, hs1⟩ := litM_word_consume _ _ _ _ _ hw (by decide) hid hlit
    subst hs1
    have hw2 : ∀ c ∈ w2, identCh c = true := fun c hc => hw c (hsfx.subset hc)
    cases hspan : span1 dataNameCh (w2 ++ c0 :: rest) with
    | none =>
      unfold tryDataAttr
      simp only [hlit, hspan]
    | some r =>
      obtain ⟨nm, s2⟩ := r
      have hs2 : s2 = w2.dropWhile dataNameCh ++ c0 :: rest := by
        unfold span1 at hspan
        rw [dropWhile_append_stop dataNameCh c0 hnd] at hspan
        split at hspan
        · cases hspan
        · injection hspan with hpair
          exact (congrArg Prod.snd hpair).symm
      have hne : ∀ d t2, s2 = d :: t2 → d ≠ '=' := by
        intro d t2 hdt he
        subst he
        rw [hs2] at hdt
        cases hdw : w2.dropWhile dataNameCh with
        | nil =>
          rw [hdw] at hdt
          simp at hdt
          rcases hdt with ⟨h1, _⟩
          rw [h1] at hc0
          exact absurd hc0 (by decide)
        | cons d2 t3 =>
          rw [hdw] at hdt
          simp at hdt
          have hd2 : d2 ∈ w2 := (List.dropWhile_suffix dataNameCh).subset (by rw [hdw]; simp)
          have := hw2 d2 hd2
          rw [hdt.1] at this
          cases this
      unfold tryDataAttr
      simp only [hlit, hspan]
      cases s2 with
      | nil => rfl
      | cons d t2 =>
        have hd : d ≠ '=' := hne d t2 rfl
        split
        · next s3 heq =>
          exfalso
          injection heq with h1 h2
          exact hd h1
        · rfl


/-! Character-list forms of the pattern literals (for symbolic evaluation). -/
theorem patData1 : "xlink:href=".data = ['x', 'l', 'i', 'n', 'k', ':', 'h', 'r', 'e', 'f', '='] := rfl
theorem patData2 : "href=".data = ['h', 'r', 'e', 'f', '='] := rfl
theorem patData3 : "xlink:href".data = ['x', 'l', 'i', 'n', 'k', ':', 'h', 'r', 'e', 'f'] := rfl
theorem patData4 : "href".data = ['h', 'r', 'e', 'f'] := rfl
theorem patData5 : "url(#".data = ['u', 'r', 'l', '(', '#'] := rfl
theorem patData6 : "values=".data = ['v', 'a', 'l', 'u', 'e', 's', '='] := rfl
theorem patData7 : "values".data = ['v', 'a', 'l', 'u', 'e', 's'] := rfl
theorem patData8 : "begin=".data = ['b', 'e', 'g', 'i', 'n', '='] := rfl
theorem patData9 : "end=".data = ['e', 'n', 'd', '='] := rfl
theorem patData10 : "begin".data = ['b', 'e', 'g', 'i', 'n'] := rfl
theorem patData11 : "end".data = ['e', 'n', 'd'] := rfl
theorem patData12 : "from=".data = ['f', 'r', 'o', 'm', '='] := rfl
theorem patData13 : "to=".data = ['t', 'o', '='] := rfl
theorem patData14 : "by=".data = ['b', 'y', '='] := rfl
theorem patData15 : "from".data = ['f', 'r', 'o', 'm'] := rfl
theorem patData16 : "to".data = ['t', 'o'] := rfl
theorem patData17 : "by".data = ['b', 'y'] := rfl
theorem patData18 : "getElementById(".data = ['g', 'e', 't', 'E', 'l', 'e', 'm', 'e', 'n', 't', 'B', 'y', 'I', 'd', '('] := rfl
theorem patData19 : "querySelector(".data = ['q', 'u', 'e', 'r', 'y', 'S', 'e', 'l', 'e', 'c', 't', 'o', 'r', '('] := rfl
theorem patData20 : "data-".data = ['d', 'a', 't', 'a', '-'] := rfl
theorem patData21 : "id=".data = ['i', 'd', '='] := rfl
theorem patData22 : "p_".data = ['p', '_'] := rfl

theorem span1_word_stop (p : Char → Bool) (t : Chars) (ht : ∀ c ∈ t, p c = true)
    (hne : t ≠ []) (c0 : Char) (hc0 : p c0 = false) (rest : Chars) :
    span1 p (t ++ c0 :: rest) = some (t, c0 :: rest) := by
  unfold span1
  rw [takeWhile_word _ _ _ ht, dropWhile_word _ _ _ ht,
    List.takeWhile_cons_of_neg (by simp [hc0]), List.dropWhile_cons_of_neg (by simp [hc0]),
    List.append_nil]
  cases t with
  | nil => exact absurd rfl hne
  | cons a tl => rfl

theorem span1_word_all (p : Char → Bool) (t : Chars) (ht : ∀ c ∈ t, p c = true)
    (hne : t ≠ []) :
    span1 p t = some (t, []) := by
  unfold span1
  rw [takeWhile_all _ _ ht, dropWhile_all _ _ ht]
  cases t with
  | nil => exact absurd rfl hne
  | cons a tl => rfl

theorem wordShapeB_nonQuote (t : Chars) (ht : wordShapeB t = true) :
    ∀ c ∈ t, nonQuote c = true :=
  fun c hc => identCh_nonQuote c (wordShapeB_all t ht c hc)

theorem wordShapeB_nonParen (t : Chars) (ht : wordShapeB t = true) :
    ∀ c ∈ t, nonParen c = true :=
  fun c hc => identCh_nonParen c (wordShapeB_all t ht c hc)

theorem wordShapeB_valRef (t : Chars) (ht : wordShapeB t = true) :
    ∀ c ∈ t, valRefCh c = true :=
  fun c hc => identCh_valRef c (wordShapeB_all t ht c hc)

theorem subT_skip (tryf : Chars → Option SubStep) :
    ∀ (w τ : Chars), (∀ sfx, sfx <:+ w → sfx ≠ [] → tryf (sfx ++ τ) = none) →
    subT tryf (w ++ τ) = w ++ subT tryf τ := by
  intro w
  induction w with
  | nil => intro τ _; rfl
  | cons a t ih =>
    intro τ h
    rw [List.cons_append, subT_cons_none _ _ _ (by
      have hh := h (a :: t) (List.suffix_refl _) (by simp)
      simpa using hh)]
    rw [ih τ (fun sfx hs hn => h sfx (hs.trans (List.suffix_cons a t)) hn), List.cons_append]

theorem subC_skip (tryf : Chars → Option SubStep) :
    ∀ (w τ : Chars), (∀ sfx, sfx <:+ w → sfx ≠ [] → tryf (sfx ++ τ) = none) →
    subC tryf (w ++ τ) = subC tryf τ := by
  intro w
  induction w with
  | nil => intro τ _; rfl
  | cons a t ih =>
    intro τ h
    rw [List.cons_append, subC_cons_none _ _ _ (by
      have hh := h (a :: t) (List.suffix_refl _) (by simp)
      simpa using hh)]
    exact ih τ (fun sfx hs hn => h sfx (hs.trans (List.suffix_cons a t)) hn)

theorem skipHrefHashT (m : Chars → Option Chars) (t : Chars) (ht : wordShapeB t = true)
    (c0 : Char) (hc0 : stopCh c0 = true) (rest : Chars) :
    subT (tryHrefHash m) (t ++ c0 :: rest) = t ++ subT (tryHrefHash m) (c0 :: rest) := by
  apply subT_skip
  intro sfx hs hn
  obtain ⟨pre, hpre⟩ := hs
  exact tryHrefHash_none_word m sfx c0 rest
    (fun c hc => wordShapeB_all t ht c (by rw [← hpre]; exact List.mem_append_right pre hc)) hc0

theorem skipHrefHashC (m : Chars → Option Chars) (t : Chars) (ht : wordShapeB t = true)
    (c0 : Char) (hc0 : stopCh c0 = true) (rest : Chars) :
    subC (tryHrefHash m) (t ++ c0 :: rest) = subC (tryHrefHash m) (c0 :: rest) := by
  apply subC_skip
  intro sfx hs hn
  obtain ⟨pre, hpre⟩ := hs
  exact tryHrefHash_none_word m sfx c0 rest
    (fun c hc => wordShapeB_all t ht c (by rw [← hpre]; exact List.mem_append_right pre hc)) hc0

theorem skipHrefUrlT (m : Chars → Option Chars) (t : Chars) (ht : wordShapeB t = true)
    (c0 : Char) (hc0 : stopCh c0 = true) (rest : Chars) :
    subT (tryHrefUrl m) (t ++ c0 :: rest) = t ++ subT (tryHrefUrl m) (c0 :: rest) := by
  apply subT_skip
  intro sfx hs hn
  obtain ⟨pre, hpre⟩ := hs
  exact tryHrefUrl_none_word m sfx c0 rest
    (fun c hc => wordShapeB_all t ht c (by rw [← hpre]; exact List.mem_append_right pre hc)) hc0

theorem skipHrefUrlC (m : Chars → Option Chars) (t : Chars) (ht : wordShapeB t = true)
    (c0 : Char) (hc0 : stopCh c0 = true) (rest : Chars) :
    subC (tryHrefUrl m) (t ++ c0 :: rest) = subC (tryHrefUrl m) (c0 :: rest) := by
  apply subC_skip
  intro sfx hs hn
  obtain ⟨pre, hpre⟩ := hs
  exact tryHrefUrl_none_word m sfx c0 rest
    (fun c hc => wordShapeB_all t ht c (by rw [← hpre]; exact List.mem_append_right pre hc)) hc0

theorem skipUrlT (m : Chars → Option Chars) (t : Chars) (ht : wordShapeB t = true)
    (c0 : Char) (hc0 : stopCh c0 = true) (rest : Chars) :
    subT (tryUrl m) (t ++ c0 :: rest) = t ++ subT (tryUrl m) (c0 :: rest) := by
  apply subT_skip
  intro sfx hs hn
  obtain ⟨pre, hpre⟩ := hs
  exact tryUrl_none_word m sfx c0 rest
    (fun c hc => wordShapeB_all t ht c (by rw [← hpre]; exact List.mem_append_right pre hc)) hc0

theorem skipUrlC (m : Chars → Option Chars) (t : Chars) (ht : wordShapeB t = true)
    (c0 : Char) (hc0 : stopCh c0 = true) (rest : Chars) :
    subC (tryUrl m) (t ++ c0 :: rest) = subC (tryUrl m) (c0 :: rest) := by
  apply subC_skip
  intro sfx hs hn
  obtain ⟨pre, hpre⟩ := hs
  exact tryUrl_none_word m sfx c0 rest
    (fun c hc => wordShapeB_all t ht c (by rw [← hpre]; exact List.mem_append_right pre hc)) hc0

theorem skipValuesT (m : Chars → Option Chars) (t : Chars) (ht : wordShapeB t = true)
    (c0 : Char) (hc0 : stopCh c0 = true) (rest : Chars) :
    subT (tryValues m) (t ++ c0 :: rest) = t ++ subT (tryValues m) (c0 :: rest) := by
  apply subT_skip
  intro sfx hs hn
  obtain ⟨pre, hpre⟩ := hs
  exact tryValues_none_word m sfx c0 rest
    (fun c hc => wordShapeB_all t ht c (by rw [← hpre]; exact List.mem_append_right pre hc)) hc0

theorem skipValuesC (m : Chars → Option Chars) (t : Chars) (ht : wordShapeB t = true)
    (c0 : Char) (hc0 : stopCh c0 = true) (rest : Chars) :
    subC (tryValues m) (t ++ c0 :: rest) = subC (tryValues m) (c0 :: rest) := by
  apply subC_skip
  intro sfx hs hn
  obtain ⟨pre, hpre⟩ := hs
  exact tryValues_none_word m sfx c0 rest
    (fun c hc => wordShapeB_all t ht c (by rw [← hpre]; exact List.mem_append_right pre hc)) hc0

theorem skipTimingT (m : Chars → Option Chars) (t : Chars) (ht : wordShapeB t = true)
    (c0 : Char) (hc0 : stopCh c0 = true) (rest : Chars) :
    subT (tryTiming m) (t ++ c0 :: rest) = t ++ subT (tryTiming m) (c0 :: rest) := by
  apply subT_skip
  intro sfx hs hn
  obtain ⟨pre, hpre⟩ := hs
  exact tryTiming_none_word m sfx c0 rest
    (fun c hc => wordShapeB_all t ht c (by rw [← hpre]; exact List.mem_append_right pre hc)) hc0

theorem skipTimingC (m : Chars → Option Chars) (t : Chars) (ht : wordShapeB t = true)
    (c0 : Char) (hc0 : stopCh c0 = true) (rest : Chars) :
    subC (tryTiming m) (t ++ c0 :: rest) = subC (tryTiming m) (c0 :: rest) := by
  apply subC_skip
  intro sfx hs hn
  obtain ⟨pre, hpre⟩ := hs
  exact tryTiming_none_word m sfx c0 rest
    (fun c hc => wordShapeB_all t ht c (by rw [← hpre]; exact List.mem_append_right pre hc)) hc0

theorem skipFromToByT (m : Chars → Option Chars) (t : Chars) (ht : wordShapeB t = true)
    (c0 : Char) (hc0 : stopCh c0 = true) (rest : Chars) :
    subT (tryFromToBy m) (t ++ c0 :: rest) = t ++ subT (tryFromToBy m) (c0 :: rest) := by
  apply subT_skip
  intro sfx hs hn
  obtain ⟨pre, hpre⟩ := hs
  exact tryFromToBy_none_word m sfx c0 rest
    (fun c hc => wordShapeB_all t ht c (by rw [← hpre]; exact List.mem_append_right pre hc)) hc0

theorem skipFromToByC (m : Chars → Option Chars) (t : Chars) (ht : wordShapeB t = true)
    (c0 : Char) (hc0 : stopCh c0 = true) (rest : Chars) :
    subC (tryFromToBy m) (t ++ c0 :: rest) = subC (tryFromToBy m) (c0 :: rest) := by
  apply subC_skip
  intro sfx hs hn
  obtain ⟨pre, hpre⟩ := hs
  exact tryFromToBy_none_word m sfx c0 rest
    (fun c hc => wordShapeB_all t ht c (by rw [← hpre]; exact List.mem_append_right pre hc)) hc0

theorem skipGetByIdT (m : Chars → Option Chars) (t : Chars) (ht : wordShapeB t = true)
    (c0 : Char) (hc0 : stopCh c0 = true) (rest : Chars) :
    subT (tryGetById m) (t ++ c0 :: rest) = t ++ subT (tryGetById m) (c0 :: rest) := by
  apply subT_skip
  intro sfx hs hn
  obtain ⟨pre, hpre⟩ := hs
  exact tryGetById_none_word m sfx c0 rest
    (fun c hc => wordShapeB_all t ht c (by rw [← hpre]; exact List.mem_append_right pre hc)) hc0

theorem skipGetByIdC (m : Chars → Option Chars) (t : Chars) (ht : wordShapeB t = true)
    (c0 : Char) (hc0 : stopCh c0 = true) (rest : Chars) :
    subC (tryGetById m) (t ++ c0 :: rest) = subC (tryGetById m) (c0 :: rest) := by
  apply subC_skip
  intro sfx hs hn
  obtain ⟨pre, hpre⟩ := hs
  exact tryGetById_none_word m sfx c0 rest
    (fun c hc => wordShapeB_all t ht c (by rw [← hpre]; exact List.mem_append_right pre hc)) hc0

theorem skipQuerySelT (m : Chars → Option Chars) (t : Chars) (ht : wordShapeB t = true)
    (c0 : Char) (hc0 : stopCh c0 = true) (rest : Chars) :
    subT (tryQuerySel m) (t ++ c0 :: rest) = t ++ subT (tryQuerySel m) (c0 :: rest) := by
  apply subT_skip
  intro sfx hs hn
  obtain ⟨pre, hpre⟩ := hs
  exact tryQuerySel_none_word m sfx c0 rest
    (fun c hc => wordShapeB_all t ht c (by rw [← hpre]; exact List.mem_append_right pre hc)) hc0

theorem skipQuerySelC (m : Chars → Option Chars) (t : Chars) (ht : wordShapeB t = true)
    (c0 : Char) (hc0 : stopCh c0 = true) (rest : Chars) :
    subC (tryQuerySel m) (t ++ c0 :: rest) = subC (tryQuerySel m) (c0 :: rest) := by
  apply subC_skip
  intro sfx hs hn
  obtain ⟨pre, hpre⟩ := hs
  exact tryQuerySel_none_word m sfx c0 rest
    (fun c hc => wordShapeB_all t ht c (by rw [← hpre]; exact List.mem_append_right pre hc)) hc0

theorem skipDataAttrT (m : Chars → Option Chars) (t : Chars) (ht : wordShapeB t = true)
    (c0 : Char) (hc0 : stopCh c0 = true) (rest : Chars) :
    subT (tryDataAttr m) (t ++ c0 :: rest) = t ++ subT (tryDataAttr m) (c0 :: rest) := by
  apply subT_skip
  intro sfx hs hn
  obtain ⟨pre, hpre⟩ := hs
  exact tryDataAttr_none_word m sfx c0 rest
    (fun c hc => wordShapeB_all t ht c (by rw [← hpre]; exact List.mem_append_right pre hc)) hc0

theorem skipDataAttrC (m : Chars → Option Chars) (t : Chars) (ht : wordShapeB t = true)
    (c0 : Char) (hc0 : stopCh c0 = true) (rest : Chars) :
    subC (tryDataAttr m) (t ++ c0 :: rest) = subC (tryDataAttr m) (c0 :: rest) := by
  apply subC_skip
  intro sfx hs hn
  obtain ⟨pre, hpre⟩ := hs
  exact tryDataAttr_none_word m sfx c0 rest
    (fun c hc => wordShapeB_all t ht c (by rw [← hpre]; exact List.mem_append_right pre hc)) hc0


theorem evalHrefHash (m : Chars → Option Chars) (t : Chars) (ht : wordShapeB t = true)
    (rest : Chars) :
    tryHrefHash m ('h' :: 'r' :: 'e' :: 'f' :: '=' :: '"' :: '#' :: (t ++ '"' :: rest))
      = some ('h' :: 'r' :: 'e' :: 'f' :: '=' :: '"' :: '#' :: (mOr m t ++ ['"']), mCnt m t, rest) := by
  have hspan := span1_word_stop nonQuote t (wordShapeB_nonQuote t ht) (wordShapeB_ne_nil t ht)
    '"' (by decide) rest
  cases hm : m t with
  | some u =>
    simp [tryHrefHash, hrefAttr, litM, quoteHead, isQuoteCh, patData1, patData2, patData4,
      hspan, hm, mOr, mCnt]
  | none =>
    simp [tryHrefHash, hrefAttr, litM, quoteHead, isQuoteCh, patData1, patData2, patData4,
      hspan, hm, mOr, mCnt]

theorem matchHrefHashT (m : Chars → Option Chars) (t : Chars) (ht : wordShapeB t = true)
    (rest : Chars) :
    subT (tryHrefHash m) ('h' :: 'r' :: 'e' :: 'f' :: '=' :: '"' :: '#' :: (t ++ '"' :: rest))
      = 'h' :: 'r' :: 'e' :: 'f' :: '=' :: '"' :: '#' :: (mOr m t ++ '"' :: subT (tryHrefHash m) rest) := by
  rw [subT_isMatch _ _ _ _ _ _ (evalHrefHash m t ht rest) (by simp only [List.length_append, List.length_cons]; omega)]
  simp

theorem matchHrefHashC (m : Chars → Option Chars) (t : Chars) (ht : wordShapeB t = true)
    (rest : Chars) :
    subC (tryHrefHash m) ('h' :: 'r' :: 'e' :: 'f' :: '=' :: '"' :: '#' :: (t ++ '"' :: rest))
      = mCnt m t + subC (tryHrefHash m) rest := by
  rw [subC_isMatch _ _ _ _ _ _ (evalHrefHash m t ht rest) (by simp only [List.length_append, List.length_cons]; omega)]

theorem evalHrefUrl (m : Chars → Option Chars) (t : Chars) (ht : wordShapeB t = true)
    (rest : Chars) :
    tryHrefUrl m ('x' :: 'l' :: 'i' :: 'n' :: 'k' :: ':' :: 'h' :: 'r' :: 'e' :: 'f' :: '=' :: '"' :: 'u' :: 'r' :: 'l' :: '(' :: '#' :: (t ++ ')' :: '"' :: rest))
      = some ('x' :: 'l' :: 'i' :: 'n' :: 'k' :: ':' :: 'h' :: 'r' :: 'e' :: 'f' :: '=' :: '"' :: 'u' :: 'r' :: 'l' :: '(' :: '#' :: (mOr m t ++ [')', '"']), mCnt m t, rest) := by
  have hspan := span1_word_stop nonParen t (wordShapeB_nonParen t ht) (wordShapeB_ne_nil t ht)
    ')' (by decide) ('"' :: rest)
  cases hm : m t with
  | some u =>
    simp [tryHrefUrl, hrefAttr, litM, quoteHead, isQuoteCh, patData1, patData3, patData5,
      hspan, hm, mOr, mCnt]
  | none =>
    simp [tryHrefUrl, hrefAttr, litM, quoteHead, isQuoteCh, patData1, patData3, patData5,
      hspan, hm, mOr, mCnt]

theorem matchHrefUrlT (m : Chars → Option Chars) (t : Chars) (ht : wordShapeB t = true)
    (rest : Chars) :
    subT (tryHrefUrl m) ('x' :: 'l' :: 'i' :: 'n' :: 'k' :: ':' :: 'h' :: 'r' :: 'e' :: 'f' :: '=' :: '"' :: 'u' :: 'r' :: 'l' :: '(' :: '#' :: (t ++ ')' :: '"' :: rest))
      = 'x' :: 'l' :: 'i' :: 'n' :: 'k' :: ':' :: 'h' :: 'r' :: 'e' :: 'f' :: '=' :: '"' :: 'u' :: 'r' :: 'l' :: '(' :: '#' :: (mOr m t ++ ')' :: '"' :: subT (tryHrefUrl m) rest) := by
  rw [subT_isMatch _ _ _ _ _ _ (evalHrefUrl m t ht rest) (by simp only [List.length_append, List.length_cons]; omega)]
  simp

theorem matchHrefUrlC (m : Chars → Option Chars) (t : Chars) (ht : wordShapeB t = true)
    (rest : Chars) :
    subC (tryHrefUrl m) ('x' :: 'l' :: 'i' :: 'n' :: 'k' :: ':' :: 'h' :: 'r' :: 'e' :: 'f' :: '=' :: '"' :: 'u' :: 'r' :: 'l' :: '(' :: '#' :: (t ++ ')' :: '"' :: rest))
      = mCnt m t + subC (tryHrefUrl m) rest := by
  rw [subC_isMatch _ _ _ _ _ _ (evalHrefUrl m t ht rest) (by simp only [List.length_append, List.length_cons]; omega)]

theorem evalUrl (m : Chars → Option Chars) (t : Chars) (ht : wordShapeB t = true)
    (rest : Chars) :
    tryUrl m ('u' :: 'r' :: 'l' :: '(' :: '#' :: (t ++ ')' :: rest))
      = some ('u' :: 'r' :: 'l' :: '(' :: '#' :: (mOr m t ++ [')']), mCnt m t, rest) := by
  have hspan := span1_word_stop nonParen t (wordShapeB_nonParen t ht) (wordShapeB_ne_nil t ht)
    ')' (by decide) rest
  cases hm : m t with
  | some u => simp [tryUrl, litM, patData5, hspan, hm, mOr, mCnt]
  | none => simp [tryUrl, litM, patData5, hspan, hm, mOr, mCnt]

theorem matchUrlT (m : Chars → Option Chars) (t : Chars) (ht : wordShapeB t = true)
    (rest : Chars) :
    subT (tryUrl m) ('u' :: 'r' :: 'l' :: '(' :: '#' :: (t ++ ')' :: rest))
      = 'u' :: 'r' :: 'l' :: '(' :: '#' :: (mOr m t ++ ')' :: subT (tryUrl m) rest) := by
  rw [subT_isMatch _ _ _ _ _ _ (evalUrl m t ht rest) (by simp only [List.length_append, List.length_cons]; omega)]
  simp

theorem matchUrlC (m : Chars → Option Chars) (t : Chars) (ht : wordShapeB t = true)
    (rest : Chars) :
    subC (tryUrl m) ('u' :: 'r' :: 'l' :: '(' :: '#' :: (t ++ ')' :: rest))
      = mCnt m t + subC (tryUrl m) rest := by
  rw [subC_isMatch _ _ _ _ _ _ (evalUrl m t ht rest) (by simp only [List.length_append, List.length_cons]; omega)]

theorem innerValuesT (m : Chars → Option Chars) (t u : Chars)
    (ht : wordShapeB t = true) (hu : wordShapeB u = true) :
    subT (tryValRef m) ('#' :: (t ++ ';' :: '#' :: u))
      = '#' :: (mOr m t ++ ';' :: '#' :: mOr m u) := by
  have he1 : tryValRef m ('#' :: (t ++ ';' :: '#' :: u))
      = some ('#' :: mOr m t, mCnt m t, ';' :: '#' :: u) := by
    have hspan := span1_word_stop valRefCh t (wordShapeB_valRef t ht) (wordShapeB_ne_nil t ht)
      ';' (by decide) ('#' :: u)
    cases hm : m t with
    | some v => simp [tryValRef, hspan, hm, mOr, mCnt]
    | none => simp [tryValRef, hspan, hm, mOr, mCnt]
  have he2 : tryValRef m ('#' :: u) = some ('#' :: mOr m u, mCnt m u, []) := by
    have hspan := span1_word_all valRefCh u (wordShapeB_valRef u hu) (wordShapeB_ne_nil u hu)
    cases hm : m u with
    | some v => simp [tryValRef, hspan, hm, mOr, mCnt]
    | none => simp [tryValRef, hspan, hm, mOr, mCnt]
  rw [subT_isMatch _ _ _ _ _ _ he1 (by simp only [List.length_append, List.length_cons]; omega)]
  rw [subT_cons_none _ _ _ (by simp [tryValRef])]
  rw [subT_isMatch _ _ _ _ _ _ he2 (by simp)]
  simp [subT_nil]

theorem innerValuesC (m : Chars → Option Chars) (t u : Chars)
    (ht : wordShapeB t = true) (hu : wordShapeB u = true) :
    subC (tryValRef m) ('#' :: (t ++ ';' :: '#' :: u))
      = mCnt m t + mCnt m u := by
  have he1 : tryValRef m ('#' :: (t ++ ';' :: '#' :: u))
      = some ('#' :: mOr m t, mCnt m t, ';' :: '#' :: u) := by
    have hspan := span1_word_stop valRefCh t (wordShapeB_valRef t ht) (wordShapeB_ne_nil t ht)
      ';' (by decide) ('#' :: u)
    cases hm : m t with
    | some v => simp [tryValRef, hspan, hm, mOr, mCnt]
    | none => simp [tryValRef, hspan, hm, mOr, mCnt]
  have he2 : tryValRef m ('#' :: u) = some ('#' :: mOr m u, mCnt m u, []) := by
    have hspan := span1_word_all valRefCh u (wordShapeB_valRef u hu) (wordShapeB_ne_nil u hu)
    cases hm : m u with
    | some v => simp [tryValRef, hspan, hm, mOr, mCnt]
    | none => simp [tryValRef, hspan, hm, mOr, mCnt]
  rw [subC_isMatch _ _ _ _ _ _ he1 (by simp only [List.length_append, List.length_cons]; omega)]
  rw [subC_cons_none _ _ _ (by simp [tryValRef])]
  rw [subC_isMatch _ _ _ _ _ _ he2 (by simp)]
  simp [subC_nil]

theorem evalValues (m : Chars → Option Chars) (t u : Chars)
    (ht : wordShapeB t = true) (hu : wordShapeB u = true) (rest : Chars) :
    tryValues m ('v' :: 'a' :: 'l' :: 'u' :: 'e' :: 's' :: '=' :: '"' :: '#' :: (t ++ ';' :: '#' :: (u ++ '"' :: rest)))
      = some ('v' :: 'a' :: 'l' :: 'u' :: 'e' :: 's' :: '=' :: '"' :: '#' :: (mOr m t ++ ';' :: '#' :: (mOr m u ++ ['"'])),
              mCnt m t + mCnt m u, rest) := by
  have hnt := wordShapeB_nonQuote t ht
  have hnu := wordShapeB_nonQuote u hu
  have htake : List.takeWhile nonQuote ('#' :: (t ++ ';' :: '#' :: (u ++ '"' :: rest)))
      = '#' :: (t ++ ';' :: '#' :: u) := by
    rw [List.takeWhile_cons_of_pos (by decide), takeWhile_word _ _ _ hnt,
      List.takeWhile_cons_of_pos (by decide), List.takeWhile_cons_of_pos (by decide),
      takeWhile_word _ _ _ hnu, List.takeWhile_cons_of_neg (by decide), List.append_nil]
  have hdrop : List.dropWhile nonQuote ('#' :: (t ++ ';' :: '#' :: (u ++ '"' :: rest)))
      = '"' :: rest := by
    rw [List.dropWhile_cons_of_pos (by decide), dropWhile_word _ _ _ hnt,
      List.dropWhile_cons_of_pos (by decide), List.dropWhile_cons_of_pos (by decide),
      dropWhile_word _ _ _ hnu, List.dropWhile_cons_of_neg (by decide)]
  have hin := innerValuesT m t u ht hu
  have hic := innerValuesC m t u ht hu
  simp [tryValues, litM, patData6, quoteHead, isQuoteCh, htake, hdrop, hin, hic]

theorem matchValuesT (m : Chars → Option Chars) (t u : Chars)
    (ht : wordShapeB t = true) (hu : wordShapeB u = true) (rest : Chars) :
    subT (tryValues m) ('v' :: 'a' :: 'l' :: 'u' :: 'e' :: 's' :: '=' :: '"' :: '#' :: (t ++ ';' :: '#' :: (u ++ '"' :: rest)))
      = 'v' :: 'a' :: 'l' :: 'u' :: 'e' :: 's' :: '=' :: '"' :: '#' :: (mOr m t ++ ';' :: '#' :: (mOr m u ++ '"' :: subT (tryValues m) rest)) := by
  rw [subT_isMatch _ _ _ _ _ _ (evalValues m t u ht hu rest)
    (by simp only [List.length_append, List.length_cons]; omega)]
  simp

theorem matchValuesC (m : Chars → Option Chars) (t u : Chars)
    (ht : wordShapeB t = true) (hu : wordShapeB u = true) (rest : Chars) :
    subC (tryValues m) ('v' :: 'a' :: 'l' :: 'u' :: 'e' :: 's' :: '=' :: '"' :: '#' :: (t ++ ';' :: '#' :: (u ++ '"' :: rest)))
      = mCnt m t + mCnt m u + subC (tryValues m) rest := by
  rw [subC_isMatch _ _ _ _ _ _ (evalValues m t u ht hu rest)
    (by simp only [List.length_append, List.length_cons]; omega)]


theorem innerTimingEval (m : Chars → Option Chars) (t : Chars) (ht : wordShapeB t = true) :
    tryTimingRef m (t ++ '.' :: 'c' :: 'l' :: 'i' :: 'c' :: 'k' :: [])
      = some (mOr m t ++ '.' :: 'c' :: 'l' :: 'i' :: 'c' :: 'k' :: [], mCnt m t, []) := by
  cases t with
  | nil => cases ht
  | cons c cs =>
    have hparts : identStart c = true ∧ ∀ a ∈ cs, identCh a = true := by
      simpa [wordShapeB, List.all_eq_true] using ht
    have htl : List.takeWhile identCh (cs ++ '.' :: 'c' :: 'l' :: 'i' :: 'c' :: 'k' :: []) = cs := by
      rw [takeWhile_word _ _ _ hparts.2, List.takeWhile_cons_of_neg (by decide), List.append_nil]
    have hdw : List.dropWhile identCh (cs ++ '.' :: 'c' :: 'l' :: 'i' :: 'c' :: 'k' :: []) = '.' :: 'c' :: 'l' :: 'i' :: 'c' :: 'k' :: [] := by
      rw [dropWhile_word _ _ _ hparts.2, List.dropWhile_cons_of_neg (by decide)]
    have hsp : span1 wordCh ('c' :: 'l' :: 'i' :: 'c' :: 'k' :: []) = some ('c' :: 'l' :: 'i' :: 'c' :: 'k' :: [], []) := by decide
    cases hm : m (c :: cs) with
    | some v => simp [tryTimingRef, hparts.1, htl, hdw, hsp, hm, mOr, mCnt]
    | none => simp [tryTimingRef, hparts.1, htl, hdw, hsp, hm, mOr, mCnt]

theorem innerTimingT (m : Chars → Option Chars) (t : Chars) (ht : wordShapeB t = true) :
    subT (tryTimingRef m) (t ++ '.' :: 'c' :: 'l' :: 'i' :: 'c' :: 'k' :: [])
      = mOr m t ++ '.' :: 'c' :: 'l' :: 'i' :: 'c' :: 'k' :: [] := by
  cases hsh : t with
  | nil => rw [hsh] at ht; cases ht
  | cons c cs =>
    rw [← hsh]
    have he := innerTimingEval m t ht
    rw [hsh] at he ⊢
    rw [List.cons_append, subT_isMatch _ _ _ _ _ _ (by simpa using he) (by simp)]
    simp [subT_nil]

theorem innerTimingC (m : Chars → Option Chars) (t : Chars) (ht : wordShapeB t = true) :
    subC (tryTimingRef m) (t ++ '.' :: 'c' :: 'l' :: 'i' :: 'c' :: 'k' :: [])
      = mCnt m t := by
  cases hsh : t with
  | nil => rw [hsh] at ht; cases ht
  | cons c cs =>
    rw [← hsh]
    have he := innerTimingEval m t ht
    rw [hsh] at he ⊢
    rw [List.cons_append, subC_isMatch _ _ _ _ _ _ (by simpa using he) (by simp)]
    simp [subC_nil]

theorem evalTiming (m : Chars → Option Chars) (t : Chars) (ht : wordShapeB t = true)
    (rest : Chars) :
    tryTiming m ('b' :: 'e' :: 'g' :: 'i' :: 'n' :: '=' :: '"' :: (t ++ '.' :: 'c' :: 'l' :: 'i' :: 'c' :: 'k' :: '"' :: rest))
      = some ('b' :: 'e' :: 'g' :: 'i' :: 'n' :: '=' :: '"' :: (mOr m t ++ '.' :: 'c' :: 'l' :: 'i' :: 'c' :: 'k' :: ['"']), mCnt m t, rest) := by
  have hnt := wordShapeB_nonQuote t ht
  have hCQ : ∀ c ∈ t ++ '.' :: 'c' :: 'l' :: 'i' :: 'c' :: 'k' :: [], nonQuote c = true := by
    intro c hc
    rcases List.mem_append.mp hc with h | h
    · exact hnt c h
    · simp at h
      rcases h with rfl | rfl | rfl | rfl | rfl | rfl <;> decide
  have hspan := span1_word_stop nonQuote (t ++ '.' :: 'c' :: 'l' :: 'i' :: 'c' :: 'k' :: []) hCQ
    (by cases t <;> simp) '"' (by decide) rest
  rw [List.append_assoc] at hspan
  simp only [List.cons_append, List.nil_append] at hspan
  have hit := innerTimingT m t ht
  have hic := innerTimingC m t ht
  simp [tryTiming, timingAttr, litM, patData8, patData10, quoteHead, isQuoteCh,
    hspan, hit, hic]

theorem matchTimingT (m : Chars → Option Chars) (t : Chars) (ht : wordShapeB t = true)
    (rest : Chars) :
    subT (tryTiming m) ('b' :: 'e' :: 'g' :: 'i' :: 'n' :: '=' :: '"' :: (t ++ '.' :: 'c' :: 'l' :: 'i' :: 'c' :: 'k' :: '"' :: rest))
      = 'b' :: 'e' :: 'g' :: 'i' :: 'n' :: '=' :: '"' :: (mOr m t ++ '.' :: 'c' :: 'l' :: 'i' :: 'c' :: 'k' :: '"' :: subT (tryTiming m) rest) := by
  rw [subT_isMatch _ _ _ _ _ _ (evalTiming m t ht rest)
    (by simp only [List.length_append, List.length_cons]; omega)]
  simp

theorem matchTimingC (m : Chars → Option Chars) (t : Chars) (ht : wordShapeB t = true)
    (rest : Chars) :
    subC (tryTiming m) ('b' :: 'e' :: 'g' :: 'i' :: 'n' :: '=' :: '"' :: (t ++ '.' :: 'c' :: 'l' :: 'i' :: 'c' :: 'k' :: '"' :: rest))
      = mCnt m t + subC (tryTiming m) rest := by
  rw [subC_isMatch _ _ _ _ _ _ (evalTiming m t ht rest)
    (by simp only [List.length_append, List.length_cons]; omega)]

theorem evalFrom (m : Chars → Option Chars) (t : Chars) (ht : wordShapeB t = true)
    (rest : Chars) :
    tryFromToBy m ('f' :: 'r' :: 'o' :: 'm' :: '=' :: '"' :: '#' :: (t ++ '"' :: rest))
      = some ('f' :: 'r' :: 'o' :: 'm' :: '=' :: '"' :: '#' :: (mOr m t ++ ['"']), mCnt m t, rest) := by
  have hspan := span1_word_stop nonQuote t (wordShapeB_nonQuote t ht) (wordShapeB_ne_nil t ht)
    '"' (by decide) rest
  cases hm : m t with
  | some u =>
    simp [tryFromToBy, fromToByAttr, litM, patData12, patData13, patData14, patData15,
      patData16, patData17, quoteHead, isQuoteCh, hspan, hm, mOr, mCnt]
  | none =>
    simp [tryFromToBy, fromToByAttr, litM, patData12, patData13, patData14, patData15,
      patData16, patData17, quoteHead, isQuoteCh, hspan, hm, mOr, mCnt]

theorem matchFromT (m : Chars → Option Chars) (t : Chars) (ht : wordShapeB t = true)
    (rest : Chars) :
    subT (tryFromToBy m) ('f' :: 'r' :: 'o' :: 'm' :: '=' :: '"' :: '#' :: (t ++ '"' :: rest))
      = 'f' :: 'r' :: 'o' :: 'm' :: '=' :: '"' :: '#' :: (mOr m t ++ '"' :: subT (tryFromToBy m) rest) := by
  rw [subT_isMatch _ _ _ _ _ _ (evalFrom m t ht rest)
    (by simp only [List.length_append, List.length_cons]; omega)]
  simp

theorem matchFromC (m : Chars → Option Chars) (t : Chars) (ht : wordShapeB t = true)
    (rest : Chars) :
    subC (tryFromToBy m) ('f' :: 'r' :: 'o' :: 'm' :: '=' :: '"' :: '#' :: (t ++ '"' :: rest))
      = mCnt m t + subC (tryFromToBy m) rest := by
  rw [subC_isMatch _ _ _ _ _ _ (evalFrom m t ht rest)
    (by simp only [List.length_append, List.length_cons]; omega)]

theorem evalTo (m : Chars → Option Chars) (t : Chars) (ht : wordShapeB t = true)
    (rest : Chars) :
    tryFromToBy m ('t' :: 'o' :: '=' :: '"' :: '#' :: (t ++ '"' :: rest))
      = some ('t' :: 'o' :: '=' :: '"' :: '#' :: (mOr m t ++ ['"']), mCnt m t, rest) := by
  have hspan := span1_word_stop nonQuote t (wordShapeB_nonQuote t ht) (wordShapeB_ne_nil t ht)
    '"' (by decide) rest
  cases hm : m t with
  | some u =>
    simp [tryFromToBy, fromToByAttr, litM, patData12, patData13, patData14, patData15,
      patData16, patData17, quoteHead, isQuoteCh, hspan, hm, mOr, mCnt]
  | none =>
    simp [tryFromToBy, fromToByAttr, litM, patData12, patData13, patData14, patData15,
      patData16, patData17, quoteHead, isQuoteCh, hspan, hm, mOr, mCnt]

theorem matchToT (m : Chars → Option Chars) (t : Chars) (ht : wordShapeB t = true)
    (rest : Chars) :
    subT (tryFromToBy m) ('t' :: 'o' :: '=' :: '"' :: '#' :: (t ++ '"' :: rest))
      = 't' :: 'o' :: '=' :: '"' :: '#' :: (mOr m t ++ '"' :: subT (tryFromToBy m) rest) := by
  rw [subT_isMatch _ _ _ _ _ _ (evalTo m t ht rest)
    (by simp only [List.length_append, List.length_cons]; omega)]
  simp

theorem matchToC (m : Chars → Option Chars) (t : Chars) (ht : wordShapeB t = true)
    (rest : Chars) :
    subC (tryFromToBy m) ('t' :: 'o' :: '=' :: '"' :: '#' :: (t ++ '"' :: rest))
      = mCnt m t + subC (tryFromToBy m) rest := by
  rw [subC_isMatch _ _ _ _ _ _ (evalTo m t ht rest)
    (by simp only [List.length_append, List.length_cons]; omega)]

theorem evalBy (m : Chars → Option Chars) (t : Chars) (ht : wordShapeB t = true)
    (rest : Chars) :
    tryFromToBy m ('b' :: 'y' :: '=' :: '"' :: '#' :: (t ++ '"' :: rest))
      = some ('b' :: 'y' :: '=' :: '"' :: '#' :: (mOr m t ++ ['"']), mCnt m t, rest) := by
  have hspan := span1_word_stop nonQuote t (wordShapeB_nonQuote t ht) (wordShapeB_ne_nil t ht)
    '"' (by decide) rest
  cases hm : m t with
  | some u =>
    simp [tryFromToBy, fromToByAttr, litM, patData12, patData13, patData14, patData15,
      patData16, patData17, quoteHead, isQuoteCh, hspan, hm, mOr, mCnt]
  | none =>
    simp [tryFromToBy, fromToByAttr, litM, patData12, patData13, patData14, patData15,
      patData16, patData17, quoteHead, isQuoteCh, hspan, hm, mOr, mCnt]

theorem matchByT (m : Chars → Option Chars) (t : Chars) (ht : wordShapeB t = true)
    (rest : Chars) :
    subT (tryFromToBy m) ('b' :: 'y' :: '=' :: '"' :: '#' :: (t ++ '"' :: rest))
      = 'b' :: 'y' :: '=' :: '"' :: '#' :: (mOr m t ++ '"' :: subT (tryFromToBy m) rest) := by
  rw [subT_isMatch _ _ _ _ _ _ (evalBy m t ht rest)
    (by simp only [List.length_append, List.length_cons]; omega)]
  simp

theorem matchByC (m : Chars → Option Chars) (t : Chars) (ht : wordShapeB t = true)
    (rest : Chars) :
    subC (tryFromToBy m) ('b' :: 'y' :: '=' :: '"' :: '#' :: (t ++ '"' :: rest))
      = mCnt m t + subC (tryFromToBy m) rest := by
  rw [subC_isMatch _ _ _ _ _ _ (evalBy m t ht rest)
    (by simp only [List.length_append, List.length_cons]; omega)]

theorem evalGetById (m : Chars → Option Chars) (t : Chars) (ht : wordShapeB t = true)
    (rest : Chars) :
    tryGetById m ('g' :: 'e' :: 't' :: 'E' :: 'l' :: 'e' :: 'm' :: 'e' :: 'n' :: 't' :: 'B' :: 'y' :: 'I' :: 'd' :: '(' :: '"' :: (t ++ '"' :: ')' :: rest))
      = some ('g' :: 'e' :: 't' :: 'E' :: 'l' :: 'e' :: 'm' :: 'e' :: 'n' :: 't' :: 'B' :: 'y' :: 'I' :: 'd' :: '(' :: '"' :: (mOr m t ++ ['"', ')']), mCnt m t, rest) := by
  have hspan := span1_word_stop nonQuote t (wordShapeB_nonQuote t ht) (wordShapeB_ne_nil t ht)
    '"' (by decide) (')' :: rest)
  cases hm : m t with
  | some u => simp [tryGetById, litM, patData18, quoteHead, isQuoteCh, hspan, hm, mOr, mCnt]
  | none => simp [tryGetById, litM, patData18, quoteHead, isQuoteCh, hspan, hm, mOr, mCnt]

theorem matchGetByIdT (m : Chars → Option Chars) (t : Chars) (ht : wordShapeB t = true)
    (rest : Chars) :
    subT (tryGetById m) ('g' :: 'e' :: 't' :: 'E' :: 'l' :: 'e' :: 'm' :: 'e' :: 'n' :: 't' :: 'B' :: 'y' :: 'I' :: 'd' :: '(' :: '"' :: (t ++ '"' :: ')' :: rest))
      = 'g' :: 'e' :: 't' :: 'E' :: 'l' :: 'e' :: 'm' :: 'e' :: 'n' :: 't' :: 'B' :: 'y' :: 'I' :: 'd' :: '(' :: '"' :: (mOr m t ++ '"' :: ')' :: subT (tryGetById m) rest) := by
  rw [subT_isMatch _ _ _ _ _ _ (evalGetById m t ht rest)
    (by simp only [List.length_append, List.length_cons]; omega)]
  simp

theorem matchGetByIdC (m : Chars → Option Chars) (t : Chars) (ht : wordShapeB t = true)
    (rest : Chars) :
    subC (tryGetById m) ('g' :: 'e' :: 't' :: 'E' :: 'l' :: 'e' :: 'm' :: 'e' :: 'n' :: 't' :: 'B' :: 'y' :: 'I' :: 'd' :: '(' :: '"' :: (t ++ '"' :: ')' :: rest))
      = mCnt m t + subC (tryGetById m) rest := by
  rw [subC_isMatch _ _ _ _ _ _ (evalGetById m t ht rest)
    (by simp only [List.length_append, List.length_cons]; omega)]

theorem evalQuerySel (m : Chars → Option Chars) (t : Chars) (ht : wordShapeB t = true)
    (rest : Chars) :
    tryQuerySel m ('q' :: 'u' :: 'e' :: 'r' :: 'y' :: 'S' :: 'e' :: 'l' :: 'e' :: 'c' :: 't' :: 'o' :: 'r' :: '(' :: '"' :: '#' :: (t ++ '"' :: ')' :: rest))
      = some ('q' :: 'u' :: 'e' :: 'r' :: 'y' :: 'S' :: 'e' :: 'l' :: 'e' :: 'c' :: 't' :: 'o' :: 'r' :: '(' :: '"' :: '#' :: (mOr m t ++ ['"', ')']), mCnt m t, rest) := by
  have hspan := span1_word_stop nonQuote t (wordShapeB_nonQuote t ht) (wordShapeB_ne_nil t ht)
    '"' (by decide) (')' :: rest)
  cases hm : m t with
  | some u => simp [tryQuerySel, litM, patData19, quoteHead, isQuoteCh, hspan, hm, mOr, mCnt]
  | none => simp [tryQuerySel, litM, patData19, quoteHead, isQuoteCh, hspan, hm, mOr, mCnt]

theorem matchQuerySelT (m : Chars → Option Chars) (t : Chars) (ht : wordShapeB t = true)
    (rest : Chars) :
    subT (tryQuerySel m) ('q' :: 'u' :: 'e' :: 'r' :: 'y' :: 'S' :: 'e' :: 'l' :: 'e' :: 'c' :: 't' :: 'o' :: 'r' :: '(' :: '"' :: '#' :: (t ++ '"' :: ')' :: rest))
      = 'q' :: 'u' :: 'e' :: 'r' :: 'y' :: 'S' :: 'e' :: 'l' :: 'e' :: 'c' :: 't' :: 'o' :: 'r' :: '(' :: '"' :: '#' :: (mOr m t ++ '"' :: ')' :: subT (tryQuerySel m) rest) := by
  rw [subT_isMatch _ _ _ _ _ _ (evalQuerySel m t ht rest)
    (by simp only [List.length_append, List.length_cons]; omega)]
  simp

theorem matchQuerySelC (m : Chars → Option Chars) (t : Chars) (ht : wordShapeB t = true)
    (rest : Chars) :
    subC (tryQuerySel m) ('q' :: 'u' :: 'e' :: 'r' :: 'y' :: 'S' :: 'e' :: 'l' :: 'e' :: 'c' :: 't' :: 'o' :: 'r' :: '(' :: '"' :: '#' :: (t ++ '"' :: ')' :: rest))
      = mCnt m t + subC (tryQuerySel m) rest := by
  rw [subC_isMatch _ _ _ _ _ _ (evalQuerySel m t ht rest)
    (by simp only [List.length_append, List.length_cons]; omega)]

theorem evalDataAttr (m : Chars → Option Chars) (t : Chars) (ht : wordShapeB t = true)
    (rest : Chars) :
    tryDataAttr m ('d' :: 'a' :: 't' :: 'a' :: '-' :: 'r' :: 'e' :: 'f' :: '=' :: '"' :: '#' :: (t ++ '"' :: rest))
      = some ('d' :: 'a' :: 't' :: 'a' :: '-' :: 'r' :: 'e' :: 'f' :: '=' :: '"' :: '#' :: (mOr m t ++ ['"']), mCnt m t, rest) := by
  have hspan := span1_word_stop nonQuote t (wordShapeB_nonQuote t ht) (wordShapeB_ne_nil t ht)
    '"' (by decide) rest
  have hnm : span1 dataNameCh ('r' :: 'e' :: 'f' :: '=' :: '"' :: '#' :: (t ++ '"' :: rest))
      = some ('r' :: 'e' :: 'f' :: [], '=' :: '"' :: '#' :: (t ++ '"' :: rest)) := by
    unfold span1
    rw [List.takeWhile_cons_of_pos (by decide), List.takeWhile_cons_of_pos (by decide),
      List.takeWhile_cons_of_pos (by decide), List.takeWhile_cons_of_neg (by decide),
      List.dropWhile_cons_of_pos (by decide), List.dropWhile_cons_of_pos (by decide),
      List.dropWhile_cons_of_pos (by decide), List.dropWhile_cons_of_neg (by decide)]
  cases hm : m t with
  | some u =>
    simp [tryDataAttr, litM, patData20, quoteHead, isQuoteCh, hnm, hspan, hm, mOr, mCnt]
  | none =>
    simp [tryDataAttr, litM, patData20, quoteHead, isQuoteCh, hnm, hspan, hm, mOr, mCnt]

theorem matchDataAttrT (m : Chars → Option Chars) (t : Chars) (ht : wordShapeB t = true)
    (rest : Chars) :
    subT (tryDataAttr m) ('d' :: 'a' :: 't' :: 'a' :: '-' :: 'r' :: 'e' :: 'f' :: '=' :: '"' :: '#' :: (t ++ '"' :: rest))
      = 'd' :: 'a' :: 't' :: 'a' :: '-' :: 'r' :: 'e' :: 'f' :: '=' :: '"' :: '#' :: (mOr m t ++ '"' :: subT (tryDataAttr m) rest) := by
  rw [subT_isMatch _ _ _ _ _ _ (evalDataAttr m t ht rest)
    (by simp only [List.length_append, List.length_cons]; omega)]
  simp

theorem matchDataAttrC (m : Chars → Option Chars) (t : Chars) (ht : wordShapeB t = true)
    (rest : Chars) :
    subC (tryDataAttr m) ('d' :: 'a' :: 't' :: 'a' :: '-' :: 'r' :: 'e' :: 'f' :: '=' :: '"' :: '#' :: (t ++ '"' :: rest))
      = mCnt m t + subC (tryDataAttr m) rest := by
  rw [subC_isMatch _ _ _ _ _ _ (evalDataAttr m t ht rest)
    (by simp only [List.length_append, List.length_cons]; omega)]

theorem evalDecl (m : Chars → Option Chars) (t : Chars) (ht : wordShapeB t = true)
    (rest : Chars) :
    declTry m (some ' ') ('i' :: 'd' :: '=' :: '"' :: (t ++ '"' :: rest))
      = some (('i' :: 'd' :: '=' :: '"' :: (mOr m t ++ ['"']), mCnt m t, rest), some '"') := by
  have hspan := span1_word_stop nonQuote t (wordShapeB_nonQuote t ht) (wordShapeB_ne_nil t ht)
    '"' (by decide) rest
  have hb : boundB (some ' ') = true := by decide
  cases hm : m t with
  | some u =>
    simp [declTry, declMatch, litM, patData21, quoteHead, isQuoteCh, hb, hspan, hm, mOr, mCnt]
  | none =>
    simp [declTry, declMatch, litM, patData21, quoteHead, isQuoteCh, hb, hspan, hm, mOr, mCnt]

theorem matchDeclT (m : Chars → Option Chars) (t : Chars) (ht : wordShapeB t = true)
    (rest : Chars) :
    pass1T m (some ' ') ('i' :: 'd' :: '=' :: '"' :: (t ++ '"' :: rest))
      = 'i' :: 'd' :: '=' :: '"' :: (mOr m t ++ '"' :: pass1T m (some '"') rest) := by
  rw [pass1T_isMatch _ _ _ _ _ _ _ _ (evalDecl m t ht rest)
    (by simp only [List.length_append, List.length_cons]; omega)]
  simp

theorem matchDeclC (m : Chars → Option Chars) (t : Chars) (ht : wordShapeB t = true)
    (rest : Chars) :
    pass1C m (some ' ') ('i' :: 'd' :: '=' :: '"' :: (t ++ '"' :: rest))
      = mCnt m t + pass1C m (some '"') rest := by
  rw [pass1C_isMatch _ _ _ _ _ _ _ _ (evalDecl m t ht rest)
    (by simp only [List.length_append, List.length_cons]; omega)]

theorem evalCollect (t : Chars) (ht : wordShapeB t = true) (rest : Chars) :
    declMatch ('i' :: 'd' :: '=' :: '"' :: (t ++ '"' :: rest)) = some ('"', t, '"', rest) := by
  have hspan := span1_word_stop nonQuote t (wordShapeB_nonQuote t ht) (wordShapeB_ne_nil t ht)
    '"' (by decide) rest
  simp [declMatch, litM, patData21, quoteHead, isQuoteCh, hspan]

theorem matchCollect (t : Chars) (ht : wordShapeB t = true) (rest : Chars) :
    collectIds (some ' ') ('i' :: 'd' :: '=' :: '"' :: (t ++ '"' :: rest))
      = t :: collectIds (some '"') rest := by
  exact collectIds_isMatch (some ' ') 'i' _ '"' t '"' rest
    (by simpa using evalCollect t ht rest) (by decide)
    (by simp only [List.length_append, List.length_cons]; omega)

theorem declTry_none_stop (m : Chars → Option Chars) (p : Option Char) (c0 : Char)
    (hc0 : stopCh c0 = true) (rest : Chars) : declTry m p (c0 :: rest) = none := by
  have h := declTry_none_word m p [] c0 rest (by simp) hc0
  simpa using h

theorem declMatch_none_stop (c0 : Char) (hc0 : stopCh c0 = true) (rest : Chars) :
    declMatch (c0 :: rest) = none := by
  have h := declMatch_none_word [] c0 rest (by simp) hc0
  simpa using h

theorem skipDeclT (m : Chars → Option Chars) (c0 : Char) (hc0 : stopCh c0 = true)
    (rest : Chars) : ∀ (t : Chars), (∀ c ∈ t, identCh c = true) → ∀ p,
    pass1T m p (t ++ c0 :: rest) = t ++ c0 :: pass1T m (some c0) rest := by
  intro t
  induction t with
  | nil =>
    intro _ p
    simpa using pass1T_cons_none m p c0 rest (declTry_none_stop m p c0 hc0 rest)
  | cons a tl ih =>
    intro hw p
    rw [List.cons_append, pass1T_cons_none m p a _ (by
      have h := declTry_none_word m p (a :: tl) c0 rest hw hc0
      simpa using h)]
    rw [ih (fun c hc => hw c (by simp [hc])) (some a), List.cons_append]

theorem skipDeclC (m : Chars → Option Chars) (c0 : Char) (hc0 : stopCh c0 = true)
    (rest : Chars) : ∀ (t : Chars), (∀ c ∈ t, identCh c = true) → ∀ p,
    pass1C m p (t ++ c0 :: rest) = pass1C m (some c0) rest := by
  intro t
  induction t with
  | nil =>
    intro _ p
    simpa using pass1C_cons_none m p c0 rest (declTry_none_stop m p c0 hc0 rest)
  | cons a tl ih =>
    intro hw p
    rw [List.cons_append, pass1C_cons_none m p a _ (by
      have h := declTry_none_word m p (a :: tl) c0 rest hw hc0
      simpa using h)]
    exact ih (fun c hc => hw c (by simp [hc])) (some a)

theorem skipCollect (c0 : Char) (hc0 : stopCh c0 = true)
    (rest : Chars) : ∀ (t : Chars), (∀ c ∈ t, identCh c = true) → ∀ p,
    collectIds p (t ++ c0 :: rest) = collectIds (some c0) rest := by
  intro t
  induction t with
  | nil =>
    intro _ p
    simpa using collectIds_cons_none p c0 rest (declMatch_none_stop c0 hc0 rest)
  | cons a tl ih =>
    intro hw p
    rw [List.cons_append, collectIds_cons_none p a _ (by
      have h := declMatch_none_word (a :: tl) c0 rest hw hc0
      simpa using h)]
    exact ih (fun c hc => hw c (by simp [hc])) (some a)


/-! Character-list forms of the template segments. -/
theorem nineSegData0 : "<svg>\n<rect id=\"".data = ['<', 's', 'v', 'g', '>', '\n', '<', 'r', 'e', 'c', 't', ' ', 'i', 'd', '=', '"'] := rfl
theorem nineSegData1 : "\"/>\n<use href=\"#".data = ['"', '/', '>', '\n', '<', 'u', 's', 'e', ' ', 'h', 'r', 'e', 'f', '=', '"', '#'] := rfl
theorem nineSegData2 : "\"/>\n<use xlink:href=\"url(#".data = ['"', '/', '>', '\n', '<', 'u', 's', 'e', ' ', 'x', 'l', 'i', 'n', 'k', ':', 'h', 'r', 'e', 'f', '=', '"', 'u', 'r', 'l', '(', '#'] := rfl
theorem nineSegData3 : ")\"/>\n<rect fill=\"url(#".data = [')', '"', '/', '>', '\n', '<', 'r', 'e', 'c', 't', ' ', 'f', 'i', 'l', 'l', '=', '"', 'u', 'r', 'l', '(', '#'] := rfl
theorem nineSegData4 : ")\"/>\n<animate values=\"#".data = [')', '"', '/', '>', '\n', '<', 'a', 'n', 'i', 'm', 'a', 't', 'e', ' ', 'v', 'a', 'l', 'u', 'e', 's', '=', '"', '#'] := rfl
theorem nineSegData5 : ";#".data = [';', '#'] := rfl
theorem nineSegData6 : "\"/>\n<animate begin=\"".data = ['"', '/', '>', '\n', '<', 'a', 'n', 'i', 'm', 'a', 't', 'e', ' ', 'b', 'e', 'g', 'i', 'n', '=', '"'] := rfl
theorem nineSegData7 : ".click\"/>\n<animate from=\"#".data = ['.', 'c', 'l', 'i', 'c', 'k', '"', '/', '>', '\n', '<', 'a', 'n', 'i', 'm', 'a', 't', 'e', ' ', 'f', 'r', 'o', 'm', '=', '"', '#'] := rfl
theorem nineSegData8 : "\" to=\"#".data = ['"', ' ', 't', 'o', '=', '"', '#'] := rfl
theorem nineSegData9 : "\" by=\"#".data = ['"', ' ', 'b', 'y', '=', '"', '#'] := rfl
theorem nineSegData10 : "\"/>\n<script>getElementById(\"".data = ['"', '/', '>', '\n', '<', 's', 'c', 'r', 'i', 'p', 't', '>', 'g', 'e', 't', 'E', 'l', 'e', 'm', 'e', 'n', 't', 'B', 'y', 'I', 'd', '(', '"'] := rfl
theorem nineSegData11 : "\");querySelector(\"#".data = ['"', ')', ';', 'q', 'u', 'e', 'r', 'y', 'S', 'e', 'l', 'e', 'c', 't', 'o', 'r', '(', '"', '#'] := rfl
theorem nineSegData12 : "\")</script>\n<g data-ref=\"#".data = ['"', ')', '<', '/', 's', 'c', 'r', 'i', 'p', 't', '>', '\n', '<', 'g', ' ', 'd', 'a', 't', 'a', '-', 'r', 'e', 'f', '=', '"', '#'] := rfl
theorem nineSegData13 : "\"/>\n</svg>".data = ['"', '/', '>', '\n', '<', '/', 's', 'v', 'g', '>'] := rfl

theorem stopQuote : stopCh '"' = true := by decide
theorem stopParen : stopCh ')' = true := by decide
theorem stopSemi : stopCh ';' = true := by decide
theorem stopDot : stopCh '.' = true := by decide

theorem skipDeclTW (m : Chars → Option Chars) (t : Chars) (ht : wordShapeB t = true)
    (c0 : Char) (hc0 : stopCh c0 = true) (rest : Chars) (p : Option Char) :
    pass1T m p (t ++ c0 :: rest) = t ++ c0 :: pass1T m (some c0) rest :=
  skipDeclT m c0 hc0 rest t (wordShapeB_all t ht) p

theorem skipDeclCW (m : Chars → Option Chars) (t : Chars) (ht : wordShapeB t = true)
    (c0 : Char) (hc0 : stopCh c0 = true) (rest : Chars) (p : Option Char) :
    pass1C m p (t ++ c0 :: rest) = pass1C m (some c0) rest :=
  skipDeclC m c0 hc0 rest t (wordShapeB_all t ht) p

theorem skipCollectW (t : Chars) (ht : wordShapeB t = true)
    (c0 : Char) (hc0 : stopCh c0 = true) (rest : Chars) (p : Option Char) :
    collectIds p (t ++ c0 :: rest) = collectIds (some c0) rest :=
  skipCollect c0 hc0 rest t (wordShapeB_all t ht) p

set_option maxHeartbeats 4000000 in
set_option maxRecDepth 8000 in
theorem walkPass2T (m : Chars → Option Chars) (t1 t2 t3 t4 t5 t6 t7 t8 t9 t10 t11 t12 t13 : Chars)
    (h1 : wordShapeB t1 = true) (h2 : wordShapeB t2 = true) (h3 : wordShapeB t3 = true) (h4 : wordShapeB t4 = true) (h5 : wordShapeB t5 = true) (h6 : wordShapeB t6 = true) (h7 : wordShapeB t7 = true) (h8 : wordShapeB t8 = true) (h9 : wordShapeB t9 = true) (h10 : wordShapeB t10 = true) (h11 : wordShapeB t11 = true) (h12 : wordShapeB t12 = true) (h13 : wordShapeB t13 = true) :
    subT (tryHrefHash m) (nineL t1 t2 t3 t4 t5 t6 t7 t8 t9 t10 t11 t12 t13)
      = nineL t1 (mOr m t2) t3 t4 t5 t6 t7 t8 t9 t10 t11 t12 t13 := by
  simp only [nineL, nineSegData0, nineSegData1, nineSegData2, nineSegData3, nineSegData4, nineSegData5, nineSegData6, nineSegData7, nineSegData8, nineSegData9, nineSegData10, nineSegData11, nineSegData12, nineSegData13, List.cons_append, List.append_assoc, List.nil_append]
  simp [h1, h2, h3, h4, h5, h6, h7, h8, h9, h10, h11, h12, h13, stopQuote, stopParen, stopSemi, stopDot, subT_cons_none, skipHrefHashT, matchHrefHashT, subT_nil,
    tryHrefHash, hrefAttr, litM, patData1, patData2, quoteHead, isQuoteCh]


set_option maxHeartbeats 4000000 in
set_option maxRecDepth 8000 in
theorem walkCollect (t1 t2 t3 t4 t5 t6 t7 t8 t9 t10 t11 t12 t13 : Chars)
    (h1 : wordShapeB t1 = true) (h2 : wordShapeB t2 = true) (h3 : wordShapeB t3 = true) (h4 : wordShapeB t4 = true) (h5 : wordShapeB t5 = true) (h6 : wordShapeB t6 = true) (h7 : wordShapeB t7 = true) (h8 : wordShapeB t8 = true) (h9 : wordShapeB t9 = true) (h10 : wordShapeB t10 = true) (h11 : wordShapeB t11 = true) (h12 : wordShapeB t12 = true) (h13 : wordShapeB t13 = true) :
    collectIds none (nineL t1 t2 t3 t4 t5 t6 t7 t8 t9 t10 t11 t12 t13) = [t1] := by
  simp only [nineL, nineSegData0, nineSegData1, nineSegData2, nineSegData3, nineSegData4, nineSegData5, nineSegData6, nineSegData7, nineSegData8, nineSegData9, nineSegData10, nineSegData11, nineSegData12, nineSegData13, List.cons_append, List.append_assoc, List.nil_append]
  simp [h1, h2, h3, h4, h5, h6, h7, h8, h9, h10, h11, h12, h13, stopQuote, stopParen, stopSemi, stopDot, collectIds_cons_none, collectIds_nil, skipCollectW, matchCollect,
    declMatch, litM, patData21, quoteHead, isQuoteCh]

set_option maxHeartbeats 4000000 in
set_option maxRecDepth 8000 in
theorem walkPass1T (m : Chars → Option Chars) (t1 t2 t3 t4 t5 t6 t7 t8 t9 t10 t11 t12 t13 : Chars)
    (h1 : wordShapeB t1 = true) (h2 : wordShapeB t2 = true) (h3 : wordShapeB t3 = true) (h4 : wordShapeB t4 = true) (h5 : wordShapeB t5 = true) (h6 : wordShapeB t6 = true) (h7 : wordShapeB t7 = true) (h8 : wordShapeB t8 = true) (h9 : wordShapeB t9 = true) (h10 : wordShapeB t10 = true) (h11 : wordShapeB t11 = true) (h12 : wordShapeB t12 = true) (h13 : wordShapeB t13 = true) :
    pass1T m none (nineL t1 t2 t3 t4 t5 t6 t7 t8 t9 t10 t11 t12 t13)
      = nineL (mOr m t1) t2 t3 t4 t5 t6 t7 t8 t9 t10 t11 t12 t13 := by
  simp only [nineL, nineSegData0, nineSegData1, nineSegData2, nineSegData3, nineSegData4, nineSegData5, nineSegData6, nineSegData7, nineSegData8, nineSegData9, nineSegData10, nineSegData11, nineSegData12, nineSegData13, List.cons_append, List.append_assoc, List.nil_append]
  simp [h1, h2, h3, h4, h5, h6, h7, h8, h9, h10, h11, h12, h13, stopQuote, stopParen, stopSemi, stopDot, pass1T_cons_none, pass1T_nil, skipDeclTW, matchDeclT, declTry, declMatch, litM, patData21, quoteHead, isQuoteCh]

set_option maxHeartbeats 4000000 in
set_option maxRecDepth 8000 in
theorem walkPass1C (m : Chars → Option Chars) (t1 t2 t3 t4 t5 t6 t7 t8 t9 t10 t11 t12 t13 : Chars)
    (h1 : wordShapeB t1 = true) (h2 : wordShapeB t2 = true) (h3 : wordShapeB t3 = true) (h4 : wordShapeB t4 = true) (h5 : wordShapeB t5 = true) (h6 : wordShapeB t6 = true) (h7 : wordShapeB t7 = true) (h8 : wordShapeB t8 = true) (h9 : wordShapeB t9 = true) (h10 : wordShapeB t10 = true) (h11 : wordShapeB t11 = true) (h12 : wordShapeB t12 = true) (h13 : wordShapeB t13 = true) :
    pass1C m none (nineL t1 t2 t3 t4 t5 t6 t7 t8 t9 t10 t11 t12 t13)
      = mCnt m t1 := by
  simp only [nineL, nineSegData0, nineSegData1, nineSegData2, nineSegData3, nineSegData4, nineSegData5, nineSegData6, nineSegData7, nineSegData8, nineSegData9, nineSegData10, nineSegData11, nineSegData12, nineSegData13, List.cons_append, List.append_assoc, List.nil_append]
  simp [h1, h2, h3, h4, h5, h6, h7, h8, h9, h10, h11, h12, h13, stopQuote, stopParen, stopSemi, stopDot, pass1C_cons_none, pass1C_nil, skipDeclCW, matchDeclC, declTry, declMatch, litM, patData21, quoteHead, isQuoteCh]

set_option maxHeartbeats 4000000 in
set_option maxRecDepth 8000 in
theorem walkPass2C (m : Chars → Option Chars) (t1 t2 t3 t4 t5 t6 t7 t8 t9 t10 t11 t12 t13 : Chars)
    (h1 : wordShapeB t1 = true) (h2 : wordShapeB t2 = true) (h3 : wordShapeB t3 = true) (h4 : wordShapeB t4 = true) (h5 : wordShapeB t5 = true) (h6 : wordShapeB t6 = true) (h7 : wordShapeB t7 = true) (h8 : wordShapeB t8 = true) (h9 : wordShapeB t9 = true) (h10 : wordShapeB t10 = true) (h11 : wordShapeB t11 = true) (h12 : wordShapeB t12 = true) (h13 : wordShapeB t13 = true) :
    subC (tryHrefHash m) (nineL t1 t2 t3 t4 t5 t6 t7 t8 t9 t10 t11 t12 t13)
      = mCnt m t2 := by
  simp only [nineL, nineSegData0, nineSegData1, nineSegData2, nineSegData3, nineSegData4, nineSegData5, nineSegData6, nineSegData7, nineSegData8, nineSegData9, nineSegData10, nineSegData11, nineSegData12, nineSegData13, List.cons_append, List.append_assoc, List.nil_append]
  simp [h1, h2, h3, h4, h5, h6, h7, h8, h9, h10, h11, h12, h13, stopQuote, stopParen, stopSemi, stopDot, subC_cons_none, subC_nil, skipHrefHashC, matchHrefHashC, tryHrefHash, hrefAttr, litM, patData1, patData2, quoteHead, isQuoteCh]

set_option maxHeartbeats 4000000 in
set_option maxRecDepth 8000 in
theorem walkPass3T (m : Chars → Option Chars) (t1 t2 t3 t4 t5 t6 t7 t8 t9 t10 t11 t12 t13 : Chars)
    (h1 : wordShapeB t1 = true) (h2 : wordShapeB t2 = true) (h3 : wordShapeB t3 = true) (h4 : wordShapeB t4 = true) (h5 : wordShapeB t5 = true) (h6 : wordShapeB t6 = true) (h7 : wordShapeB t7 = true) (h8 : wordShapeB t8 = true) (h9 : wordShapeB t9 = true) (h10 : wordShapeB t10 = true) (h11 : wordShapeB t11 = true) (h12 : wordShapeB t12 = true) (h13 : wordShapeB t13 = true) :
    subT (tryHrefUrl m) (nineL t1 t2 t3 t4 t5 t6 t7 t8 t9 t10 t11 t12 t13)
      = nineL t1 t2 (mOr m t3) t4 t5 t6 t7 t8 t9 t10 t11 t12 t13 := by
  simp only [nineL, nineSegData0, nineSegData1, nineSegData2, nineSegData3, nineSegData4, nineSegData5, nineSegData6, nineSegData7, nineSegData8, nineSegData9, nineSegData10, nineSegData11, nineSegData12, nineSegData13, List.cons_append, List.append_assoc, List.nil_append]
  simp [h1, h2, h3, h4, h5, h6, h7, h8, h9, h10, h11, h12, h13, stopQuote, stopParen, stopSemi, stopDot, subT_cons_none, subT_nil, skipHrefUrlT, matchHrefUrlT, tryHrefUrl, hrefAttr, litM, patData1, patData2, patData5, quoteHead, isQuoteCh]

set_option maxHeartbeats 4000000 in
set_option maxRecDepth 8000 in
theorem walkPass3C (m : Chars → Option Chars) (t1 t2 t3 t4 t5 t6 t7 t8 t9 t10 t11 t12 t13 : Chars)
    (h1 : wordShapeB t1 = true) (h2 : wordShapeB t2 = true) (h3 : wordShapeB t3 = true) (h4 : wordShapeB t4 = true) (h5 : wordShapeB t5 = true) (h6 : wordShapeB t6 = true) (h7 : wordShapeB t7 = true) (h8 : wordShapeB t8 = true) (h9 : wordShapeB t9 = true) (h10 : wordShapeB t10 = true) (h11 : wordShapeB t11 = true) (h12 : wordShapeB t12 = true) (h13 : wordShapeB t13 = true) :
    subC (tryHrefUrl m) (nineL t1 t2 t3 t4 t5 t6 t7 t8 t9 t10 t11 t12 t13)
      = mCnt m t3 := by
  simp only [nineL, nineSegData0, nineSegData1, nineSegData2, nineSegData3, nineSegData4, nineSegData5, nineSegData6, nineSegData7, nineSegData8, nineSegData9, nineSegData10, nineSegData11, nineSegData12, nineSegData13, List.cons_append, List.append_assoc, List.nil_append]
  simp [h1, h2, h3, h4, h5, h6, h7, h8, h9, h10, h11, h12, h13, stopQuote, stopParen, stopSemi, stopDot, subC_cons_none, subC_nil, skipHrefUrlC, matchHrefUrlC, tryHrefUrl, hrefAttr, litM, patData1, patData2, patData5, quoteHead, isQuoteCh]

set_option maxHeartbeats 4000000 in
set_option maxRecDepth 8000 in
theorem walkPass4T (m : Chars → Option Chars) (t1 t2 t3 t4 t5 t6 t7 t8 t9 t10 t11 t12 t13 : Chars)
    (h1 : wordShapeB t1 = true) (h2 : wordShapeB t2 = true) (h3 : wordShapeB t3 = true) (h4 : wordShapeB t4 = true) (h5 : wordShapeB t5 = true) (h6 : wordShapeB t6 = true) (h7 : wordShapeB t7 = true) (h8 : wordShapeB t8 = true) (h9 : wordShapeB t9 = true) (h10 : wordShapeB t10 = true) (h11 : wordShapeB t11 = true) (h12 : wordShapeB t12 = true) (h13 : wordShapeB t13 = true) :
    subT (tryUrl m) (nineL t1 t2 t3 t4 t5 t6 t7 t8 t9 t10 t11 t12 t13)
      = nineL t1 t2 (mOr m t3) (mOr m t4) t5 t6 t7 t8 t9 t10 t11 t12 t13 := by
  simp only [nineL, nineSegData0, nineSegData1, nineSegData2, nineSegData3, nineSegData4, nineSegData5, nineSegData6, nineSegData7, nineSegData8, nineSegData9, nineSegData10, nineSegData11, nineSegData12, nineSegData13, List.cons_append, List.append_assoc, List.nil_append]
  simp [h1, h2, h3, h4, h5, h6, h7, h8, h9, h10, h11, h12, h13, stopQuote, stopParen, stopSemi, stopDot, subT_cons_none, subT_nil, skipUrlT, matchUrlT, tryUrl, litM, patData5]

set_option maxHeartbeats 4000000 in
set_option maxRecDepth 8000 in
theorem walkPass4C (m : Chars → Option Chars) (t1 t2 t3 t4 t5 t6 t7 t8 t9 t10 t11 t12 t13 : Chars)
    (h1 : wordShapeB t1 = true) (h2 : wordShapeB t2 = true) (h3 : wordShapeB t3 = true) (h4 : wordShapeB t4 = true) (h5 : wordShapeB t5 = true) (h6 : wordShapeB t6 = true) (h7 : wordShapeB t7 = true) (h8 : wordShapeB t8 = true) (h9 : wordShapeB t9 = true) (h10 : wordShapeB t10 = true) (h11 : wordShapeB t11 = true) (h12 : wordShapeB t12 = true) (h13 : wordShapeB t13 = true) :
    subC (tryUrl m) (nineL t1 t2 t3 t4 t5 t6 t7 t8 t9 t10 t11 t12 t13)
      = mCnt m t3 + mCnt m t4 := by
  simp only [nineL, nineSegData0, nineSegData1, nineSegData2, nineSegData3, nineSegData4, nineSegData5, nineSegData6, nineSegData7, nineSegData8, nineSegData9, nineSegData10, nineSegData11, nineSegData12, nineSegData13, List.cons_append, List.append_assoc, List.nil_append]
  simp [h1, h2, h3, h4, h5, h6, h7, h8, h9, h10, h11, h12, h13, stopQuote, stopParen, stopSemi, stopDot, subC_cons_none, subC_nil, skipUrlC, matchUrlC, tryUrl, litM, patData5]

set_option maxHeartbeats 4000000 in
set_option maxRecDepth 8000 in
theorem walkPass5T (m : Chars → Option Chars) (t1 t2 t3 t4 t5 t6 t7 t8 t9 t10 t11 t12 t13 : Chars)
    (h1 : wordShapeB t1 = true) (h2 : wordShapeB t2 = true) (h3 : wordShapeB t3 = true) (h4 : wordShapeB t4 = true) (h5 : wordShapeB t5 = true) (h6 : wordShapeB t6 = true) (h7 : wordShapeB t7 = true) (h8 : wordShapeB t8 = true) (h9 : wordShapeB t9 = true) (h10 : wordShapeB t10 = true) (h11 : wordShapeB t11 = true) (h12 : wordShapeB t12 = true) (h13 : wordShapeB t13 = true) :
    subT (tryValues m) (nineL t1 t2 t3 t4 t5 t6 t7 t8 t9 t10 t11 t12 t13)
      = nineL t1 t2 t3 t4 (mOr m t5) (mOr m t6) t7 t8 t9 t10 t11 t12 t13 := by
  simp only [nineL, nineSegData0, nineSegData1, nineSegData2, nineSegData3, nineSegData4, nineSegData5, nineSegData6, nineSegData7, nineSegData8, nineSegData9, nineSegData10, nineSegData11, nineSegData12, nineSegData13, List.cons_append, List.append_assoc, List.nil_append]
  simp [h1, h2, h3, h4, h5, h6, h7, h8, h9, h10, h11, h12, h13, stopQuote, stopParen, stopSemi, stopDot, subT_cons_none, subT_nil, skipValuesT, matchValuesT, tryValues, litM, patData6, quoteHead, isQuoteCh]

set_option maxHeartbeats 4000000 in
set_option maxRecDepth 8000 in
theorem walkPass5C (m : Chars → Option Chars) (t1 t2 t3 t4 t5 t6 t7 t8 t9 t10 t11 t12 t13 : Chars)
    (h1 : wordShapeB t1 = true) (h2 : wordShapeB t2 = true) (h3 : wordShapeB t3 = true) (h4 : wordShapeB t4 = true) (h5 : wordShapeB t5 = true) (h6 : wordShapeB t6 = true) (h7 : wordShapeB t7 = true) (h8 : wordShapeB t8 = true) (h9 : wordShapeB t9 = true) (h10 : wordShapeB t10 = true) (h11 : wordShapeB t11 = true) (h12 : wordShapeB t12 = true) (h13 : wordShapeB t13 = true) :
    subC (tryValues m) (nineL t1 t2 t3 t4 t5 t6 t7 t8 t9 t10 t11 t12 t13)
      = mCnt m t5 + mCnt m t6 := by
  simp only [nineL, nineSegData0, nineSegData1, nineSegData2, nineSegData3, nineSegData4, nineSegData5, nineSegData6, nineSegData7, nineSegData8, nineSegData9, nineSegData10, nineSegData11, nineSegData12, nineSegData13, List.cons_append, List.append_assoc, List.nil_append]
  simp [h1, h2, h3, h4, h5, h6, h7, h8, h9, h10, h11, h12, h13, stopQuote, stopParen, stopSemi, stopDot, subC_cons_none, subC_nil, skipValuesC, matchValuesC, tryValues, litM, patData6, quoteHead, isQuoteCh]

set_option maxHeartbeats 4000000 in
set_option maxRecDepth 8000 in
theorem walkPass6T (m : Chars → Option Chars) (t1 t2 t3 t4 t5 t6 t7 t8 t9 t10 t11 t12 t13 : Chars)
    (h1 : wordShapeB t1 = true) (h2 : wordShapeB t2 = true) (h3 : wordShapeB t3 = true) (h4 : wordShapeB t4 = true) (h5 : wordShapeB t5 = true) (h6 : wordShapeB t6 = true) (h7 : wordShapeB t7 = true) (h8 : wordShapeB t8 = true) (h9 : wordShapeB t9 = true) (h10 : wordShapeB t10 = true) (h11 : wordShapeB t11 = true) (h12 : wordShapeB t12 = true) (h13 : wordShapeB t13 = true) :
    subT (tryTiming m) (nineL t1 t2 t3 t4 t5 t6 t7 t8 t9 t10 t11 t12 t13)
      = nineL t1 t2 t3 t4 t5 t6 (mOr m t7) t8 t9 t10 t11 t12 t13 := by
  simp only [nineL, nineSegData0, nineSegData1, nineSegData2, nineSegData3, nineSegData4, nineSegData5, nineSegData6, nineSegData7, nineSegData8, nineSegData9, nineSegData10, nineSegData11, nineSegData12, nineSegData13, List.cons_append, List.append_assoc, List.nil_append]
  simp [h1, h2, h3, h4, h5, h6, h7, h8, h9, h10, h11, h12, h13, stopQuote, stopParen, stopSemi, stopDot, subT_cons_none, subT_nil, skipTimingT, matchTimingT, tryTiming, timingAttr, litM, patData8, patData9, quoteHead, isQuoteCh]

set_option maxHeartbeats 4000000 in
set_option maxRecDepth 8000 in
theorem walkPass6C (m : Chars → Option Chars) (t1 t2 t3 t4 t5 t6 t7 t8 t9 t10 t11 t12 t13 : Chars)
    (h1 : wordShapeB t1 = true) (h2 : wordShapeB t2 = true) (h3 : wordShapeB t3 = true) (h4 : wordShapeB t4 = true) (h5 : wordShapeB t5 = true) (h6 : wordShapeB t6 = true) (h7 : wordShapeB t7 = true) (h8 : wordShapeB t8 = true) (h9 : wordShapeB t9 = true) (h10 : wordShapeB t10 = true) (h11 : wordShapeB t11 = true) (h12 : wordShapeB t12 = true) (h13 : wordShapeB t13 = true) :
    subC (tryTiming m) (nineL t1 t2 t3 t4 t5 t6 t7 t8 t9 t10 t11 t12 t13)
      = mCnt m t7 := by
  simp only [nineL, nineSegData0, nineSegData1, nineSegData2, nineSegData3, nineSegData4, nineSegData5, nineSegData6, nineSegData7, nineSegData8, nineSegData9, nineSegData10, nineSegData11, nineSegData12, nineSegData13, List.cons_append, List.append_assoc, List.nil_append]
  simp [h1, h2, h3, h4, h5, h6, h7, h8, h9, h10, h11, h12, h13, stopQuote, stopParen, stopSemi, stopDot, subC_cons_none, subC_nil, skipTimingC, matchTimingC, tryTiming, timingAttr, litM, patData8, patData9, quoteHead, isQuoteCh]

set_option maxHeartbeats 4000000 in
set_option maxRecDepth 8000 in
theorem walkPass7T (m : Chars → Option Chars) (t1 t2 t3 t4 t5 t6 t7 t8 t9 t10 t11 t12 t13 : Chars)
    (h1 : wordShapeB t1 = true) (h2 : wordShapeB t2 = true) (h3 : wordShapeB t3 = true) (h4 : wordShapeB t4 = true) (h5 : wordShapeB t5 = true) (h6 : wordShapeB t6 = true) (h7 : wordShapeB t7 = true) (h8 : wordShapeB t8 = true) (h9 : wordShapeB t9 = true) (h10 : wordShapeB t10 = true) (h11 : wordShapeB t11 = true) (h12 : wordShapeB t12 = true) (h13 : wordShapeB t13 = true) :
    subT (tryFromToBy m) (nineL t1 t2 t3 t4 t5 t6 t7 t8 t9 t10 t11 t12 t13)
      = nineL t1 t2 t3 t4 t5 t6 t7 (mOr m t8) (mOr m t9) (mOr m t10) t11 t12 t13 := by
  simp only [nineL, nineSegData0, nineSegData1, nineSegData2, nineSegData3, nineSegData4, nineSegData5, nineSegData6, nineSegData7, nineSegData8, nineSegData9, nineSegData10, nineSegData11, nineSegData12, nineSegData13, List.cons_append, List.append_assoc, List.nil_append]
  simp [h1, h2, h3, h4, h5, h6, h7, h8, h9, h10, h11, h12, h13, stopQuote, stopParen, stopSemi, stopDot, subT_cons_none, subT_nil, skipFromToByT, matchFromT, matchToT, matchByT, tryFromToBy, fromToByAttr, litM, patData12, patData13, patData14, quoteHead, isQuoteCh]

set_option maxHeartbeats 4000000 in
set_option maxRecDepth 8000 in
theorem walkPass7C (m : Chars → Option Chars) (t1 t2 t3 t4 t5 t6 t7 t8 t9 t10 t11 t12 t13 : Chars)
    (h1 : wordShapeB t1 = true) (h2 : wordShapeB t2 = true) (h3 : wordShapeB t3 = true) (h4 : wordShapeB t4 = true) (h5 : wordShapeB t5 = true) (h6 : wordShapeB t6 = true) (h7 : wordShapeB t7 = true) (h8 : wordShapeB t8 = true) (h9 : wordShapeB t9 = true) (h10 : wordShapeB t10 = true) (h11 : wordShapeB t11 = true) (h12 : wordShapeB t12 = true) (h13 : wordShapeB t13 = true) :
    subC (tryFromToBy m) (nineL t1 t2 t3 t4 t5 t6 t7 t8 t9 t10 t11 t12 t13)
      = mCnt m t8 + mCnt m t9 + mCnt m t10 := by
  simp only [nineL, nineSegData0, nineSegData1, nineSegData2, nineSegData3, nineSegData4, nineSegData5, nineSegData6, nineSegData7, nineSegData8, nineSegData9, nineSegData10, nineSegData11, nineSegData12, nineSegData13, List.cons_append, List.append_assoc, List.nil_append]
  simp [h1, h2, h3, h4, h5, h6, h7, h8, h9, h10, h11, h12, h13, stopQuote, stopParen, stopSemi, stopDot, subC_cons_none, subC_nil, skipFromToByC, matchFromC, matchToC, matchByC, tryFromToBy, fromToByAttr, litM, patData12, patData13, patData14, quoteHead, isQuoteCh]
  omega

set_option maxHeartbeats 4000000 in
set_option maxRecDepth 8000 in
theorem walkPass8T (m : Chars → Option Chars) (t1 t2 t3 t4 t5 t6 t7 t8 t9 t10 t11 t12 t13 : Chars)
    (h1 : wordShapeB t1 = true) (h2 : wordShapeB t2 = true) (h3 : wordShapeB t3 = true) (h4 : wordShapeB t4 = true) (h5 : wordShapeB t5 = true) (h6 : wordShapeB t6 = true) (h7 : wordShapeB t7 = true) (h8 : wordShapeB t8 = true) (h9 : wordShapeB t9 = true) (h10 : wordShapeB t10 = true) (h11 : wordShapeB t11 = true) (h12 : wordShapeB t12 = true) (h13 : wordShapeB t13 = true) :
    subT (tryGetById m) (nineL t1 t2 t3 t4 t5 t6 t7 t8 t9 t10 t11 t12 t13)
      = nineL t1 t2 t3 t4 t5 t6 t7 t8 t9 t10 (mOr m t11) t12 t13 := by
  simp only [nineL, nineSegData0, nineSegData1, nineSegData2, nineSegData3, nineSegData4, nineSegData5, nineSegData6, nineSegData7, nineSegData8, nineSegData9, nineSegData10, nineSegData11, nineSegData12, nineSegData13, List.cons_append, List.append_assoc, List.nil_append]
  simp [h1, h2, h3, h4, h5, h6, h7, h8, h9, h10, h11, h12, h13, stopQuote, stopParen, stopSemi, stopDot, subT_cons_none, subT_nil, skipGetByIdT, matchGetByIdT, tryGetById, litM, patData18, quoteHead, isQuoteCh]

set_option maxHeartbeats 4000000 in
set_option maxRecDepth 8000 in
theorem walkPass8C (m : Chars → Option Chars) (t1 t2 t3 t4 t5 t6 t7 t8 t9 t10 t11 t12 t13 : Chars)
    (h1 : wordShapeB t1 = true) (h2 : wordShapeB t2 = true) (h3 : wordShapeB t3 = true) (h4 : wordShapeB t4 = true) (h5 : wordShapeB t5 = true) (h6 : wordShapeB t6 = true) (h7 : wordShapeB t7 = true) (h8 : wordShapeB t8 = true) (h9 : wordShapeB t9 = true) (h10 : wordShapeB t10 = true) (h11 : wordShapeB t11 = true) (h12 : wordShapeB t12 = true) (h13 : wordShapeB t13 = true) :
    subC (tryGetById m) (nineL t1 t2 t3 t4 t5 t6 t7 t8 t9 t10 t11 t12 t13)
      = mCnt m t11 := by
  simp only [nineL, nineSegData0, nineSegData1, nineSegData2, nineSegData3, nineSegData4, nineSegData5, nineSegData6, nineSegData7, nineSegData8, nineSegData9, nineSegData10, nineSegData11, nineSegData12, nineSegData13, List.cons_append, List.append_assoc, List.nil_append]
  simp [h1, h2, h3, h4, h5, h6, h7, h8, h9, h10, h11, h12, h13, stopQuote, stopParen, stopSemi, stopDot, subC_cons_none, subC_nil, skipGetByIdC, matchGetByIdC, tryGetById, litM, patData18, quoteHead, isQuoteCh]

set_option maxHeartbeats 4000000 in
set_option maxRecDepth 8000 in
theorem walkPass9T (m : Chars → Option Chars) (t1 t2 t3 t4 t5 t6 t7 t8 t9 t10 t11 t12 t13 : Chars)
    (h1 : wordShapeB t1 = true) (h2 : wordShapeB t2 = true) (h3 : wordShapeB t3 = true) (h4 : wordShapeB t4 = true) (h5 : wordShapeB t5 = true) (h6 : wordShapeB t6 = true) (h7 : wordShapeB t7 = true) (h8 : wordShapeB t8 = true) (h9 : wordShapeB t9 = true) (h10 : wordShapeB t10 = true) (h11 : wordShapeB t11 = true) (h12 : wordShapeB t12 = true) (h13 : wordShapeB t13 = true) :
    subT (tryQuerySel m) (nineL t1 t2 t3 t4 t5 t6 t7 t8 t9 t10 t11 t12 t13)
      = nineL t1 t2 t3 t4 t5 t6 t7 t8 t9 t10 t11 (mOr m t12) t13 := by
  simp only [nineL, nineSegData0, nineSegData1, nineSegData2, nineSegData3, nineSegData4, nineSegData5, nineSegData6, nineSegData7, nineSegData8, nineSegData9, nineSegData10, nineSegData11, nineSegData12, nineSegData13, List.cons_append, List.append_assoc, List.nil_append]
  simp [h1, h2, h3, h4, h5, h6, h7, h8, h9, h10, h11, h12, h13, stopQuote, stopParen, stopSemi, stopDot, subT_cons_none, subT_nil, skipQuerySelT, matchQuerySelT, tryQuerySel, litM, patData19, quoteHead, isQuoteCh]

set_option maxHeartbeats 4000000 in
set_option maxRecDepth 8000 in
theorem walkPass9C (m : Chars → Option Chars) (t1 t2 t3 t4 t5 t6 t7 t8 t9 t10 t11 t12 t13 : Chars)
    (h1 : wordShapeB t1 = true) (h2 : wordShapeB t2 = true) (h3 : wordShapeB t3 = true) (h4 : wordShapeB t4 = true) (h5 : wordShapeB t5 = true) (h6 : wordShapeB t6 = true) (h7 : wordShapeB t7 = true) (h8 : wordShapeB t8 = true) (h9 : wordShapeB t9 = true) (h10 : wordShapeB t10 = true) (h11 : wordShapeB t11 = true) (h12 : wordShapeB t12 = true) (h13 : wordShapeB t13 = true) :
    subC (tryQuerySel m) (nineL t1 t2 t3 t4 t5 t6 t7 t8 t9 t10 t11 t12 t13)
      = mCnt m t12 := by
  simp only [nineL, nineSegData0, nineSegData1, nineSegData2, nineSegData3, nineSegData4, nineSegData5, nineSegData6, nineSegData7, nineSegData8, nineSegData9, nineSegData10, nineSegData11, nineSegData12, nineSegData13, List.cons_append, List.append_assoc, List.nil_append]
  simp [h1, h2, h3, h4, h5, h6, h7, h8, h9, h10, h11, h12, h13, stopQuote, stopParen, stopSemi, stopDot, subC_cons_none, subC_nil, skipQuerySelC, matchQuerySelC, tryQuerySel, litM, patData19, quoteHead, isQuoteCh]

set_option maxHeartbeats 4000000 in
set_option maxRecDepth 8000 in
theorem walkPass10T (m : Chars → Option Chars) (t1 t2 t3 t4 t5 t6 t7 t8 t9 t10 t11 t12 t13 : Chars)
    (h1 : wordShapeB t1 = true) (h2 : wordShapeB t2 = true) (h3 : wordShapeB t3 = true) (h4 : wordShapeB t4 = true) (h5 : wordShapeB t5 = true) (h6 : wordShapeB t6 = true) (h7 : wordShapeB t7 = true) (h8 : wordShapeB t8 = true) (h9 : wordShapeB t9 = true) (h10 : wordShapeB t10 = true) (h11 : wordShapeB t11 = true) (h12 : wordShapeB t12 = true) (h13 : wordShapeB t13 = true) :
    subT (tryDataAttr m) (nineL t1 t2 t3 t4 t5 t6 t7 t8 t9 t10 t11 t12 t13)
      = nineL t1 t2 t3 t4 t5 t6 t7 t8 t9 t10 t11 t12 (mOr m t13) := by
  simp only [nineL, nineSegData0, nineSegData1, nineSegData2, nineSegData3, nineSegData4, nineSegData5, nineSegData6, nineSegData7, nineSegData8, nineSegData9, nineSegData10, nineSegData11, nineSegData12, nineSegData13, List.cons_append, List.append_assoc, List.nil_append]
  simp [h1, h2, h3, h4, h5, h6, h7, h8, h9, h10, h11, h12, h13, stopQuote, stopParen, stopSemi, stopDot, subT_cons_none, subT_nil, skipDataAttrT, matchDataAttrT, tryDataAttr, litM, patData20, quoteHead, isQuoteCh]

set_option maxHeartbeats 4000000 in
set_option maxRecDepth 8000 in
theorem walkPass10C (m : Chars → Option Chars) (t1 t2 t3 t4 t5 t6 t7 t8 t9 t10 t11 t12 t13 : Chars)
    (h1 : wordShapeB t1 = true) (h2 : wordShapeB t2 = true) (h3 : wordShapeB t3 = true) (h4 : wordShapeB t4 = true) (h5 : wordShapeB t5 = true) (h6 : wordShapeB t6 = true) (h7 : wordShapeB t7 = true) (h8 : wordShapeB t8 = true) (h9 : wordShapeB t9 = true) (h10 : wordShapeB t10 = true) (h11 : wordShapeB t11 = true) (h12 : wordShapeB t12 = true) (h13 : wordShapeB t13 = true) :
    subC (tryDataAttr m) (nineL t1 t2 t3 t4 t5 t6 t7 t8 t9 t10 t11 t12 t13)
      = mCnt m t13 := by
  simp only [nineL, nineSegData0, nineSegData1, nineSegData2, nineSegData3, nineSegData4, nineSegData5, nineSegData6, nineSegData7, nineSegData8, nineSegData9, nineSegData10, nineSegData11, nineSegData12, nineSegData13, List.cons_append, List.append_assoc, List.nil_append]
  simp [h1, h2, h3, h4, h5, h6, h7, h8, h9, h10, h11, h12, h13, stopQuote, stopParen, stopSemi, stopDot, subC_cons_none, subC_nil, skipDataAttrC, matchDataAttrC, tryDataAttr, litM, patData20, quoteHead, isQuoteCh]

theorem prefix_svg_ids_run (svg pfx : String) (verify : Bool) (tbl : List Chars)
    (htbl : (dedup (collectIds none svg.data)).filter
        (fun v => !(pfx.data.isPrefixOf v)) = tbl)
    (hne : tbl.isEmpty = false) :
    (prefix_svg_ids svg pfx verify).content
        = String.mk (passesT (idLookup tbl pfx.data) svg.data)
    ∧ (prefix_svg_ids svg pfx verify).stats.ids_found
        = (dedup (collectIds none svg.data)).length
    ∧ (prefix_svg_ids svg pfx verify).stats.references_updated
        = passesC (idLookup tbl pfx.data) svg.data := by
  simp only [prefix_svg_ids]
  rw [htbl, if_neg (by simp [hne])]
  exact ⟨rfl, rfl, rfl⟩


theorem String_mk_data (s : String) : String.mk s.data = s := rfl

set_option maxRecDepth 8000 in
theorem nineSurfaceDoc_data (X : String) :
    (nineSurfaceDoc X).data
      = nineL X.data X.data X.data X.data X.data X.data X.data X.data X.data X.data X.data X.data X.data := by
  simp [nineSurfaceDoc, nineL, String.data_append]

set_option maxRecDepth 8000 in
theorem frameDoc_data (X Y : String) :
    (frameDoc X Y).data
      = nineL X.data Y.data Y.data Y.data Y.data Y.data Y.data Y.data Y.data Y.data Y.data Y.data Y.data := by
  simp [frameDoc, nineL, String.data_append]

theorem wordShapeB_pfxTok (x : Chars) (hx : wordShapeB x = true) :
    wordShapeB ('p' :: '_' :: x) = true := by
  unfold wordShapeB
  have h1 : List.all x identCh = true := by
    rw [List.all_eq_true]
    exact wordShapeB_all x hx
  simp [h1]
  exact ⟨by decide, by decide⟩

/-- C1 (amended): for every identifier of the timing-identifier shape
`[a-zA-Z_][a-zA-Z0-9_-]*` that does not already carry the prefix, rewriting
the canonical nine-surface document with prefix `p_` produces exactly the same
document with every spliced occurrence replaced by the prefixed identifier
(so the renamed identifier appears in every structurally equivalent position
and no bare occurrence remains in any surface position), with one identifier
found and thirteen reference updates counted. -/
theorem C1_nine_surface_amended (X : String)
    (hX : wordShapeB X.data = true)
    (hp : "p_".data.isPrefixOf X.data = false) :
    (prefix_svg_ids (nineSurfaceDoc X) "p_" true).content = nineSurfaceDoc ("p_" ++ X) ∧
    (prefix_svg_ids (nineSurfaceDoc X) "p_" true).stats.ids_found = 1 ∧
    (prefix_svg_ids (nineSurfaceDoc X) "p_" true).stats.references_updated = 13 := by
  have hxd := nineSurfaceDoc_data X
  have hcol : collectIds none (nineSurfaceDoc X).data = [X.data] := by
    rw [hxd]
    exact walkCollect X.data X.data X.data X.data X.data X.data X.data X.data X.data X.data X.data X.data X.data hX hX hX hX hX hX hX hX hX hX hX hX hX
  have hded : dedup (collectIds none (nineSurfaceDoc X).data) = [X.data] := by
    rw [hcol]
    rfl
  have htbl : (dedup (collectIds none (nineSurfaceDoc X).data)).filter
      (fun v => !(("p_" : String).data.isPrefixOf v)) = [X.data] := by
    rw [hded]
    simp [List.filter, hp]
  obtain ⟨hc, hif, hrefs⟩ := prefix_svg_ids_run (nineSurfaceDoc X) "p_" true [X.data] htbl rfl
  set m := idLookup [X.data] ("p_" : String).data with hmdef
  have hmx : m X.data = some ('p' :: '_' :: X.data) := by
    rw [hmdef]
    simp [idLookup, patData22]
  have hneq : ('p' :: '_' :: X.data) ≠ X.data := by
    intro he
    have hlen := congrArg List.length he
    simp at hlen
    omega
  have hmpx : m ('p' :: '_' :: X.data) = none := by
    rw [hmdef]
    simp [idLookup, hneq]
  have hpx : wordShapeB ('p' :: '_' :: X.data) = true := wordShapeB_pfxTok X.data hX
  have hox : mOr m X.data = ('p' :: '_' :: X.data) := by simp [mOr, hmx]
  have hopx : mOr m ('p' :: '_' :: X.data) = ('p' :: '_' :: X.data) := by simp [mOr, hmpx]
  have hcx : mCnt m X.data = 1 := by simp [mCnt, hmx]
  have hcpx : mCnt m ('p' :: '_' :: X.data) = 0 := by simp [mCnt, hmpx]
  have hr1 : pass1T m none (nineL X.data X.data X.data X.data X.data X.data X.data X.data X.data X.data X.data X.data X.data) = nineL ('p' :: '_' :: X.data) X.data X.data X.data X.data X.data X.data X.data X.data X.data X.data X.data X.data := by
    rw [walkPass1T m X.data X.data X.data X.data X.data X.data X.data X.data X.data X.data X.data X.data X.data hX hX hX hX hX hX hX hX hX hX hX hX hX, hox]
  have hk1 : pass1C m none (nineL X.data X.data X.data X.data X.data X.data X.data X.data X.data X.data X.data X.data X.data) = 1 := by
    rw [walkPass1C m X.data X.data X.data X.data X.data X.data X.data X.data X.data X.data X.data X.data X.data hX hX hX hX hX hX hX hX hX hX hX hX hX, hcx]
  have hr2 : subT (tryHrefHash m) (nineL ('p' :: '_' :: X.data) X.data X.data X.data X.data X.data X.data X.data X.data X.data X.data X.data X.data) = nineL ('p' :: '_' :: X.data) ('p' :: '_' :: X.data) X.data X.data X.data X.data X.data X.data X.data X.data X.data X.data X.data := by
    rw [walkPass2T m ('p' :: '_' :: X.data) X.data X.data X.data X.data X.data X.data X.data X.data X.data X.data X.data X.data hpx hX hX hX hX hX hX hX hX hX hX hX hX, hox]
  have hk2 : subC (tryHrefHash m) (nineL ('p' :: '_' :: X.data) X.data X.data X.data X.data X.data X.data X.data X.data X.data X.data X.data X.data) = 1 := by
    rw [walkPass2C m ('p' :: '_' :: X.data) X.data X.data X.data X.data X.data X.data X.data X.data X.data X.data X.data X.data hpx hX hX hX hX hX hX hX hX hX hX hX hX, hcx]
  have hr3 : subT (tryHrefUrl m) (nineL ('p' :: '_' :: X.data) ('p' :: '_' :: X.data) X.data X.data X.data X.data X.data X.data X.data X.data X.data X.data X.data) = nineL ('p' :: '_' :: X.data) ('p' :: '_' :: X.data) ('p' :: '_' :: X.data) X.data X.data X.data X.data X.data X.data X.data X.data X.data X.data := by
    rw [walkPass3T m ('p' :: '_' :: X.data) ('p' :: '_' :: X.data) X.data X.data X.data X.data X.data X.data X.data X.data X.data X.data X.data hpx hpx hX hX hX hX hX hX hX hX hX hX hX, hox]
  have hk3 : subC (tryHrefUrl m) (nineL ('p' :: '_' :: X.data) ('p' :: '_' :: X.data) X.data X.data X.data X.data X.data X.data X.data X.data X.data X.data X.data) = 1 := by
    rw [walkPass3C m ('p' :: '_' :: X.data) ('p' :: '_' :: X.data) X.data X.data X.data X.data X.data X.data X.data X.data X.data X.data X.data hpx hpx hX hX hX hX hX hX hX hX hX hX hX, hcx]
  have hr4 : subT (tryUrl m) (nineL ('p' :: '_' :: X.data) ('p' :: '_' :: X.data) ('p' :: '_' :: X.data) X.data X.data X.data X.data X.data X.data X.data X.data X.data X.data) = nineL ('p' :: '_' :: X.data) ('p' :: '_' :: X.data) ('p' :: '_' :: X.data) ('p' :: '_' :: X.data) X.data X.data X.data X.data X.data X.data X.data X.data X.data := by
    rw [walkPass4T m ('p' :: '_' :: X.data) ('p' :: '_' :: X.data) ('p' :: '_' :: X.data) X.data X.data X.data X.data X.data X.data X.data X.data X.data X.data hpx hpx hpx hX hX hX hX hX hX hX hX hX hX, hopx, hox]
  have hk4 : subC (tryUrl m) (nineL ('p' :: '_' :: X.data) ('p' :: '_' :: X.data) ('p' :: '_' :: X.data) X.data X.data X.data X.data X.data X.data X.data X.data X.data X.data) = 1 := by
    rw [walkPass4C m ('p' :: '_' :: X.data) ('p' :: '_' :: X.data) ('p' :: '_' :: X.data) X.data X.data X.data X.data X.data X.data X.data X.data X.data X.data hpx hpx hpx hX hX hX hX hX hX hX hX hX hX, hcpx, hcx]
  have hr5 : subT (tryValues m) (nineL ('p' :: '_' :: X.data) ('p' :: '_' :: X.data) ('p' :: '_' :: X.data) ('p' :: '_' :: X.data) X.data X.data X.data X.data X.data X.data X.data X.data X.data) = nineL ('p' :: '_' :: X.data) ('p' :: '_' :: X.data) ('p' :: '_' :: X.data) ('p' :: '_' :: X.data) ('p' :: '_' :: X.data) ('p' :: '_' :: X.data) X.data X.data X.data X.data X.data X.data X.data := by
    rw [walkPass5T m ('p' :: '_' :: X.data) ('p' :: '_' :: X.data) ('p' :: '_' :: X.data) ('p' :: '_' :: X.data) X.data X.data X.data X.data X.data X.data X.data X.data X.data hpx hpx hpx hpx hX hX hX hX hX hX hX hX hX, hox]
  have hk5 : subC (tryValues m) (nineL ('p' :: '_' :: X.data) ('p' :: '_' :: X.data) ('p' :: '_' :: X.data) ('p' :: '_' :: X.data) X.data X.data X.data X.data X.data X.data X.data X.data X.data) = 2 := by
    rw [walkPass5C m ('p' :: '_' :: X.data) ('p' :: '_' :: X.data) ('p' :: '_' :: X.data) ('p' :: '_' :: X.data) X.data X.data X.data X.data X.data X.data X.data X.data X.data hpx hpx hpx hpx hX hX hX hX hX hX hX hX hX, hcx]
  have hr6 : subT (tryTiming m) (nineL ('p' :: '_' :: X.data) ('p' :: '_' :: X.data) ('p' :: '_' :: X.data) ('p' :: '_' :: X.data) ('p' :: '_' :: X.data) ('p' :: '_' :: X.data) X.data X.data X.data X.data X.data X.data X.data) = nineL ('p' :: '_' :: X.data) ('p' :: '_' :: X.data) ('p' :: '_' :: X.data) ('p' :: '_' :: X.data) ('p' :: '_' :: X.data) ('p' :: '_' :: X.data) ('p' :: '_' :: X.data) X.data X.data X.data X.data X.data X.data := by
    rw [walkPass6T m ('p' :: '_' :: X.data) ('p' :: '_' :: X.data) ('p' :: '_' :: X.data) ('p' :: '_' :: X.data) ('p' :: '_' :: X.data) ('p' :: '_' :: X.data) X.data X.data X.data X.data X.data X.data X.data hpx hpx hpx hpx hpx hpx hX hX hX hX hX hX hX, hox]
  have hk6 : subC (tryTiming m) (nineL ('p' :: '_' :: X.data) ('p' :: '_' :: X.data) ('p' :: '_' :: X.data) ('p' :: '_' :: X.data) ('p' :: '_' :: X.data) ('p' :: '_' :: X.data) X.data X.data X.data X.data X.data X.data X.data) = 1 := by
    rw [walkPass6C m ('p' :: '_' :: X.data) ('p' :: '_' :: X.data) ('p' :: '_' :: X.data) ('p' :: '_' :: X.data) ('p' :: '_' :: X.data) ('p' :: '_' :: X.data) X.data X.data X.data X.data X.data X.data X.data hpx hpx hpx hpx hpx hpx hX hX hX hX hX hX hX, hcx]
  have hr7 : subT (tryFromToBy m) (nineL ('p' :: '_' :: X.data) ('p' :: '_' :: X.data) ('p' :: '_' :: X.data) ('p' :: '_' :: X.data) ('p' :: '_' :: X.data) ('p' :: '_' :: X.data) ('p' :: '_' :: X.data) X.data X.data X.data X.data X.data X.data) = nineL ('p' :: '_' :: X.data) ('p' :: '_' :: X.data) ('p' :: '_' :: X.data) ('p' :: '_' :: X.data) ('p' :: '_' :: X.data) ('p' :: '_' :: X.data) ('p' :: '_' :: X.data) ('p' :: '_' :: X.data) ('p' :: '_' :: X.data) ('p' :: '_' :: X.data) X.data X.data X.data := by
    rw [walkPass7T m ('p' :: '_' :: X.data) ('p' :: '_' :: X.data) ('p' :: '_' :: X.data) ('p' :: '_' :: X.data) ('p' :: '_' :: X.data) ('p' :: '_' :: X.data) ('p' :: '_' :: X.data) X.data X.data X.data X.data X.data X.data hpx hpx hpx hpx hpx hpx hpx hX hX hX hX hX hX, hox]
  have hk7 : subC (tryFromToBy m) (nineL ('p' :: '_' :: X.data) ('p' :: '_' :: X.data) ('p' :: '_' :: X.data) ('p' :: '_' :: X.data) ('p' :: '_' :: X.data) ('p' :: '_' :: X.data) ('p' :: '_' :: X.data) X.data X.data X.data X.data X.data X.data) = 3 := by
    rw [walkPass7C m ('p' :: '_' :: X.data) ('p' :: '_' :: X.data) ('p' :: '_' :: X.data) ('p' :: '_' :: X.data) ('p' :: '_' :: X.data) ('p' :: '_' :: X.data) ('p' :: '_' :: X.data) X.data X.data X.data X.data X.data X.data hpx hpx hpx hpx hpx hpx hpx hX hX hX hX hX hX, hcx]
  have hr8 : subT (tryGetById m) (nineL ('p' :: '_' :: X.data) ('p' :: '_' :: X.data) ('p' :: '_' :: X.data) ('p' :: '_' :: X.data) ('p' :: '_' :: X.data) ('p' :: '_' :: X.data) ('p' :: '_' :: X.data) ('p' :: '_' :: X.data) ('p' :: '_' :: X.data) ('p' :: '_' :: X.data) X.data X.data X.data) = nineL ('p' :: '_' :: X.data) ('p' :: '_' :: X.data) ('p' :: '_' :: X.data) ('p' :: '_' :: X.data) ('p' :: '_' :: X.data) ('p' :: '_' :: X.data) ('p' :: '_' :: X.data) ('p' :: '_' :: X.data) ('p' :: '_' :: X.data) ('p' :: '_' :: X.data) ('p' :: '_' :: X.data) X.data X.data := by
    rw [walkPass8T m ('p' :: '_' :: X.data) ('p' :: '_' :: X.data) ('p' :: '_' :: X.data) ('p' :: '_' :: X.data) ('p' :: '_' :: X.data) ('p' :: '_' :: X.data) ('p' :: '_' :: X.data) ('p' :: '_' :: X.data) ('p' :: '_' :: X.data) ('p' :: '_' :: X.data) X.data X.data X.data hpx hpx hpx hpx hpx hpx hpx hpx hpx hpx hX hX hX, hox]
  have hk8 : subC (tryGetById m) (nineL ('p' :: '_' :: X.data) ('p' :: '_' :: X.data) ('p' :: '_' :: X.data) ('p' :: '_' :: X.data) ('p' :: '_' :: X.data) ('p' :: '_' :: X.data) ('p' :: '_' :: X.data) ('p' :: '_' :: X.data) ('p' :: '_' :: X.data) ('p' :: '_' :: X.data) X.data X.data X.data) = 1 := by
    rw [walkPass8C m ('p' :: '_' :: X.data) ('p' :: '_' :: X.data) ('p' :: '_' :: X.data) ('p' :: '_' :: X.data) ('p' :: '_' :: X.data) ('p' :: '_' :: X.data) ('p' :: '_' :: X.data) ('p' :: '_' :: X.data) ('p' :: '_' :: X.data) ('p' :: '_' :: X.data) X.data X.data X.data hpx hpx hpx hpx hpx hpx hpx hpx hpx hpx hX hX hX, hcx]
  have hr9 : subT (tryQuerySel m) (nineL ('p' :: '_' :: X.data) ('p' :: '_' :: X.data) ('p' :: '_' :: X.data) ('p' :: '_' :: X.data) ('p' :: '_' :: X.data) ('p' :: '_' :: X.data) ('p' :: '_' :: X.data) ('p' :: '_' :: X.data) ('p' :: '_' :: X.data) ('p' :: '_' :: X.data) ('p' :: '_' :: X.data) X.data X.data) = nineL ('p' :: '_' :: X.data) ('p' :: '_' :: X.data) ('p' :: '_' :: X.data) ('p' :: '_' :: X.data) ('p' :: '_' :: X.data) ('p' :: '_' :: X.data) ('p' :: '_' :: X.data) ('p' :: '_' :: X.data) ('p' :: '_' :: X.data) ('p' :: '_' :: X.data) ('p' :: '_' :: X.data) ('p' :: '_' :: X.data) X.data := by
    rw [walkPass9T m ('p' :: '_' :: X.data) ('p' :: '_' :: X.data) ('p' :: '_' :: X.data) ('p' :: '_' :: X.data) ('p' :: '_' :: X.data) ('p' :: '_' :: X.data) ('p' :: '_' :: X.data) ('p' :: '_' :: X.data) ('p' :: '_' :: X.data) ('p' :: '_' :: X.data) ('p' :: '_' :: X.data) X.data X.data hpx hpx hpx hpx hpx hpx hpx hpx hpx hpx hpx hX hX, hox]
  have hk9 : subC (tryQuerySel m) (nineL ('p' :: '_' :: X.data) ('p' :: '_' :: X.data) ('p' :: '_' :: X.data) ('p' :: '_' :: X.data) ('p' :: '_' :: X.data) ('p' :: '_' :: X.data) ('p' :: '_' :: X.data) ('p' :: '_' :: X.data) ('p' :: '_' :: X.data) ('p' :: '_' :: X.data) ('p' :: '_' :: X.data) X.data X.data) = 1 := by
    rw [walkPass9C m ('p' :: '_' :: X.data) ('p' :: '_' :: X.data) ('p' :: '_' :: X.data) ('p' :: '_' :: X.data) ('p' :: '_' :: X.data) ('p' :: '_' :: X.data) ('p' :: '_' :: X.data) ('p' :: '_' :: X.data) ('p' :: '_' :: X.data) ('p' :: '_' :: X.data) ('p' :: '_' :: X.data) X.data X.data hpx hpx hpx hpx hpx hpx hpx hpx hpx hpx hpx hX hX, hcx]
  have hr10 : subT (tryDataAttr m) (nineL ('p' :: '_' :: X.data) ('p' :: '_' :: X.data) ('p' :: '_' :: X.data) ('p' :: '_' :: X.data) ('p' :: '_' :: X.data) ('p' :: '_' :: X.data) ('p' :: '_' :: X.data) ('p' :: '_' :: X.data) ('p' :: '_' :: X.data) ('p' :: '_' :: X.data) ('p' :: '_' :: X.data) ('p' :: '_' :: X.data) X.data) = nineL ('p' :: '_' :: X.data) ('p' :: '_' :: X.data) ('p' :: '_' :: X.data) ('p' :: '_' :: X.data) ('p' :: '_' :: X.data) ('p' :: '_' :: X.data) ('p' :: '_' :: X.data) ('p' :: '_' :: X.data) ('p' :: '_' :: X.data) ('p' :: '_' :: X.data) ('p' :: '_' :: X.data) ('p' :: '_' :: X.data) ('p' :: '_' :: X.data) := by
    rw [walkPass10T m ('p' :: '_' :: X.data) ('p' :: '_' :: X.data) ('p' :: '_' :: X.data) ('p' :: '_' :: X.data) ('p' :: '_' :: X.data) ('p' :: '_' :: X.data) ('p' :: '_' :: X.data) ('p' :: '_' :: X.data) ('p' :: '_' :: X.data) ('p' :: '_' :: X.data) ('p' :: '_' :: X.data) ('p' :: '_' :: X.data) X.data hpx hpx hpx hpx hpx hpx hpx hpx hpx hpx hpx hpx hX, hox]
  have hk10 : subC (tryDataAttr m) (nineL ('p' :: '_' :: X.data) ('p' :: '_' :: X.data) ('p' :: '_' :: X.data) ('p' :: '_' :: X.data) ('p' :: '_' :: X.data) ('p' :: '_' :: X.data) ('p' :: '_' :: X.data) ('p' :: '_' :: X.data) ('p' :: '_' :: X.data) ('p' :: '_' :: X.data) ('p' :: '_' :: X.data) ('p' :: '_' :: X.data) X.data) = 1 := by
    rw [walkPass10C m ('p' :: '_' :: X.data) ('p' :: '_' :: X.data) ('p' :: '_' :: X.data) ('p' :: '_' :: X.data) ('p' :: '_' :: X.data) ('p' :: '_' :: X.data) ('p' :: '_' :: X.data) ('p' :: '_' :: X.data) ('p' :: '_' :: X.data) ('p' :: '_' :: X.data) ('p' :: '_' :: X.data) ('p' :: '_' :: X.data) X.data hpx hpx hpx hpx hpx hpx hpx hpx hpx hpx hpx hpx hX, hcx]
  refine ⟨?_, ?_, ?_⟩
  · rw [hc, hxd]
    have hpipe : passesT m (nineL X.data X.data X.data X.data X.data X.data X.data X.data X.data X.data X.data X.data X.data) = nineL ('p' :: '_' :: X.data) ('p' :: '_' :: X.data) ('p' :: '_' :: X.data) ('p' :: '_' :: X.data) ('p' :: '_' :: X.data) ('p' :: '_' :: X.data) ('p' :: '_' :: X.data) ('p' :: '_' :: X.data) ('p' :: '_' :: X.data) ('p' :: '_' :: X.data) ('p' :: '_' :: X.data) ('p' :: '_' :: X.data) ('p' :: '_' :: X.data) := by
      unfold passesT
      rw [hr1, hr2, hr3, hr4, hr5, hr6, hr7, hr8, hr9, hr10]
    rw [hpipe]
    have hpd : ("p_" ++ X).data = 'p' :: '_' :: X.data := by
      simp [String.data_append, patData22]
    have hbr : (nineSurfaceDoc ("p_" ++ X)).data = nineL ('p' :: '_' :: X.data) ('p' :: '_' :: X.data) ('p' :: '_' :: X.data) ('p' :: '_' :: X.data) ('p' :: '_' :: X.data) ('p' :: '_' :: X.data) ('p' :: '_' :: X.data) ('p' :: '_' :: X.data) ('p' :: '_' :: X.data) ('p' :: '_' :: X.data) ('p' :: '_' :: X.data) ('p' :: '_' :: X.data) ('p' :: '_' :: X.data) := by
      rw [nineSurfaceDoc_data ("p_" ++ X), hpd]
    rw [← hbr]
  · rw [hif, hded]
    rfl
  · rw [hrefs, hxd]
    unfold passesC
    rw [hr1, hr2, hr3, hr4, hr5, hr6, hr7, hr8, hr9]
    rw [hk1, hk2, hk3, hk4, hk5, hk6, hk7, hk8, hk9, hk10]

/-- C3 (amended): untabled identifiers whose surface token is fully captured
by the surface pattern are byte-stable, as is all non-identifier text: for any
two identifiers of the shape `[a-zA-Z_][a-zA-Z0-9_-]*` with `Y ≠ X` (in
particular `Y = X2`, a tabled identifier extended by a character), rewriting
the frame document that declares `X` and references only `Y` through the nine
surfaces changes exactly the one declaration and nothing else. -/
theorem C3_frame_amended (X Y : String)
    (hX : wordShapeB X.data = true) (hY : wordShapeB Y.data = true)
    (hXY : Y.data ≠ X.data)
    (hp : "p_".data.isPrefixOf X.data = false) :
    (prefix_svg_ids (frameDoc X Y) "p_" true).content = frameDoc ("p_" ++ X) Y ∧
    (prefix_svg_ids (frameDoc X Y) "p_" true).stats.ids_found = 1 ∧
    (prefix_svg_ids (frameDoc X Y) "p_" true).stats.references_updated = 1 := by
  have hxd := frameDoc_data X Y
  have hcol : collectIds none (frameDoc X Y).data = [X.data] := by
    rw [hxd]
    exact walkCollect X.data Y.data Y.data Y.data Y.data Y.data Y.data Y.data Y.data Y.data Y.data Y.data Y.data hX hY hY hY hY hY hY hY hY hY hY hY hY
  have hded : dedup (collectIds none (frameDoc X Y).data) = [X.data] := by
    rw [hcol]
    rfl
  have htbl : (dedup (collectIds none (frameDoc X Y).data)).filter
      (fun v => !(("p_" : String).data.isPrefixOf v)) = [X.data] := by
    rw [hded]
    simp [List.filter, hp]
  obtain ⟨hc, hif, hrefs⟩ := prefix_svg_ids_run (frameDoc X Y) "p_" true [X.data] htbl rfl
  set m := idLookup [X.data] ("p_" : String).data with hmdef
  have hmx : m X.data = some ('p' :: '_' :: X.data) := by
    rw [hmdef]
    simp [idLookup, patData22]
  have hneq : ('p' :: '_' :: X.data) ≠ X.data := by
    intro he
    have hlen := congrArg List.length he
    simp at hlen
    omega
  have hmpx : m ('p' :: '_' :: X.data) = none := by
    rw [hmdef]
    simp [idLookup, hneq]
  have hmy : m Y.data = none := by
    rw [hmdef]
    simp [idLookup, hXY]
  have hpx : wordShapeB ('p' :: '_' :: X.data) = true := wordShapeB_pfxTok X.data hX
  have hox : mOr m X.data = ('p' :: '_' :: X.data) := by simp [mOr, hmx]
  have hopx : mOr m ('p' :: '_' :: X.data) = ('p' :: '_' :: X.data) := by simp [mOr, hmpx]
  have hoy : mOr m Y.data = Y.data := by simp [mOr, hmy]
  have hcx : mCnt m X.data = 1 := by simp [mCnt, hmx]
  have hcpx : mCnt m ('p' :: '_' :: X.data) = 0 := by simp [mCnt, hmpx]
  have hcy : mCnt m Y.data = 0 := by simp [mCnt, hmy]
  have hr1 : pass1T m none (nineL X.data Y.data Y.data Y.data Y.data Y.data Y.data Y.data Y.data Y.data Y.data Y.data Y.data) = nineL ('p' :: '_' :: X.data) Y.data Y.data Y.data Y.data Y.data Y.data Y.data Y.data Y.data Y.data Y.data Y.data := by
    rw [walkPass1T m X.data Y.data Y.data Y.data Y.data Y.data Y.data Y.data Y.data Y.data Y.data Y.data Y.data hX hY hY hY hY hY hY hY hY hY hY hY hY, hox]
  have hk1 : pass1C m none (nineL X.data Y.data Y.data Y.data Y.data Y.data Y.data Y.data Y.data Y.data Y.data Y.data Y.data) = 1 := by
    rw [walkPass1C m X.data Y.data Y.data Y.data Y.data Y.data Y.data Y.data Y.data Y.data Y.data Y.data Y.data hX hY hY hY hY hY hY hY hY hY hY hY hY, hcx]
  have hr2 : subT (tryHrefHash m) (nineL ('p' :: '_' :: X.data) Y.data Y.data Y.data Y.data Y.data Y.data Y.data Y.data Y.data Y.data Y.data Y.data) = nineL ('p' :: '_' :: X.data) Y.data Y.data Y.data Y.data Y.data Y.data Y.data Y.data Y.data Y.data Y.data Y.data := by
    rw [walkPass2T m ('p' :: '_' :: X.data) Y.data Y.data Y.data Y.data Y.data Y.data Y.data Y.data Y.data Y.data Y.data Y.data hpx hY hY hY hY hY hY hY hY hY hY hY hY, hoy]
  have hk2 : subC (tryHrefHash m) (nineL ('p' :: '_' :: X.data) Y.data Y.data Y.data Y.data Y.data Y.data Y.data Y.data Y.data Y.data Y.data Y.data) = 0 := by
    rw [walkPass2C m ('p' :: '_' :: X.data) Y.data Y.data Y.data Y.data Y.data Y.data Y.data Y.data Y.data Y.data Y.data Y.data hpx hY hY hY hY hY hY hY hY hY hY hY hY, hcy]
  have hr3 : subT (tryHrefUrl m) (nineL ('p' :: '_' :: X.data) Y.data Y.data Y.data Y.data Y.data Y.data Y.data Y.data Y.data Y.data Y.data Y.data) = nineL ('p' :: '_' :: X.data) Y.data Y.data Y.data Y.data Y.data Y.data Y.data Y.data Y.data Y.data Y.data Y.data := by
    rw [walkPass3T m ('p' :: '_' :: X.data) Y.data Y.data Y.data Y.data Y.data Y.data Y.data Y.data Y.data Y.data Y.data Y.data hpx hY hY hY hY hY hY hY hY hY hY hY hY, hoy]
  have hk3 : subC (tryHrefUrl m) (nineL ('p' :: '_' :: X.data) Y.data Y.data Y.data Y.data Y.data Y.data Y.data Y.data Y.data Y.data Y.data Y.data) = 0 := by
    rw [walkPass3C m ('p' :: '_' :: X.data) Y.data Y.data Y.data Y.data Y.data Y.data Y.data Y.data Y.data Y.data Y.data Y.data hpx hY hY hY hY hY hY hY hY hY hY hY hY, hcy]
  have hr4 : subT (tryUrl m) (nineL ('p' :: '_' :: X.data) Y.data Y.data Y.data Y.data Y.data Y.data Y.data Y.data Y.data Y.data Y.data Y.data) = nineL ('p' :: '_' :: X.data) Y.data Y.data Y.data Y.data Y.data Y.data Y.data Y.data Y.data Y.data Y.data Y.data := by
    rw [walkPass4T m ('p' :: '_' :: X.data) Y.data Y.data Y.data Y.data Y.data Y.data Y.data Y.data Y.data Y.data Y.data Y.data hpx hY hY hY hY hY hY hY hY hY hY hY hY, hoy]
  have hk4 : subC (tryUrl m) (nineL ('p' :: '_' :: X.data) Y.data Y.data Y.data Y.data Y.data Y.data Y.data Y.data Y.data Y.data Y.data Y.data) = 0 := by
    rw [walkPass4C m ('p' :: '_' :: X.data) Y.data Y.data Y.data Y.data Y.data Y.data Y.data Y.data Y.data Y.data Y.data Y.data hpx hY hY hY hY hY hY hY hY hY hY hY hY, hcy]
  have hr5 : subT (tryValues m) (nineL ('p' :: '_' :: X.data) Y.data Y.data Y.data Y.data Y.data Y.data Y.data Y.data Y.data Y.data Y.data Y.data) = nineL ('p' :: '_' :: X.data) Y.data Y.data Y.data Y.data Y.data Y.data Y.data Y.data Y.data Y.data Y.data Y.data := by
    rw [walkPass5T m ('p' :: '_' :: X.data) Y.data Y.data Y.data Y.data Y.data Y.data Y.data Y.data Y.data Y.data Y.data Y.data hpx hY hY hY hY hY hY hY hY hY hY hY hY, hoy]
  have hk5 : subC (tryValues m) (nineL ('p' :: '_' :: X.data) Y.data Y.data Y.data Y.data Y.data Y.data Y.data Y.data Y.data Y.data Y.data Y.data) = 0 := by
    rw [walkPass5C m ('p' :: '_' :: X.data) Y.data Y.data Y.data Y.data Y.data Y.data Y.data Y.data Y.data Y.data Y.data Y.data hpx hY hY hY hY hY hY hY hY hY hY hY hY, hcy]
  have hr6 : subT (tryTiming m) (nineL ('p' :: '_' :: X.data) Y.data Y.data Y.data Y.data Y.data Y.data Y.data Y.data Y.data Y.data Y.data Y.data) = nineL ('p' :: '_' :: X.data) Y.data Y.data Y.data Y.data Y.data Y.data Y.data Y.data Y.data Y.data Y.data Y.data := by
    rw [walkPass6T m ('p' :: '_' :: X.data) Y.data Y.data Y.data Y.data Y.data Y.data Y.data Y.data Y.data Y.data Y.data Y.data hpx hY hY hY hY hY hY hY hY hY hY hY hY, hoy]
  have hk6 : subC (tryTiming m) (nineL ('p' :: '_' :: X.data) Y.data Y.data Y.data Y.data Y.data Y.data Y.data Y.data Y.data Y.data Y.data Y.data) = 0 := by
    rw [walkPass6C m ('p' :: '_' :: X.data) Y.data Y.data Y.data Y.data Y.data Y.data Y.data Y.data Y.data Y.data Y.data Y.data hpx hY hY hY hY hY hY hY hY hY hY hY hY, hcy]
  have hr7 : subT (tryFromToBy m) (nineL ('p' :: '_' :: X.data) Y.data Y.data Y.data Y.data Y.data Y.data Y.data Y.data Y.data Y.data Y.data Y.data) = nineL ('p' :: '_' :: X.data) Y.data Y.data Y.data Y.data Y.data Y.data Y.data Y.data Y.data Y.data Y.data Y.data := by
    rw [walkPass7T m ('p' :: '_' :: X.data) Y.data Y.data Y.data Y.data Y.data Y.data Y.data Y.data Y.data Y.data Y.data Y.data hpx hY hY hY hY hY hY hY hY hY hY hY hY, hoy]
  have hk7 : subC (tryFromToBy m) (nineL ('p' :: '_' :: X.data) Y.data Y.data Y.data Y.data Y.data Y.data Y.data Y.data Y.data Y.data Y.data Y.data) = 0 := by
    rw [walkPass7C m ('p' :: '_' :: X.data) Y.data Y.data Y.data Y.data Y.data Y.data Y.data Y.data Y.data Y.data Y.data Y.data hpx hY hY hY hY hY hY hY hY hY hY hY hY, hcy]
  have hr8 : subT (tryGetById m) (nineL ('p' :: '_' :: X.data) Y.data Y.data Y.data Y.data Y.data Y.data Y.data Y.data Y.data Y.data Y.data Y.data) = nineL ('p' :: '_' :: X.data) Y.data Y.data Y.data Y.data Y.data Y.data Y.data Y.data Y.data Y.data Y.data Y.data := by
    rw [walkPass8T m ('p' :: '_' :: X.data) Y.data Y.data Y.data Y.data Y.data Y.data Y.data Y.data Y.data Y.data Y.data Y.data hpx hY hY hY hY hY hY hY hY hY hY hY hY, hoy]
  have hk8 : subC (tryGetById m) (nineL ('p' :: '_' :: X.data) Y.data Y.data Y.data Y.data Y.data Y.data Y.data Y.data Y.data Y.data Y.data Y.data) = 0 := by
    rw [walkPass8C m ('p' :: '_' :: X.data) Y.data Y.data Y.data Y.data Y.data Y.data Y.data Y.data Y.data Y.data Y.data Y.data hpx hY hY hY hY hY hY hY hY hY hY hY hY, hcy]
  have hr9 : subT (tryQuerySel m) (nineL ('p' :: '_' :: X.data) Y.data Y.data Y.data Y.data Y.data Y.data Y.data Y.data Y.data Y.data Y.data Y.data) = nineL ('p' :: '_' :: X.data) Y.data Y.data Y.data Y.data Y.data Y.data Y.data Y.data Y.data Y.data Y.data Y.data := by
    rw [walkPass9T m ('p' :: '_' :: X.data) Y.data Y.data Y.data Y.data Y.data Y.data Y.data Y.data Y.data Y.data Y.data Y.data hpx hY hY hY hY hY hY hY hY hY hY hY hY, hoy]
  have hk9 : subC (tryQuerySel m) (nineL ('p' :: '_' :: X.data) Y.data Y.data Y.data Y.data Y.data Y.data Y.data Y.data Y.data Y.data Y.data Y.data) = 0 := by
    rw [walkPass9C m ('p' :: '_' :: X.data) Y.data Y.data Y.data Y.data Y.data Y.data Y.data Y.data Y.data Y.data Y.data Y.data hpx hY hY hY hY hY hY hY hY hY hY hY hY, hcy]
  have hr10 : subT (tryDataAttr m) (nineL ('p' :: '_' :: X.data) Y.data Y.data Y.data Y.data Y.data Y.data Y.data Y.data Y.data Y.data Y.data Y.data) = nineL ('p' :: '_' :: X.data) Y.data Y.data Y.data Y.data Y.data Y.data Y.data Y.data Y.data Y.data Y.data Y.data := by
    rw [walkPass10T m ('p' :: '_' :: X.data) Y.data Y.data Y.data Y.data Y.data Y.data Y.data Y.data Y.data Y.data Y.data Y.data hpx hY hY hY hY hY hY hY hY hY hY hY hY, hoy]
  have hk10 : subC (tryDataAttr m) (nineL ('p' :: '_' :: X.data) Y.data Y.data Y.data Y.data Y.data Y.data Y.data Y.data Y.data Y.data Y.data Y.data) = 0 := by
    rw [walkPass10C m ('p' :: '_' :: X.data) Y.data Y.data Y.data Y.data Y.data Y.data Y.data Y.data Y.data Y.data Y.data Y.data hpx hY hY hY hY hY hY hY hY hY hY hY hY, hcy]
  refine ⟨?_, ?_, ?_⟩
  · rw [hc, hxd]
    have hpipe : passesT m (nineL X.data Y.data Y.data Y.data Y.data Y.data Y.data Y.data Y.data Y.data Y.data Y.data Y.data) = nineL ('p' :: '_' :: X.data) Y.data Y.data Y.data Y.data Y.data Y.data Y.data Y.data Y.data Y.data Y.data Y.data := by
      unfold passesT
      rw [hr1, hr2, hr3, hr4, hr5, hr6, hr7, hr8, hr9, hr10]
    rw [hpipe]
    have hpd : ("p_" ++ X).data = 'p' :: '_' :: X.data := by
      simp [String.data_append, patData22]
    have hbr : (frameDoc ("p_" ++ X) Y).data = nineL ('p' :: '_' :: X.data) Y.data Y.data Y.data Y.data Y.data Y.data Y.data Y.data Y.data Y.data Y.data Y.data := by
      rw [frameDoc_data ("p_" ++ X) Y, hpd]
    rw [← hbr]
  · rw [hif, hded]
    rfl
  · rw [hrefs, hxd]
    unfold passesC
    rw [hr1, hr2, hr3, hr4, hr5, hr6, hr7, hr8, hr9]
    rw [hk1, hk2, hk3, hk4, hk5, hk6, hk7, hk8, hk9, hk10]

set_option maxRecDepth 20000 in
/-- C1 (counterexample): the completeness claim quantifies over every tabled
identifier, but a declared identifier that starts with a digit (`1a`, matched
and tabled by the declaration pattern) is not rewritten in the timing surface:
after the rewrite the nine-surface document still contains the bare
`begin="1a.click"`, the renamed form appears nowhere, and only 12 of the 13
references are updated. -/
theorem C1_counterexample :
    containsSub (prefix_svg_ids (nineSurfaceDoc "1a") "p_" true).content.data
        ("begin=\"1a.click\"" : String).data = true ∧
    containsSub (prefix_svg_ids (nineSurfaceDoc "1a") "p_" true).content.data
        ("begin=\"p_1a.click\"" : String).data = false ∧
    (prefix_svg_ids (nineSurfaceDoc "1a") "p_" true).stats.references_updated = 12 := by
  refine ⟨by decide, by decide, by decide⟩

/-- Witness for the amended C1 at the concrete identifier `shape1`. -/
theorem C1_nine_surface_witness :
    wordShapeB ("shape1" : String).data = true ∧
    "p_".data.isPrefixOf ("shape1" : String).data = false ∧
    ((prefix_svg_ids (nineSurfaceDoc "shape1") "p_" true).content
        = nineSurfaceDoc ("p_" ++ "shape1") ∧
     (prefix_svg_ids (nineSurfaceDoc "shape1") "p_" true).stats.ids_found = 1 ∧
     (prefix_svg_ids (nineSurfaceDoc "shape1") "p_" true).stats.references_updated = 13) :=
  ⟨by decide, by decide, C1_nine_surface_amended "shape1" (by decide) (by decide)⟩

set_option maxRecDepth 20000 in
/-- C3 (counterexample): the table holds only `a`, so the dotted token `a.b`
is untabled; yet the timing pattern captures only the leading identifier
segment of `a.b.end` and the rewrite changes the occurrence to
`begin="p_a.b.end"` — an occurrence of an untabled identifier is modified. -/
theorem C3_counterexample :
    dedup (collectIds none ("<r id=\"a\"/><an begin=\"a.b.end\"/>" : String).data)
        = [['a']] ∧
    containsSub ("<r id=\"a\"/><an begin=\"a.b.end\"/>" : String).data
        ("begin=\"a.b.end\"" : String).data = true ∧
    containsSub (prefix_svg_ids "<r id=\"a\"/><an begin=\"a.b.end\"/>" "p_" true).content.data
        ("begin=\"p_a.b.end\"" : String).data = true ∧
    containsSub (prefix_svg_ids "<r id=\"a\"/><an begin=\"a.b.end\"/>" "p_" true).content.data
        ("begin=\"a.b.end\"" : String).data = false := by
  refine ⟨by decide, by decide, by decide, by decide⟩

/-- Witness for the amended C3 at `X = a`, `Y = a2` (the claim's own
substring example: the table contains `a` but not `a2`). -/
theorem C3_frame_witness :
    wordShapeB ("a" : String).data = true ∧
    wordShapeB ("a2" : String).data = true ∧
    ("a2" : String).data ≠ ("a" : String).data ∧
    "p_".data.isPrefixOf ("a" : String).data = false ∧
    ((prefix_svg_ids (frameDoc "a" "a2") "p_" true).content = frameDoc ("p_" ++ "a") "a2" ∧
     (prefix_svg_ids (frameDoc "a" "a2") "p_" true).stats.ids_found = 1 ∧
     (prefix_svg_ids (frameDoc "a" "a2") "p_" true).stats.references_updated = 1) :=
  ⟨by decide, by decide, by decide, by decide,
    C3_frame_amended "a" "a2" (by decide) (by decide) (by decide) (by decide)⟩

end FbfSvg
